import Mathlib

/-!
Verification of the modal text-editing engine of the senterm file manager.

The editor lives in `src/viewer/editor.rs` (buffer, cursor, motions, edit
primitives, registers, undo/redo, search, visual selection) and
`src/events/editor.rs` (the mode-routed key handlers and the command-line
parser).  Lines are modelled as `List Char`: the Rust code performs all
indexing in character units, converting to byte offsets only through
`char_to_byte_index` at well-formed boundaries, so char-level lists are a
faithful model (UTF-8 is self-synchronising, hence substring searches can
only match at character boundaries).  Rust `usize` subtraction appears only
in `saturating_sub` position or under guards that keep it non-negative, so
truncated `Nat` subtraction models it.  Slice expressions that would panic
in Rust on out-of-range indices are modelled with the clamping `take`/`drop`
operations.  Most such spots are unreachable through the handlers, but the
visual-selection slices `chars[sc..=ec.min(chars.len().saturating_sub(1))]`
of `delete_visual_selection` and `yank_visual_selection` DO panic on
reachable states — any character-wise selection whose end line is empty,
e.g. `v` then `d` on an empty buffer — so there the models complete where
the Rust aborts; every theorem whose conclusion needs those primitives to
complete therefore carries an explicit `delete_visual_selection_in_bounds`
hypothesis restricting it to the Rust function's non-panicking domain.
External effects (file save/reload, the system clipboard) are supplied by a
`World` oracle.
-/

/-- Character list of a string literal. -/
def cs (s : String) : List Char := s.data

/-- Unicode White_Space code points, the set recognised by Rust
`char::is_whitespace`. -/
def rsIsWhitespace (c : Char) : Bool :=
  [0x09, 0x0A, 0x0B, 0x0C, 0x0D, 0x20, 0x85, 0xA0, 0x1680,
   0x2000, 0x2001, 0x2002, 0x2003, 0x2004, 0x2005, 0x2006, 0x2007,
   0x2008, 0x2009, 0x200A, 0x2028, 0x2029, 0x202F, 0x205F, 0x3000].contains c.toNat

/-- ASCII restriction of Rust `char::is_alphanumeric` (the Rust predicate is
the full Unicode class; the two agree on ASCII and no claim below depends on
the classification of non-ASCII letters). -/
def rsIsAlphanumeric (c : Char) : Bool := c.isAlpha || c.isDigit

/-- `is_word_char` from `editor.rs`: alphanumeric or underscore. -/
def isWordChar (c : Char) : Bool := rsIsAlphanumeric c || c = '_'

/-- ASCII restriction of Rust `char::to_uppercase().next()` (agrees on ASCII;
no claim depends on non-ASCII case mapping). -/
def rsToUpper (c : Char) : Char := c.toUpper

/-- ASCII restriction of Rust `char::to_lowercase().next()`. -/
def rsToLower (c : Char) : Char := c.toLower

/-- ASCII restriction of Rust `char::is_lowercase`. -/
def rsIsLowercase (c : Char) : Bool := c.isLower

/-- Length of the leading run of characters satisfying `p`; models the Rust
loops `while col < len && p(chars[col]) { col += 1 }` via
`col + countLeading p (chars.drop col)`. -/
def countLeading (p : Char → Bool) : List Char → Nat
  | [] => 0
  | c :: r => if p c then countLeading p r + 1 else 0

/-- Whether `pat` matches at the head of `l` (Rust `str::starts_with`). -/
def leadingMatch : List Char → List Char → Bool
  | [], _ => true
  | _ :: _, [] => false
  | p :: ps, c :: rest => p = c && leadingMatch ps rest

/-- Leftmost character index (if any) at which `pat` occurs in `l`; models
Rust `str::find` up to char/byte index conversion. -/
def findSub (pat : List Char) : List Char → Option Nat
  | [] => if pat = [] then some 0 else none
  | c :: rest =>
    if leadingMatch pat (c :: rest) then some 0
    else (findSub pat rest).map (· + 1)

/-- Rightmost character index (if any) at which `pat` occurs in `l`; models
Rust `str::rfind`. -/
def rfindSub (pat : List Char) : List Char → Option Nat
  | [] => if pat = [] then some 0 else none
  | c :: rest =>
    match rfindSub pat rest with
    | some i => some (i + 1)
    | none => if leadingMatch pat (c :: rest) then some 0 else none

/-- Rust `str::contains` for literal patterns. -/
def containsSub (pat l : List Char) : Bool := (findSub pat l).isSome

/-- Number of non-overlapping leftmost-first matches of the non-empty pattern
`p :: ps`; models Rust `str::matches(pat).count()` for non-empty `pat`. -/
def countMatchesGo (p : Char) (ps : List Char) : List Char → Nat
  | [] => 0
  | c :: rest =>
    if leadingMatch (p :: ps) (c :: rest) then
      countMatchesGo p ps (rest.drop ps.length) + 1
    else
      countMatchesGo p ps rest
termination_by l => l.length
decreasing_by
  · simp only [List.length_cons, List.length_drop]; omega
  · simp only [List.length_cons]; omega

/-- Rust `str::matches(pat).count()`: for the empty pattern there is a match
at every character boundary. -/
def countMatches (pat l : List Char) : Nat :=
  match pat with
  | [] => l.length + 1
  | p :: ps => countMatchesGo p ps l

/-- Replacement of every non-overlapping leftmost-first match of `p :: ps` by
`rep`; models Rust `str::replace` for non-empty patterns. -/
def replaceAllGo (p : Char) (ps rep : List Char) : List Char → List Char
  | [] => []
  | c :: rest =>
    if leadingMatch (p :: ps) (c :: rest) then
      rep ++ replaceAllGo p ps rep (rest.drop ps.length)
    else
      c :: replaceAllGo p ps rep rest
termination_by l => l.length
decreasing_by
  · simp only [List.length_cons, List.length_drop]; omega
  · simp only [List.length_cons]; omega

/-- Rust `str::replace`: with an empty pattern the replacement is inserted at
every character boundary. -/
def replaceAllStr (pat rep l : List Char) : List Char :=
  match pat with
  | [] => rep ++ l.foldr (fun c acc => c :: rep ++ acc) []
  | p :: ps => replaceAllGo p ps rep l

/-- Rust `str::replacen(pat, rep, 1)`: replace only the first occurrence. -/
def replaceFirst (pat rep l : List Char) : List Char :=
  match findSub pat l with
  | some i => l.take i ++ rep ++ l.drop (i + pat.length)
  | none => l

/-- First split of `l` at the separator, if the separator occurs. -/
def splitFirst (sep : Char) : List Char → Option (List Char × List Char)
  | [] => none
  | c :: r =>
    if c = sep then some ([], r)
    else (splitFirst sep r).map (fun ab => (c :: ab.1, ab.2))

/-- Rust `str::splitn(3, sep)`: at most three parts, the last one unsplit. -/
def splitn3 (sep : Char) (l : List Char) : List (List Char) :=
  match splitFirst sep l with
  | none => [l]
  | some (a, rest) =>
    match splitFirst sep rest with
    | none => [a, rest]
    | some (b, rest2) => [a, b, rest2]

/-- Strip one trailing carriage return, as Rust `str::lines` does from every
line terminated by a line feed. -/
def stripCR (l : List Char) : List Char :=
  if l.getLast? = some '\r' then l.dropLast else l

/-- Worker for `rustLines`: `cur` is the text of the current line accumulated
so far.  A final unterminated segment is emitted without carriage-return
stripping, and only when non-empty, exactly as Rust `str::lines`. -/
def rustLinesGo : List Char → List Char → List (List Char)
  | cur, [] => if cur = [] then [] else [cur]
  | cur, c :: rest =>
    if c = '\n' then stripCR cur :: rustLinesGo [] rest
    else rustLinesGo (cur ++ [c]) rest

/-- Rust `str::lines().collect()`. -/
def rustLines (s : List Char) : List (List Char) := rustLinesGo [] s

/-- Rust `Vec<String>::join("\n")`. -/
def joinNL : List (List Char) → List Char
  | [] => []
  | [l] => l
  | l :: rest => l ++ '\n' :: joinNL rest

/-- Rust `String::len` of a char list: total UTF-8 byte length (used only in
status texts that report byte counts). -/
def utf8Len (l : List Char) : Nat := (l.map Char.utf8Size).sum

/-- Apply `f` to an element `n` times (Rust `for _ in 0..n` loops). -/
def applyN {α : Type} (f : α → α) : Nat → α → α
  | 0, a => a
  | n + 1, a => applyN f n (f a)

/-- `EditorStyle` from `editor.rs`. -/
inductive EditorStyle
  | Vim
  | Nano
deriving DecidableEq, Repr

/-- `VimMode` from `editor.rs`. -/
inductive VimMode
  | Normal
  | Insert
  | Command
  | Visual
  | VisualLine
deriving DecidableEq, Repr

/-- `PendingOperator` from `editor.rs`. -/
inductive PendingOperator
  | None
  | Delete
  | Yank
  | Change
  | Indent
  | Outdent
deriving DecidableEq, Repr

/-- The `TextEditor` struct from `editor.rs`.  `file_path` is not modelled
(it is consulted only by the external save/reload collaborators, whose
results the `World` oracle supplies); `editor_style` and `nano_search_mode`
are kept because the key dispatcher branches on them. -/
structure TextEditor where
  lines : List (List Char)
  cursor_row : Nat
  cursor_col : Nat
  mode : VimMode
  editor_style : EditorStyle
  command_buffer : List Char
  clipboard : List (List Char)
  clipboard_is_line : Bool
  status_message : String
  modified : Bool
  pending_op : PendingOperator
  undo_stack : List (List (List Char) × Nat × Nat)
  redo_stack : List (List (List Char) × Nat × Nat)
  search_pattern : List Char
  search_direction : Bool
  last_search_row : Nat
  last_search_col : Nat
  visual_start_row : Nat
  visual_start_col : Nat
  count_buffer : List Char
  nano_search_mode : Bool
deriving DecidableEq, Repr

/-- Results of the caller-provided external collaborators consumed during one
key event: `saveOk` is the outcome of `save_file`, `reload` is
`file_path.map (fs::read_to_string(path).ok())` used by `:e!` (outer `none`
means no file path), `copyRes`/`pasteRes` are the system-clipboard hooks
(`none`-error carries the foreign error text). -/
structure World where
  saveOk : Bool
  reload : Option (Option (List Char))
  copyErr : Option String
  pasteRes : Except String (List Char)
deriving Repr

/-- A quiescent oracle for concrete test traces. -/
def World.quiet : World := ⟨false, none, none, Except.error ""⟩

/-- The subset of crossterm `KeyCode` values the editor handlers inspect. -/
inductive Key
  | char (c : Char)
  | esc
  | enter
  | backspace
  | delete
  | tab
  | left
  | right
  | up
  | down
  | home
  | endKey
  | pageUp
  | pageDown
deriving DecidableEq, Repr

/-- `TextEditor::new` from `editor.rs`. -/
def TextEditor.new (content : List Char) : TextEditor :=
  let lines := rustLines content
  let lines := if lines = [] then [[]] else lines
  { lines := lines
    cursor_row := 0
    cursor_col := 0
    mode := VimMode.Normal
    editor_style := EditorStyle.Vim
    command_buffer := []
    clipboard := []
    clipboard_is_line := false
    status_message := "-- NORMAL --"
    modified := false
    pending_op := PendingOperator.None
    undo_stack := []
    redo_stack := []
    search_pattern := []
    search_direction := true
    last_search_row := 0
    last_search_col := 0
    visual_start_row := 0
    visual_start_col := 0
    count_buffer := []
    nano_search_mode := false }

/-- `TextEditor::toggle_editor_style`. -/
def TextEditor.toggle_editor_style (ed : TextEditor) : TextEditor :=
  let ed :=
    match ed.editor_style with
    | EditorStyle.Vim =>
      { ed with
        editor_style := EditorStyle.Nano
        mode := VimMode.Insert
        status_message := "-- NANO MODE -- ^X:Exit ^O:Save ^K:Cut ^U:Paste ^W:Search" }
    | EditorStyle.Nano =>
      { ed with
        editor_style := EditorStyle.Vim
        mode := VimMode.Normal
        status_message := "-- NORMAL --" }
  { ed with
    pending_op := PendingOperator.None
    count_buffer := []
    nano_search_mode := false }

/-- Numeric value of the digit string in `count_buffer`; Rust
`parse::<usize>().unwrap_or(1).max(1)`.  The buffer only ever holds ASCII
digits (`handle_normal_mode_keys` pushes nothing else), and `Nat` does not
overflow, so the `unwrap_or` branch only covers the empty buffer. -/
def parseCount (cb : List Char) : Nat :=
  if cb = [] then 1
  else max 1 (cb.foldl (fun n c => n * 10 + (c.toNat - 48)) 0)

/-- `TextEditor::get_count`: the parsed count paired with the state whose
count buffer has been consumed. -/
def TextEditor.get_count (ed : TextEditor) : Nat × TextEditor :=
  (parseCount ed.count_buffer, { ed with count_buffer := [] })

/-- `TextEditor::save_undo`: push a full snapshot, clear the redo stack, and
evict the oldest entry beyond 100.  The newest entry is at the head here,
so Rust `Vec::remove(0)` (oldest) is `dropLast`. -/
def TextEditor.save_undo (ed : TextEditor) : TextEditor :=
  let us := (ed.lines, ed.cursor_row, ed.cursor_col) :: ed.undo_stack
  { ed with
    undo_stack := if us.length > 100 then us.dropLast else us
    redo_stack := [] }

/-- `TextEditor::get_current_line` (`unwrap_or("")` on a bad row). -/
def TextEditor.get_current_line (ed : TextEditor) : List Char :=
  ed.lines.getD ed.cursor_row []

/-- `TextEditor::clamp_cursor_col`. -/
def TextEditor.clamp_cursor_col (ed : TextEditor) : TextEditor :=
  let line_len := ed.get_current_line.length
  let max_col := if ed.mode = VimMode.Insert then line_len else line_len - 1
  { ed with cursor_col := min ed.cursor_col max_col }

/-- `TextEditor::undo`. -/
def TextEditor.undo (ed : TextEditor) : TextEditor :=
  match ed.undo_stack with
  | [] => { ed with status_message := "Already at oldest change" }
  | (lines, row, col) :: rest =>
    TextEditor.clamp_cursor_col
      { ed with
        undo_stack := rest
        redo_stack := (ed.lines, ed.cursor_row, ed.cursor_col) :: ed.redo_stack
        lines := lines
        cursor_row := min row (lines.length - 1)
        cursor_col := col
        status_message := "Undo" }

/-- `TextEditor::redo`. -/
def TextEditor.redo (ed : TextEditor) : TextEditor :=
  match ed.redo_stack with
  | [] => { ed with status_message := "Already at newest change" }
  | (lines, row, col) :: rest =>
    TextEditor.clamp_cursor_col
      { ed with
        redo_stack := rest
        undo_stack := (ed.lines, ed.cursor_row, ed.cursor_col) :: ed.undo_stack
        lines := lines
        cursor_row := min row (lines.length - 1)
        cursor_col := col
        status_message := "Redo" }

/-- `TextEditor::get_content`. -/
def TextEditor.get_content (ed : TextEditor) : List Char := joinNL ed.lines

/-- `TextEditor::move_cursor_left`. -/
def TextEditor.move_cursor_left (ed : TextEditor) : TextEditor :=
  if ed.cursor_col > 0 then { ed with cursor_col := ed.cursor_col - 1 } else ed

/-- `TextEditor::move_cursor_right`. -/
def TextEditor.move_cursor_right (ed : TextEditor) : TextEditor :=
  let line_len := ed.get_current_line.length
  let max_col := if ed.mode = VimMode.Insert then line_len else line_len - 1
  if ed.cursor_col < max_col then { ed with cursor_col := ed.cursor_col + 1 } else ed

/-- `TextEditor::move_cursor_up`. -/
def TextEditor.move_cursor_up (ed : TextEditor) : TextEditor :=
  if ed.cursor_row > 0 then
    TextEditor.clamp_cursor_col { ed with cursor_row := ed.cursor_row - 1 }
  else ed

/-- `TextEditor::move_cursor_down`. -/
def TextEditor.move_cursor_down (ed : TextEditor) : TextEditor :=
  if ed.cursor_row < ed.lines.length - 1 then
    TextEditor.clamp_cursor_col { ed with cursor_row := ed.cursor_row + 1 }
  else ed

/-- `TextEditor::move_to_line_start`. -/
def TextEditor.move_to_line_start (ed : TextEditor) : TextEditor :=
  { ed with cursor_col := 0 }

/-- `TextEditor::move_to_line_end`. -/
def TextEditor.move_to_line_end (ed : TextEditor) : TextEditor :=
  let line_len := ed.get_current_line.length
  { ed with cursor_col := if ed.mode = VimMode.Insert then line_len else line_len - 1 }

/-- `TextEditor::move_to_first_line`. -/
def TextEditor.move_to_first_line (ed : TextEditor) : TextEditor :=
  { ed with cursor_row := 0, cursor_col := 0 }

/-- `TextEditor::move_to_last_line`. -/
def TextEditor.move_to_last_line (ed : TextEditor) : TextEditor :=
  { ed with cursor_row := ed.lines.length - 1, cursor_col := 0 }

/-- `TextEditor::move_to_line` (1-indexed, clamped). -/
def TextEditor.move_to_line (ed : TextEditor) (line_num : Nat) : TextEditor :=
  if line_num > 0 then
    { ed with cursor_row := min (line_num - 1) (ed.lines.length - 1), cursor_col := 0 }
  else ed

/-- `TextEditor::move_to_first_nonblank`. -/
def TextEditor.move_to_first_nonblank (ed : TextEditor) : TextEditor :=
  { ed with
    cursor_col := (ed.get_current_line.findIdx? (fun c => !rsIsWhitespace c)).getD 0 }

/-- `TextEditor::move_word_forward`.  The three Rust `while` loops each scan a
leading run from the current column, modelled with `countLeading` on the
dropped suffix. -/
def TextEditor.move_word_forward (ed : TextEditor) : TextEditor :=
  let chars := ed.get_current_line
  let len := chars.length
  if ed.cursor_col ≥ len then
    if ed.cursor_row < ed.lines.length - 1 then
      TextEditor.move_to_first_nonblank
        { ed with cursor_row := ed.cursor_row + 1, cursor_col := 0 }
    else ed
  else
    let col := ed.cursor_col
    let cur := chars.getD col (Char.ofNat 0)
    let col :=
      if isWordChar cur then
        col + countLeading isWordChar (chars.drop col)
      else if !rsIsWhitespace cur then
        col + countLeading (fun c => !rsIsWhitespace c && !isWordChar c) (chars.drop col)
      else col
    let col := col + countLeading rsIsWhitespace (chars.drop col)
    if col ≥ len then
      if ed.cursor_row < ed.lines.length - 1 then
        TextEditor.move_to_first_nonblank
          { ed with cursor_row := ed.cursor_row + 1, cursor_col := 0 }
      else { ed with cursor_col := len - 1 }
    else { ed with cursor_col := col }

/-- Descending scan `while col > 0 && p(chars[col]) { col -= 1 }`. -/
def scanBackWhileAt (p : Char → Bool) (chars : List Char) : Nat → Nat
  | 0 => 0
  | col + 1 =>
    if p (chars.getD (col + 1) (Char.ofNat 0)) then scanBackWhileAt p chars col
    else col + 1

/-- Descending scan `while col > 0 && p(chars[col-1]) { col -= 1 }`. -/
def scanBackWhileBefore (p : Char → Bool) (chars : List Char) : Nat → Nat
  | 0 => 0
  | col + 1 =>
    if p (chars.getD col (Char.ofNat 0)) then scanBackWhileBefore p chars col
    else col + 1

/-- `TextEditor::move_word_backward`. -/
def TextEditor.move_word_backward (ed : TextEditor) : TextEditor :=
  if ed.cursor_col = 0 then
    if ed.cursor_row > 0 then
      let ed := { ed with cursor_row := ed.cursor_row - 1 }
      { ed with cursor_col := ed.get_current_line.length - 1 }
    else ed
  else
    let chars := ed.get_current_line
    let col := ed.cursor_col - 1
    let col := scanBackWhileAt rsIsWhitespace chars col
    let c := chars.getD col (Char.ofNat 0)
    let col :=
      if isWordChar c then scanBackWhileBefore isWordChar chars col
      else if !rsIsWhitespace c then
        scanBackWhileBefore (fun d => !rsIsWhitespace d && !isWordChar d) chars col
      else col
    { ed with cursor_col := col }

/-- The `while col < len-1` word-end scan shared by `move_word_end`. -/
def wordEndScan (chars : List Char) (col : Nat) : Nat :=
  if col < chars.length - 1 then
    let c := chars.getD col (Char.ofNat 0)
    let c1 := chars.getD (col + 1) (Char.ofNat 0)
    if isWordChar c then
      if !isWordChar c1 then col else wordEndScan chars (col + 1)
    else if !rsIsWhitespace c then
      if rsIsWhitespace c1 || isWordChar c1 then col else wordEndScan chars (col + 1)
    else wordEndScan chars (col + 1)
  else col
termination_by chars.length - col
decreasing_by all_goals omega

/-- `TextEditor::move_word_end`. -/
def TextEditor.move_word_end (ed : TextEditor) : TextEditor :=
  let chars := ed.get_current_line
  let len := chars.length
  if ed.cursor_col ≥ len - 1 then
    if ed.cursor_row < ed.lines.length - 1 then
      { ed with cursor_row := ed.cursor_row + 1, cursor_col := 0 }
    else ed
  else
    let col := ed.cursor_col + 1
    let col := col + countLeading rsIsWhitespace (chars.drop col)
    if col ≥ len then
      if ed.cursor_row < ed.lines.length - 1 then
        let ed := { ed with cursor_row := ed.cursor_row + 1, cursor_col := 0 }
        let newChars := ed.get_current_line
        let newCol := countLeading rsIsWhitespace newChars
        { ed with cursor_col := wordEndScan newChars newCol }
      else ed
    else
      { ed with cursor_col := min (wordEndScan chars col) (len - 1) }

/-- `TextEditor::move_half_page_down`. -/
def TextEditor.move_half_page_down (ed : TextEditor) : TextEditor :=
  TextEditor.clamp_cursor_col
    { ed with cursor_row := min (ed.cursor_row + 15) (ed.lines.length - 1) }

/-- `TextEditor::move_half_page_up`. -/
def TextEditor.move_half_page_up (ed : TextEditor) : TextEditor :=
  TextEditor.clamp_cursor_col { ed with cursor_row := ed.cursor_row - 15 }

/-- `TextEditor::move_page_down`. -/
def TextEditor.move_page_down (ed : TextEditor) : TextEditor :=
  TextEditor.clamp_cursor_col
    { ed with cursor_row := min (ed.cursor_row + 30) (ed.lines.length - 1) }

/-- `TextEditor::move_page_up`. -/
def TextEditor.move_page_up (ed : TextEditor) : TextEditor :=
  TextEditor.clamp_cursor_col { ed with cursor_row := ed.cursor_row - 30 }

/-- Forward scan of `move_to_matching_bracket`: depth-counting walk from
`(row, col)` to the end of the buffer. -/
def bracketScanFwd (lines : List (List Char)) (cur target : Char) :
    Nat → Nat → Nat → Option (Nat × Nat)
  | depth, row, col =>
    if row < lines.length then
      if col < (lines.getD row []).length then
        let ch := (lines.getD row []).getD col (Char.ofNat 0)
        if ch = cur then bracketScanFwd lines cur target (depth + 1) row (col + 1)
        else if ch = target then
          if depth = 1 then some (row, col)
          else bracketScanFwd lines cur target (depth - 1) row (col + 1)
        else bracketScanFwd lines cur target depth row (col + 1)
      else bracketScanFwd lines cur target depth (row + 1) 0
    else none
termination_by _ row col => (lines.length - row, (lines.getD row []).length - col)
decreasing_by
  all_goals simp_wf
  all_goals simp only [List.getD, List.get?_eq_getElem?] at *
  all_goals first
  | (left; omega)
  | (right; omega)

/-- Backward scan of `move_to_matching_bracket`: the nested Rust loops walk
positions downward, skipping columns past the end of short lines. -/
def bracketScanBack (lines : List (List Char)) (cur target : Char) :
    Nat → Nat → Nat → Option (Nat × Nat)
  | depth, row, col =>
    let lc := lines.getD row []
    let found :=
      if col < lc.length then
        let ch := lc.getD col (Char.ofNat 0)
        if ch = cur then Sum.inl (depth + 1)
        else if ch = target then
          if depth = 1 then Sum.inr (row, col) else Sum.inl (depth - 1)
        else Sum.inl depth
      else Sum.inl depth
    match found with
    | Sum.inr rc => some rc
    | Sum.inl depth' =>
      if col = 0 then
        if row = 0 then none
        else bracketScanBack lines cur target depth' (row - 1)
          ((lines.getD (row - 1) []).length - 1)
      else bracketScanBack lines cur target depth' row (col - 1)
termination_by _ row col => (row, col)
decreasing_by
  all_goals simp_wf
  all_goals omega

/-- Apply a found position to the cursor (the `Some` arm of the bracket
scan in `move_to_matching_bracket`). -/
def jumpTo (ed : TextEditor) : Option (Nat × Nat) → TextEditor
  | some (r, c) => { ed with cursor_row := r, cursor_col := c }
  | none => ed

/-- `TextEditor::move_to_matching_bracket`. -/
def TextEditor.move_to_matching_bracket (ed : TextEditor) : TextEditor :=
  let chars := ed.get_current_line
  if ed.cursor_col ≥ chars.length then ed
  else
    let current := chars.getD ed.cursor_col (Char.ofNat 0)
    let tf : Option (Char × Bool) :=
      if current = '(' then some (')', true)
      else if current = ')' then some ('(', false)
      else if current = '[' then some (']', true)
      else if current = ']' then some ('[', false)
      else if current = '{' then some ('}', true)
      else if current = '}' then some ('{', false)
      else if current = '<' then some ('>', true)
      else if current = '>' then some ('<', false)
      else none
    match tf with
    | none => ed
    | some (target, forward) =>
      let res :=
        if forward then
          bracketScanFwd ed.lines current target 1 ed.cursor_row (ed.cursor_col + 1)
        else
          if ed.cursor_col > 0 then
            bracketScanBack ed.lines current target 1 ed.cursor_row (ed.cursor_col - 1)
          else if ed.cursor_row > 0 then
            bracketScanBack ed.lines current target 1 (ed.cursor_row - 1)
              ((ed.lines.getD (ed.cursor_row - 1) []).length - 1)
          else
            bracketScanBack ed.lines current target 1 0 0
      jumpTo ed res

/-- `TextEditor::enter_insert_mode`. -/
def TextEditor.enter_insert_mode (ed : TextEditor) : TextEditor :=
  { ed with
    mode := VimMode.Insert
    pending_op := PendingOperator.None
    count_buffer := []
    status_message := "-- INSERT --" }

/-- `TextEditor::enter_normal_mode`. -/
def TextEditor.enter_normal_mode (ed : TextEditor) : TextEditor :=
  TextEditor.clamp_cursor_col
    { ed with
      mode := VimMode.Normal
      pending_op := PendingOperator.None
      count_buffer := []
      command_buffer := []
      status_message := "-- NORMAL --" }

/-- `TextEditor::enter_command_mode`. -/
def TextEditor.enter_command_mode (ed : TextEditor) : TextEditor :=
  { ed with
    mode := VimMode.Command
    pending_op := PendingOperator.None
    count_buffer := []
    command_buffer := []
    status_message := ":" }

/-- `TextEditor::enter_visual_mode`. -/
def TextEditor.enter_visual_mode (ed : TextEditor) : TextEditor :=
  { ed with
    mode := VimMode.Visual
    visual_start_row := ed.cursor_row
    visual_start_col := ed.cursor_col
    pending_op := PendingOperator.None
    count_buffer := []
    status_message := "-- VISUAL --" }

/-- `TextEditor::enter_visual_line_mode`. -/
def TextEditor.enter_visual_line_mode (ed : TextEditor) : TextEditor :=
  { ed with
    mode := VimMode.VisualLine
    visual_start_row := ed.cursor_row
    visual_start_col := 0
    pending_op := PendingOperator.None
    count_buffer := []
    status_message := "-- VISUAL LINE --" }

/-- `TextEditor::delete_char` (Normal-mode `x`): `save_undo` first, then
remove the character under the cursor into the register. -/
def TextEditor.delete_char (ed : TextEditor) : TextEditor :=
  let ed := ed.save_undo
  let line := ed.get_current_line
  if ed.cursor_col < line.length then
    let ch := line.getD ed.cursor_col (Char.ofNat 0)
    TextEditor.clamp_cursor_col
      { ed with
        lines := ed.lines.set ed.cursor_row (line.eraseIdx ed.cursor_col)
        clipboard := [[ch]]
        clipboard_is_line := false
        modified := true }
  else ed

/-- `TextEditor::delete_char_before` (`X`). -/
def TextEditor.delete_char_before (ed : TextEditor) : TextEditor :=
  if ed.cursor_col > 0 then
    let ed := ed.save_undo
    let ed := { ed with cursor_col := ed.cursor_col - 1 }
    let line := ed.get_current_line
    let ch := line.getD ed.cursor_col (Char.ofNat 0)
    let clip : List (List Char) :=
      if ed.cursor_col < line.length then [[ch]] else ed.clipboard
    let clipLine :=
      if ed.cursor_col < line.length then false else ed.clipboard_is_line
    { ed with
      lines := ed.lines.set ed.cursor_row (line.eraseIdx ed.cursor_col)
      clipboard := clip
      clipboard_is_line := clipLine
      modified := true }
  else ed

/-- `TextEditor::delete_line` (`dd` on the last remaining line clears it
instead of removing it). -/
def TextEditor.delete_line (ed : TextEditor) : TextEditor :=
  let ed := ed.save_undo
  if ed.lines.length > 1 then
    let deleted := ed.lines.getD ed.cursor_row []
    let lines := ed.lines.eraseIdx ed.cursor_row
    let row := if ed.cursor_row ≥ lines.length then lines.length - 1 else ed.cursor_row
    { ed with
      lines := lines
      clipboard := [deleted]
      clipboard_is_line := true
      cursor_row := row
      modified := true }
  else
    { ed with
      clipboard := [ed.lines.getD 0 []]
      clipboard_is_line := true
      lines := ed.lines.set 0 []
      cursor_col := 0
      modified := true }

/-- `TextEditor::yank_line` (`Y`). -/
def TextEditor.yank_line (ed : TextEditor) : TextEditor :=
  { ed with
    clipboard := [ed.get_current_line]
    clipboard_is_line := true
    status_message := "1 line yanked" }

/-- `TextEditor::yank_lines` (`yy` with a count). -/
def TextEditor.yank_lines (ed : TextEditor) (count : Nat) : TextEditor :=
  let endIdx := min (ed.cursor_row + count) ed.lines.length
  let clip := (ed.lines.drop ed.cursor_row).take (endIdx - ed.cursor_row)
  { ed with
    clipboard := clip
    clipboard_is_line := true
    status_message := toString clip.length ++ " lines yanked" }

/-- `TextEditor::yank_to_end` (`y$`). -/
def TextEditor.yank_to_end (ed : TextEditor) : TextEditor :=
  { ed with
    clipboard := [ed.get_current_line.drop ed.cursor_col]
    clipboard_is_line := false
    status_message := "Yanked to end of line" }

/-- `TextEditor::delete_to_end` (`D` / `d$`). -/
def TextEditor.delete_to_end (ed : TextEditor) : TextEditor :=
  let ed := ed.save_undo
  let chars := ed.lines.getD ed.cursor_row []
  TextEditor.clamp_cursor_col
    { ed with
      clipboard := [chars.drop ed.cursor_col]
      clipboard_is_line := false
      lines := ed.lines.set ed.cursor_row (chars.take ed.cursor_col)
      modified := true }

/-- `TextEditor::delete_lines` (`dd` with a count): drain the rows, re-insert
one empty line if the buffer became empty. -/
def TextEditor.delete_lines (ed : TextEditor) (count : Nat) : TextEditor :=
  let ed := ed.save_undo
  let endIdx := min (ed.cursor_row + count) ed.lines.length
  let drained := (ed.lines.drop ed.cursor_row).take (endIdx - ed.cursor_row)
  let lines := ed.lines.take ed.cursor_row ++ ed.lines.drop endIdx
  let lines := if lines = [] then [[]] else lines
  { ed with
    lines := lines
    clipboard := drained
    clipboard_is_line := true
    cursor_row := min ed.cursor_row (lines.length - 1)
    cursor_col := 0
    modified := true
    status_message := toString drained.length ++ " lines deleted" }

/-- `TextEditor::paste_after` (`p`): line-wise registers insert whole lines
below, character-wise text splices into the current line after the cursor. -/
def TextEditor.paste_after (ed : TextEditor) : TextEditor :=
  if ed.clipboard = [] then ed
  else
    let ed := ed.save_undo
    let ed :=
      if ed.clipboard_is_line then
        { ed with
          lines := ed.lines.take (ed.cursor_row + 1) ++ ed.clipboard ++
            ed.lines.drop (ed.cursor_row + 1)
          cursor_row := ed.cursor_row + 1
          cursor_col := 0 }
      else
        let text := joinNL ed.clipboard
        let cursor_col := ed.cursor_col + 1
        let line := ed.get_current_line
        let at_ := min cursor_col line.length
        { ed with
          lines := ed.lines.set ed.cursor_row (line.take at_ ++ text ++ line.drop at_)
          cursor_col := cursor_col + text.length - 1 }
    { ed with modified := true }

/-- `TextEditor::paste_before` (`P`). -/
def TextEditor.paste_before (ed : TextEditor) : TextEditor :=
  if ed.clipboard = [] then ed
  else
    let ed := ed.save_undo
    let ed :=
      if ed.clipboard_is_line then
        { ed with
          lines := ed.lines.take ed.cursor_row ++ ed.clipboard ++
            ed.lines.drop ed.cursor_row
          cursor_col := 0 }
      else
        let text := joinNL ed.clipboard
        let line := ed.get_current_line
        let at_ := min ed.cursor_col line.length
        { ed with
          lines := ed.lines.set ed.cursor_row (line.take at_ ++ text ++ line.drop at_)
          cursor_col := ed.cursor_col + text.length }
    { ed with modified := true }

/-- `TextEditor::paste_text` (system-clipboard paste). -/
def TextEditor.paste_text (ed : TextEditor) (text : List Char) : TextEditor :=
  if text = [] then ed
  else
    let ed := ed.save_undo
    let paste_lines := rustLines text
    let ed :=
      if paste_lines.length = 1 then
        let pl0 := paste_lines.getD 0 []
        let line := ed.get_current_line
        let at_ := min ed.cursor_col line.length
        { ed with
          lines := ed.lines.set ed.cursor_row (line.take at_ ++ pl0 ++ line.drop at_)
          cursor_col := ed.cursor_col + pl0.length }
      else
        let chars := ed.lines.getD ed.cursor_row []
        let before := chars.take ed.cursor_col
        let after := chars.drop ed.cursor_col
        let pl0 := paste_lines.getD 0 []
        let mid := (paste_lines.drop 1).take (paste_lines.length - 2)
        let lastLine := paste_lines.getLastD []
        let insert_idx := ed.cursor_row + paste_lines.length - 1
        { ed with
          lines := ed.lines.take ed.cursor_row ++ [before ++ pl0] ++ mid ++
            [lastLine ++ after] ++ ed.lines.drop (ed.cursor_row + 1)
          cursor_row := insert_idx
          cursor_col := lastLine.length }
    let ed := { ed with modified := true }
    if ed.mode = VimMode.Normal then ed.enter_insert_mode else ed


/-- `TextEditor::replace_char` (`r`): remove then insert at the same char
index, i.e. an in-place `set`. -/
def TextEditor.replace_char (ed : TextEditor) (c : Char) : TextEditor :=
  let ed := ed.save_undo
  let line := ed.get_current_line
  if ed.cursor_col < line.length then
    { ed with
      lines := ed.lines.set ed.cursor_row (line.set ed.cursor_col c)
      modified := true }
  else ed

/-- `TextEditor::substitute_char` (`s`): its own `save_undo`, then
`delete_char` (which saves again), then Insert mode. -/
def TextEditor.substitute_char (ed : TextEditor) : TextEditor :=
  ed.save_undo.delete_char.enter_insert_mode

/-- `TextEditor::substitute_line` (`S` / `cc`). -/
def TextEditor.substitute_line (ed : TextEditor) : TextEditor :=
  let ed := ed.save_undo
  TextEditor.enter_insert_mode
    { ed with
      clipboard := [ed.lines.getD ed.cursor_row []]
      clipboard_is_line := true
      lines := ed.lines.set ed.cursor_row []
      cursor_col := 0
      modified := true }

/-- `TextEditor::change_to_end` (`C` / `c$`). -/
def TextEditor.change_to_end (ed : TextEditor) : TextEditor :=
  let ed := ed.save_undo
  let chars := ed.lines.getD ed.cursor_row []
  TextEditor.enter_insert_mode
    { ed with
      clipboard := [chars.drop ed.cursor_col]
      clipboard_is_line := false
      lines := ed.lines.set ed.cursor_row (chars.take ed.cursor_col)
      modified := true }

/-- `TextEditor::join_lines` (`J`): append the next line trimmed of leading
whitespace, separated by one space unless either side is empty. -/
def TextEditor.join_lines (ed : TextEditor) : TextEditor :=
  if ed.cursor_row < ed.lines.length - 1 then
    let ed := ed.save_undo
    let next_line := ed.lines.getD (ed.cursor_row + 1) []
    let lines := ed.lines.eraseIdx (ed.cursor_row + 1)
    let trimmed := next_line.dropWhile rsIsWhitespace
    let current := lines.getD ed.cursor_row []
    let current_len := current.length
    let joined :=
      if current ≠ [] ∧ trimmed ≠ [] then current ++ ' ' :: trimmed
      else current ++ trimmed
    { ed with
      lines := lines.set ed.cursor_row joined
      cursor_col := current_len
      modified := true }
  else ed

/-- `TextEditor::indent_line` (`>>`). -/
def TextEditor.indent_line (ed : TextEditor) : TextEditor :=
  let ed := ed.save_undo
  { ed with
    lines := ed.lines.set ed.cursor_row (cs "    " ++ ed.lines.getD ed.cursor_row [])
    cursor_col := ed.cursor_col + 4
    modified := true }

/-- `TextEditor::outdent_line` (`<<`): remove up to four leading spaces. -/
def TextEditor.outdent_line (ed : TextEditor) : TextEditor :=
  let ed := ed.save_undo
  let line := ed.lines.getD ed.cursor_row []
  let removed := min 4 (countLeading (fun c => c = ' ') line)
  if removed > 0 then
    { ed with
      lines := ed.lines.set ed.cursor_row (line.drop removed)
      cursor_col := ed.cursor_col - removed
      modified := true }
  else ed

/-- `TextEditor::delete_word` (`dw`): run the word motion, and only when it
stayed on the same line delete the crossed span. -/
def TextEditor.delete_word (ed : TextEditor) : TextEditor :=
  let ed := ed.save_undo
  let start_col := ed.cursor_col
  let start_row := ed.cursor_row
  let ed := ed.move_word_forward
  let end_col := ed.cursor_col
  if ed.cursor_row = start_row then
    let chars := ed.lines.getD ed.cursor_row []
    if end_col > start_col then
      { ed with
        clipboard := [(chars.drop start_col).take (end_col - start_col)]
        clipboard_is_line := false
        lines := ed.lines.set ed.cursor_row
          (chars.take start_col ++ chars.drop end_col)
        cursor_col := start_col
        modified := true }
    else ed
  else ed

/-- `TextEditor::start_search_forward` (`/`). -/
def TextEditor.start_search_forward (ed : TextEditor) : TextEditor :=
  { ed with
    mode := VimMode.Command
    search_direction := true
    command_buffer := []
    status_message := "/" }

/-- `TextEditor::start_search_backward` (`?`). -/
def TextEditor.start_search_backward (ed : TextEditor) : TextEditor :=
  { ed with
    mode := VimMode.Command
    search_direction := false
    command_buffer := []
    status_message := "?" }

/-- One row of the first `search_next` loop (cursor position to the end of
the buffer). -/
def searchRowFwd (lines : List (List Char)) (pat : List Char)
    (start_row start_col row : Nat) : Option (Nat × Nat) :=
  let line := lines.getD row []
  let s := if row = start_row then min start_col line.length else 0
  match findSub pat (line.drop s) with
  | some i => some (row, s + i)
  | none => none

/-- One row of the wrapped `search_next` loop (top of the buffer back to the
cursor, the start row limited to the prefix before the cursor). -/
def searchRowFwdWrap (lines : List (List Char)) (pat : List Char)
    (start_row cursor_col row : Nat) : Option (Nat × Nat) :=
  let line := lines.getD row []
  let e := if row = start_row then min cursor_col line.length else line.length
  match findSub pat (line.take e) with
  | some i => some (row, i)
  | none => none

/-- `TextEditor::search_next` (`n`). -/
def TextEditor.search_next (ed : TextEditor) : TextEditor :=
  if ed.search_pattern = [] then { ed with status_message := "No search pattern" }
  else
    let start_row := ed.cursor_row
    let start_col := ed.cursor_col + 1
    match ((List.range ed.lines.length).drop start_row).findSome?
        (searchRowFwd ed.lines ed.search_pattern start_row start_col) with
    | some (r, c) =>
      { ed with
        cursor_row := r
        cursor_col := c
        status_message := "/" ++ String.mk ed.search_pattern }
    | none =>
      match (List.range (start_row + 1)).findSome?
          (searchRowFwdWrap ed.lines ed.search_pattern start_row ed.cursor_col) with
      | some (r, c) =>
        { ed with
          cursor_row := r
          cursor_col := c
          status_message := "/" ++ String.mk ed.search_pattern ++ " (wrapped)" }
      | none =>
        { ed with
          status_message := "Pattern not found: " ++ String.mk ed.search_pattern }

/-- One row of the first `search_prev` loop (cursor position back to the top,
the start row limited to the prefix before the cursor). -/
def searchRowBack (lines : List (List Char)) (pat : List Char)
    (start_row start_col row : Nat) : Option (Nat × Nat) :=
  let line := lines.getD row []
  let e := if row = start_row then min start_col line.length else line.length
  match rfindSub pat (line.take e) with
  | some i => some (row, i)
  | none => none

/-- One row of the wrapped `search_prev` loop (bottom of the buffer down to
the cursor row, that row limited to the suffix after the cursor; the Rust
code skips rows whose byte start offset is past the end of the line). -/
def searchRowBackWrap (lines : List (List Char)) (pat : List Char)
    (start_row start_col row : Nat) : Option (Nat × Nat) :=
  let line := lines.getD row []
  let s := if row = start_row then min (start_col + 1) line.length else 0
  if s < line.length then
    match rfindSub pat (line.drop s) with
    | some i => some (row, s + i)
    | none => none
  else none

/-- `TextEditor::search_prev` (`N`). -/
def TextEditor.search_prev (ed : TextEditor) : TextEditor :=
  if ed.search_pattern = [] then { ed with status_message := "No search pattern" }
  else
    let start_row := ed.cursor_row
    let start_col := ed.cursor_col
    match ((List.range (start_row + 1)).reverse).findSome?
        (searchRowBack ed.lines ed.search_pattern start_row start_col) with
    | some (r, c) =>
      { ed with
        cursor_row := r
        cursor_col := c
        status_message := "?" ++ String.mk ed.search_pattern }
    | none =>
      match (((List.range ed.lines.length).drop start_row).reverse).findSome?
          (searchRowBackWrap ed.lines ed.search_pattern start_row start_col) with
      | some (r, c) =>
        { ed with
          cursor_row := r
          cursor_col := c
          status_message := "?" ++ String.mk ed.search_pattern ++ " (wrapped)" }
      | none =>
        { ed with
          status_message := "Pattern not found: " ++ String.mk ed.search_pattern }

/-- `TextEditor::execute_search` (Enter in a `/` or `?` prompt). -/
def TextEditor.execute_search (ed : TextEditor) : TextEditor :=
  if ed.command_buffer = [] then ed.enter_normal_mode
  else
    let ed :=
      { ed with
        search_pattern := ed.command_buffer
        last_search_row := ed.cursor_row
        last_search_col := ed.cursor_col }
    let ed := if ed.search_direction then ed.search_next else ed.search_prev
    ed.enter_normal_mode

/-- `TextEditor::search_word_under_cursor` (`*`). -/
def TextEditor.search_word_under_cursor (ed : TextEditor) : TextEditor :=
  let chars := ed.get_current_line
  if ed.cursor_col ≥ chars.length then ed
  else
    let start := scanBackWhileBefore isWordChar chars ed.cursor_col
    let endIdx := ed.cursor_col + countLeading isWordChar (chars.drop ed.cursor_col)
    if start < endIdx then
      let word := (chars.drop start).take (endIdx - start)
      TextEditor.search_next
        { ed with search_pattern := word, search_direction := true }
    else ed

/-- `TextEditor::insert_char` (Insert-mode typing; note: no `save_undo`). -/
def TextEditor.insert_char (ed : TextEditor) (c : Char) : TextEditor :=
  let line := ed.get_current_line
  let at_ := min ed.cursor_col line.length
  { ed with
    lines := ed.lines.set ed.cursor_row (line.take at_ ++ c :: line.drop at_)
    cursor_col := ed.cursor_col + 1
    modified := true }

/-- `TextEditor::insert_newline` (note: no `save_undo`). -/
def TextEditor.insert_newline (ed : TextEditor) : TextEditor :=
  let line := ed.get_current_line
  let at_ := min ed.cursor_col line.length
  { ed with
    lines := (ed.lines.set ed.cursor_row (line.take at_)).insertIdx
      (ed.cursor_row + 1) (line.drop at_)
    cursor_row := ed.cursor_row + 1
    cursor_col := 0
    modified := true }

/-- `TextEditor::backspace` (note: no `save_undo`). -/
def TextEditor.backspace (ed : TextEditor) : TextEditor :=
  if ed.cursor_col > 0 then
    let line := ed.get_current_line
    { ed with
      lines := ed.lines.set ed.cursor_row (line.eraseIdx (ed.cursor_col - 1))
      cursor_col := ed.cursor_col - 1
      modified := true }
  else if ed.cursor_row > 0 then
    let current_line := ed.lines.getD ed.cursor_row []
    let lines := ed.lines.eraseIdx ed.cursor_row
    let row := ed.cursor_row - 1
    { ed with
      lines := lines.set row (lines.getD row [] ++ current_line)
      cursor_row := row
      cursor_col := (lines.getD row []).length
      modified := true }
  else ed

/-- `TextEditor::append_command_char`. -/
def TextEditor.append_command_char (ed : TextEditor) (c : Char) : TextEditor :=
  let cb := ed.command_buffer ++ [c]
  let status :=
    if ed.status_message.startsWith "/" || ed.status_message.startsWith "?" then
      String.mk (ed.status_message.front :: cb)
    else
      ":" ++ String.mk cb
  { ed with command_buffer := cb, status_message := status }

/-- `TextEditor::backspace_command`. -/
def TextEditor.backspace_command (ed : TextEditor) : TextEditor :=
  let cb := ed.command_buffer.dropLast
  let status :=
    if ed.status_message.startsWith "/" || ed.status_message.startsWith "?" then
      String.mk (ed.status_message.front :: cb)
    else
      ":" ++ String.mk cb
  { ed with command_buffer := cb, status_message := status }

/-- `TextEditor::toggle_case` (`~`). -/
def TextEditor.toggle_case (ed : TextEditor) : TextEditor :=
  let ed := ed.save_undo
  let chars := ed.get_current_line
  if ed.cursor_col < chars.length then
    let c := chars.getD ed.cursor_col (Char.ofNat 0)
    let toggled := if rsIsLowercase c then rsToUpper c else rsToLower c
    let line := chars.set ed.cursor_col toggled
    { ed with
      lines := ed.lines.set ed.cursor_row line
      cursor_col := min (ed.cursor_col + 1) (line.length - 1)
      modified := true }
  else ed

/-- `TextEditor::get_clipboard_text`. -/
def TextEditor.get_clipboard_text (ed : TextEditor) : List Char :=
  if ed.clipboard = [] then []
  else if ed.clipboard_is_line then joinNL ed.clipboard
  else ed.clipboard.flatten

/-- `TextEditor::get_visual_selection`: normalised inclusive range; in
VisualLine mode the columns are forced to full line width. -/
def TextEditor.get_visual_selection (ed : TextEditor) : Nat × Nat × Nat × Nat :=
  let r :=
    if ed.cursor_row < ed.visual_start_row ∨
        (ed.cursor_row = ed.visual_start_row ∧ ed.cursor_col < ed.visual_start_col) then
      (ed.cursor_row, ed.cursor_col, ed.visual_start_row, ed.visual_start_col)
    else
      (ed.visual_start_row, ed.visual_start_col, ed.cursor_row, ed.cursor_col)
  match r with
  | (sr, sc, er, ec) =>
    if ed.mode = VimMode.VisualLine then (sr, 0, er, (ed.lines.getD er []).length)
    else (sr, sc, er, ec)

/-- The removal loop of `delete_visual_selection`: `er - sr` guarded removals
at index `sr + 1`. -/
def removeAfterLoop (sr : Nat) : Nat → List (List Char) → List (List Char)
  | 0, lines => lines
  | n + 1, lines =>
    removeAfterLoop sr n (if sr + 1 < lines.length then lines.eraseIdx (sr + 1) else lines)

/-- `TextEditor::delete_visual_selection`.  CAUTION: the Rust function
indexes `self.lines[sr]`/`self.lines[er]` and takes the inclusive slices
`chars[sc..=ec.min(chars.len().saturating_sub(1))]` (single-line arm) and
`last_chars[..=ec.min(last_chars.len().saturating_sub(1))]` (multi-line
arm), which PANIC when the sliced line is empty — a reachable situation
(`v` then `d` on an empty buffer).  This model clamps with `take`/`drop`
and completes there; `delete_visual_selection_in_bounds` below carves out
exactly the inputs on which the Rust function completes, and theorems whose
conclusion depends on completion assume it. -/
def TextEditor.delete_visual_selection (ed : TextEditor) : TextEditor :=
  let ed := ed.save_undo
  match ed.get_visual_selection with
  | (sr, sc, er, ec) =>
    let ed :=
      if ed.mode = VimMode.VisualLine then
        let drained := (ed.lines.drop sr).take (er + 1 - sr)
        let lines := ed.lines.take sr ++ ed.lines.drop (er + 1)
        let lines := if lines = [] then [[]] else lines
        { ed with lines := lines, clipboard := drained, clipboard_is_line := true }
      else if sr = er then
        let chars := ed.lines.getD sr []
        let hi := min ec (chars.length - 1)
        { ed with
          lines := ed.lines.set sr
            (chars.take sc ++ chars.drop (min (ec + 1) chars.length))
          clipboard := [(chars.drop sc).take (hi + 1 - sc)]
          clipboard_is_line := false }
      else
        let first_chars := ed.lines.getD sr []
        let last_chars := ed.lines.getD er []
        let hi := min ec (last_chars.length - 1)
        let selected := [first_chars.drop sc] ++
          ((ed.lines.drop (sr + 1)).take (er - (sr + 1))) ++
          [last_chars.take (hi + 1)]
        let remaining := last_chars.drop (min (ec + 1) last_chars.length)
        let lines := ed.lines.set sr (first_chars.take sc ++ remaining)
        { ed with
          lines := removeAfterLoop sr (er - sr) lines
          clipboard := selected
          clipboard_is_line := false }
    TextEditor.enter_normal_mode
      { ed with
        cursor_row := min sr (ed.lines.length - 1)
        cursor_col := sc
        modified := true }

/-- `TextEditor::yank_visual_selection`.  CAUTION: like
`delete_visual_selection`, the Rust slice
`chars[sc..=ec.min(chars.len().saturating_sub(1))]` panics when the sliced
line is empty (reachable via `v` then `y` on an empty buffer); the model
clamps and completes there.  No theorem below asserts anything that depends
on this primitive completing on such inputs. -/
def TextEditor.yank_visual_selection (ed : TextEditor) : TextEditor :=
  match ed.get_visual_selection with
  | (sr, sc, er, ec) =>
    let ed :=
      if ed.mode = VimMode.VisualLine then
        let clip := (ed.lines.drop sr).take (er + 1 - sr)
        { ed with
          clipboard := clip
          clipboard_is_line := true
          status_message := toString clip.length ++ " lines yanked" }
      else if sr = er then
        let chars := ed.lines.getD sr []
        let hi := min ec (chars.length - 1)
        { ed with
          clipboard := [(chars.drop sc).take (hi + 1 - sc)]
          clipboard_is_line := false
          status_message := "Yanked" }
      else
        let first_chars := ed.lines.getD sr []
        let last_chars := ed.lines.getD er []
        let hi := min ec (last_chars.length - 1)
        { ed with
          clipboard := [first_chars.drop sc] ++
            ((ed.lines.drop (sr + 1)).take (er - (sr + 1))) ++
            [last_chars.take (hi + 1)]
          clipboard_is_line := false
          status_message := "Yanked" }
    TextEditor.enter_normal_mode { ed with cursor_row := sr, cursor_col := sc }

/-- `TextEditor::get_visual_selection_text` (Ctrl+C in Visual mode). -/
def TextEditor.get_visual_selection_text (ed : TextEditor) : List Char :=
  if ed.mode ≠ VimMode.Visual ∧ ed.mode ≠ VimMode.VisualLine then []
  else
    match ed.get_visual_selection with
    | (sr, sc, er, ec) =>
      if ed.mode = VimMode.VisualLine then
        joinNL ((ed.lines.drop sr).take (er + 1 - sr))
      else if sr = er then
        let chars := ed.lines.getD sr []
        let hi := min ec (chars.length - 1)
        (chars.drop sc).take (hi + 1 - sc)
      else
        let first_chars := ed.lines.getD sr []
        let last_chars := ed.lines.getD er []
        let hi := min ec (last_chars.length - 1)
        joinNL ([first_chars.drop sc] ++
          ((ed.lines.drop (sr + 1)).take (er - (sr + 1))) ++
          [last_chars.take (hi + 1)])

/-- Models `exit_editor` (events/viewer.rs): the App ends the session and
drops the editor; no editor field is mutated, so the model returns the
state unchanged. -/
def exitEditor (ed : TextEditor) (_saved : Bool) : TextEditor := ed

/-- Editor-side effect of `save_file` (events/viewer.rs): success clears the
modified flag; failure (I/O error or missing file path) leaves the editor
unchanged apart from a transient status that every caller overwrites. -/
def save_file (w : World) (ed : TextEditor) : Bool × TextEditor :=
  if w.saveOk then (true, { ed with modified := false }) else (false, ed)

/-- Body of `execute_substitute` from `events/editor.rs` (`:s/old/new/[g]`
and `:%s/old/new/[g]`, literal substring matching) up to but excluding the
final `enter_normal_mode` call, which every path of the Rust function ends
with (and which overwrites the reported status with the normal-mode
indicator). -/
def execute_substitute_core (ed : TextEditor) (command : List Char) : TextEditor :=
  let global := leadingMatch (cs "%s/") command
  let parts :=
    if global then splitn3 '/' (command.drop 3) else splitn3 '/' (command.drop 2)
  if parts.length < 2 then
    { ed with status_message := "Invalid substitute command" }
  else
    let pattern := parts.getD 0 []
    let replacement := parts.getD 1 []
    let flags := if parts.length > 2 then parts.getD 2 [] else []
    let replace_all := flags.contains 'g'
    let ed := ed.save_undo
    let lineStep : List Char → Nat × List Char := fun line =>
      if replace_all then
        (countMatches pattern line, replaceAllStr pattern replacement line)
      else if containsSub pattern line then
        (1, replaceFirst pattern replacement line)
      else (0, line)
    let tl :=
      if global then
        let results := ed.lines.map lineStep
        ((results.map Prod.fst).sum, { ed with lines := results.map Prod.snd })
      else
        let r := lineStep (ed.lines.getD ed.cursor_row [])
        (r.1, { ed with lines := ed.lines.set ed.cursor_row r.2 })
    let total := tl.1
    let ed := tl.2
    let ed :=
      if total > 0 then
        { ed with
          modified := true
          status_message := toString total ++ " substitution(s) made" }
      else
        { ed with status_message := "Pattern not found: " ++ String.mk pattern }
    ed

/-- `execute_substitute`: the core followed by the final
`enter_normal_mode`. -/
def execute_substitute (ed : TextEditor) (command : List Char) : TextEditor :=
  (execute_substitute_core ed command).enter_normal_mode

/-- Rust `str::parse::<usize>` applied to the command buffer: an optional
leading plus sign followed by one or more ASCII digits (`Nat` ignores the
`usize` overflow failure, which no claim exercises). -/
def parseUsize (l : List Char) : Option Nat :=
  let digits := match l with | '+' :: r => r | _ => l
  if digits ≠ [] ∧ digits.all Char.isDigit then
    some (digits.foldl (fun n c => n * 10 + (c.toNat - 48)) 0)
  else none

/-- `execute_command` from `events/editor.rs`: the command-line parser run on
Enter. -/
def execute_command (w : World) (ed : TextEditor) : TextEditor :=
  let command := ed.command_buffer
  match parseUsize command with
  | some n => (ed.move_to_line n).enter_normal_mode
  | none =>
    if leadingMatch (cs "%s/") command || leadingMatch (cs "s/") command then
      execute_substitute ed command
    else if command = cs "q" then
      if ed.modified then
        TextEditor.enter_normal_mode
          { ed with
            status_message := "No write since last change (use :q! to force)" }
      else exitEditor ed false
    else if command = cs "q!" then
      exitEditor ed false
    else if command = cs "w" then
      let r := save_file w ed
      if r.1 then
        TextEditor.enter_normal_mode { r.2 with status_message := "File saved" }
      else
        TextEditor.enter_normal_mode
          { r.2 with status_message := "Error: Could not save file" }
    else if command = cs "wq" ∨ command = cs "x" ∨ command = cs "wq!" ∨
        command = cs "x!" then
      let r := save_file w ed
      if r.1 then exitEditor r.2 true
      else
        TextEditor.enter_normal_mode
          { r.2 with status_message := "Error: Could not save file" }
    else if command = cs "e!" then
      let ed :=
        match w.reload with
        | none => ed
        | some none => { ed with status_message := "Error reloading file" }
        | some (some content) =>
          let lines := rustLines content
          let lines := if lines = [] then [[]] else lines
          { ed with
            lines := lines
            cursor_row := 0
            cursor_col := 0
            modified := false
            undo_stack := []
            redo_stack := []
            status_message := "File reloaded" }
      ed.enter_normal_mode
    else if command = cs "set nu" ∨ command = cs "set number" then
      TextEditor.enter_normal_mode
        { ed with status_message := "Line numbers are always shown" }
    else if command = cs "noh" ∨ command = cs "nohlsearch" then
      TextEditor.enter_normal_mode
        { ed with
          search_pattern := []
          status_message := "Search highlighting cleared" }
    else if command = cs "$" then
      ed.move_to_last_line.enter_normal_mode
    else if command = cs "0" then
      ed.move_to_first_line.enter_normal_mode
    else
      TextEditor.enter_normal_mode
        { ed with status_message := "Unknown command: " ++ String.mk command }

/-- The digit-accumulation test at the top of `handle_normal_mode_keys`:
digits extend the count buffer, except a leading `0` (which is the
line-start motion). -/
def isCountDigit (ed : TextEditor) (k : Key) : Option Char :=
  match k with
  | Key.char c =>
    if c.isDigit then
      if c ≠ '0' ∨ ed.count_buffer ≠ [] then some c else none
    else none
  | _ => none

/-- The completion arms of the pending-operator match in
`handle_normal_mode_keys`; `none` is the catch-all arm, which clears the
pending operator and lets the key fall through to normal dispatch. -/
def pendingDispatch (ed : TextEditor) (k : Key) (count : Nat) : Option TextEditor :=
  if ed.pending_op = PendingOperator.Delete ∧ k = Key.char 'd' then
    some { ed.delete_lines count with pending_op := PendingOperator.None }
  else if ed.pending_op = PendingOperator.Yank ∧ k = Key.char 'y' then
    some { ed.yank_lines count with pending_op := PendingOperator.None }
  else if ed.pending_op = PendingOperator.Change ∧ k = Key.char 'c' then
    some { ed.substitute_line with pending_op := PendingOperator.None }
  else if ed.pending_op = PendingOperator.Indent ∧ k = Key.char '>' then
    some { applyN TextEditor.indent_line count ed with pending_op := PendingOperator.None }
  else if ed.pending_op = PendingOperator.Outdent ∧ k = Key.char '<' then
    some { applyN TextEditor.outdent_line count ed with pending_op := PendingOperator.None }
  else if ed.pending_op = PendingOperator.Delete ∧ k = Key.char '$' then
    some { ed.delete_to_end with pending_op := PendingOperator.None }
  else if ed.pending_op = PendingOperator.Yank ∧ k = Key.char '$' then
    some { ed.yank_to_end with pending_op := PendingOperator.None }
  else if ed.pending_op = PendingOperator.Change ∧ k = Key.char '$' then
    some { ed.change_to_end with pending_op := PendingOperator.None }
  else if ed.pending_op = PendingOperator.Delete ∧ k = Key.char 'w' then
    some { applyN TextEditor.delete_word count ed with pending_op := PendingOperator.None }
  else if ed.pending_op = PendingOperator.Delete ∧ k = Key.char 'G' then
    let drained := ed.lines.drop ed.cursor_row
    let lines := ed.lines.take ed.cursor_row
    let lines := if lines = [] then [[]] else lines
    some
      { ed with
        lines := lines
        clipboard := drained
        clipboard_is_line := true
        cursor_row := min ed.cursor_row (lines.length - 1)
        modified := true
        pending_op := PendingOperator.None }
  else if ed.pending_op = PendingOperator.Delete ∧ k = Key.char 'g' then
    let drained := ed.lines.take (ed.cursor_row + 1)
    let lines := ed.lines.drop (ed.cursor_row + 1)
    let lines := if lines = [] then [[]] else lines
    some
      { ed with
        lines := lines
        clipboard := drained
        clipboard_is_line := true
        cursor_row := 0
        cursor_col := 0
        modified := true
        pending_op := PendingOperator.None }
  else none

/-- The bottom `match key_code` of `handle_normal_mode_keys` (reached with
the count already consumed). -/
def normalCommand (ed : TextEditor) (k : Key) (count : Nat) : TextEditor :=
  match k with
  | Key.left => applyN TextEditor.move_cursor_left count ed
  | Key.down => applyN TextEditor.move_cursor_down count ed
  | Key.up => applyN TextEditor.move_cursor_up count ed
  | Key.right => applyN TextEditor.move_cursor_right count ed
  | Key.endKey => ed.move_to_line_end
  | Key.home => ed.move_to_line_start
  | Key.esc =>
    { ed with
      pending_op := PendingOperator.None
      count_buffer := []
      status_message := "-- NORMAL --" }
  | Key.char c =>
    if c = 'h' then applyN TextEditor.move_cursor_left count ed
    else if c = 'j' then applyN TextEditor.move_cursor_down count ed
    else if c = 'k' then applyN TextEditor.move_cursor_up count ed
    else if c = 'l' then applyN TextEditor.move_cursor_right count ed
    else if c = '0' then ed.move_to_line_start
    else if c = '^' then ed.move_to_first_nonblank
    else if c = '$' then ed.move_to_line_end
    else if c = 'w' then applyN TextEditor.move_word_forward count ed
    else if c = 'b' then applyN TextEditor.move_word_backward count ed
    else if c = 'e' then applyN TextEditor.move_word_end count ed
    else if c = 'g' then
      if count > 1 then ed.move_to_line count
      else
        TextEditor.move_to_first_line
          { ed with pending_op := PendingOperator.Delete, status_message := "g" }
    else if c = 'G' then
      if count > 1 then ed.move_to_line count else ed.move_to_last_line
    else if c = '%' then ed.move_to_matching_bracket
    else if c = 'x' then applyN TextEditor.delete_char count ed
    else if c = 'X' then applyN TextEditor.delete_char_before count ed
    else if c = 'd' then
      { ed with pending_op := PendingOperator.Delete, status_message := "d" }
    else if c = 'D' then ed.delete_to_end
    else if c = 'y' then
      { ed with pending_op := PendingOperator.Yank, status_message := "y" }
    else if c = 'Y' then ed.yank_line
    else if c = 'c' then
      { ed with pending_op := PendingOperator.Change, status_message := "c" }
    else if c = 'C' then ed.change_to_end
    else if c = 'p' then ed.paste_after
    else if c = 'P' then ed.paste_before
    else if c = 'r' then
      { ed with
        status_message := "r"
        mode := VimMode.Command
        command_buffer := ['r'] }
    else if c = 's' then ed.substitute_char
    else if c = 'S' then ed.substitute_line
    else if c = 'u' then ed.undo
    else if c = 'J' then applyN TextEditor.join_lines count ed
    else if c = '>' then
      { ed with pending_op := PendingOperator.Indent, status_message := ">" }
    else if c = '<' then
      { ed with pending_op := PendingOperator.Outdent, status_message := "<" }
    else if c = '~' then applyN TextEditor.toggle_case count ed
    else if c = '/' then ed.start_search_forward
    else if c = '?' then ed.start_search_backward
    else if c = 'n' then applyN TextEditor.search_next count ed
    else if c = 'N' then applyN TextEditor.search_prev count ed
    else if c = '*' then ed.search_word_under_cursor
    else if c = 'v' then ed.enter_visual_mode
    else if c = 'V' then ed.enter_visual_line_mode
    else if c = 'i' then ed.enter_insert_mode
    else if c = 'I' then ed.move_to_first_nonblank.enter_insert_mode
    else if c = 'a' then ed.move_cursor_right.enter_insert_mode
    else if c = 'A' then
      let ed := ed.move_to_line_end
      TextEditor.enter_insert_mode
        { ed with cursor_col := ed.get_current_line.length }
    else if c = 'o' then
      ed.save_undo.move_to_line_end.insert_newline.enter_insert_mode
    else if c = 'O' then
      let ed := ed.save_undo
      TextEditor.enter_insert_mode
        { ed with
          lines := ed.lines.insertIdx ed.cursor_row []
          cursor_col := 0
          modified := true }
    else if c = ':' then ed.enter_command_mode
    else ed
  | _ => ed

/-- `handle_normal_mode_keys` from `events/editor.rs`: digit accumulation,
then the pending-operator block (whose catch-all arm clears the operator and
falls through), then normal dispatch. -/
def handle_normal_mode_keys (ed : TextEditor) (k : Key) : TextEditor :=
  match isCountDigit ed k with
  | some c =>
    let cb := ed.count_buffer ++ [c]
    { ed with count_buffer := cb, status_message := String.mk cb }
  | none =>
    if ed.pending_op ≠ PendingOperator.None then
      let ct := ed.get_count
      match pendingDispatch ct.2 k ct.1 with
      | some ed2 => ed2
      | none =>
        let ed := { ct.2 with pending_op := PendingOperator.None }
        let ct2 := ed.get_count
        normalCommand ct2.2 k ct2.1
    else
      let ct := ed.get_count
      normalCommand ct.2 k ct.1

/-- `handle_insert_mode_keys` from `events/editor.rs` (no `save_undo` before
the mutating primitives). -/
def handle_insert_mode_keys (ed : TextEditor) (k : Key) : TextEditor :=
  match k with
  | Key.esc => ed.enter_normal_mode
  | Key.char c => ed.insert_char c
  | Key.enter => ed.insert_newline
  | Key.backspace => ed.backspace
  | Key.delete => ed.delete_char
  | Key.tab => applyN (fun e => TextEditor.insert_char e ' ') 4 ed
  | Key.left => ed.move_cursor_left
  | Key.right => ed.move_cursor_right
  | Key.up => ed.move_cursor_up
  | Key.down => ed.move_cursor_down
  | Key.home => ed.move_to_line_start
  | Key.endKey => { ed with cursor_col := ed.get_current_line.length }
  | _ => ed

/-- The common part of `handle_command_mode_keys` (after the `r`
replace-char special case). -/
def commandModeMain (w : World) (ed : TextEditor) (k : Key) : TextEditor :=
  let is_search :=
    ed.status_message.startsWith "/" || ed.status_message.startsWith "?"
  match k with
  | Key.esc => ed.enter_normal_mode
  | Key.char c => ed.append_command_char c
  | Key.backspace =>
    let ed := ed.backspace_command
    if ed.command_buffer = [] ∧ ¬is_search then ed.enter_normal_mode else ed
  | Key.enter =>
    if is_search then ed.execute_search else execute_command w ed
  | _ => ed

/-- `handle_command_mode_keys` from `events/editor.rs`. -/
def handle_command_mode_keys (w : World) (ed : TextEditor) (k : Key) : TextEditor :=
  if ed.command_buffer = ['r'] then
    match k with
    | Key.char c =>
      TextEditor.enter_normal_mode
        (TextEditor.replace_char { ed with command_buffer := [] } c)
    | Key.esc => TextEditor.enter_normal_mode { ed with command_buffer := [] }
    | _ => commandModeMain w ed k
  else commandModeMain w ed k

/-- Per-row slice transformation used by the Visual-mode indent, outdent and
case arms (Rust loops `for row in sr..=er`). -/
def mapRows (f : Nat → List Char → List Char) (sr er : Nat)
    (lines : List (List Char)) : List (List Char) :=
  lines.mapIdx (fun i l => if sr ≤ i ∧ i ≤ er then f i l else l)

/-- `handle_visual_mode_keys` from `events/editor.rs`. -/
def handle_visual_mode_keys (ed : TextEditor) (k : Key) : TextEditor :=
  match k with
  | Key.esc => ed.enter_normal_mode
  | Key.left => ed.move_cursor_left
  | Key.down => ed.move_cursor_down
  | Key.up => ed.move_cursor_up
  | Key.right => ed.move_cursor_right
  | Key.home => ed.move_to_line_start
  | Key.endKey => ed.move_to_line_end
  | Key.char c =>
    if c = 'v' ∨ c = 'V' then ed.enter_normal_mode
    else if c = 'h' then ed.move_cursor_left
    else if c = 'j' then ed.move_cursor_down
    else if c = 'k' then ed.move_cursor_up
    else if c = 'l' then ed.move_cursor_right
    else if c = 'w' then ed.move_word_forward
    else if c = 'b' then ed.move_word_backward
    else if c = 'e' then ed.move_word_end
    else if c = '0' then ed.move_to_line_start
    else if c = '$' then ed.move_to_line_end
    else if c = '^' then ed.move_to_first_nonblank
    else if c = 'G' then ed.move_to_last_line
    else if c = 'g' then ed.move_to_first_line
    else if c = 'd' ∨ c = 'x' then ed.delete_visual_selection
    else if c = 'y' then ed.yank_visual_selection
    else if c = 'c' ∨ c = 's' then ed.delete_visual_selection.enter_insert_mode
    else if c = '>' then
      match ed.get_visual_selection with
      | (sr, _, er, _) =>
        let ed := ed.save_undo
        TextEditor.enter_normal_mode
          { ed with
            lines := mapRows (fun _ l => cs "    " ++ l) sr er ed.lines
            modified := true }
    else if c = '<' then
      match ed.get_visual_selection with
      | (sr, _, er, _) =>
        let ed := ed.save_undo
        TextEditor.enter_normal_mode
          { ed with
            lines := mapRows
              (fun _ l => l.drop (min 4 (countLeading (fun d => d = ' ') l)))
              sr er ed.lines
            modified := true }
    else if c = '~' ∨ c = 'u' ∨ c = 'U' then
      match ed.get_visual_selection with
      | (sr, sc, er, ec) =>
        let ed := ed.save_undo
        let tf : Char → Char := fun d =>
          if c = '~' then
            if rsIsLowercase d then rsToUpper d else rsToLower d
          else if c = 'u' then rsToLower d
          else rsToUpper d
        TextEditor.enter_normal_mode
          { ed with
            lines := mapRows
              (fun row l =>
                let start := if row = sr then sc else 0
                let endI := if row = er then ec + 1 else l.length
                l.mapIdx (fun i d => if start ≤ i ∧ i < endI then tf d else d))
              sr er ed.lines
            modified := true }
    else if c = 'J' then
      match ed.get_visual_selection with
      | (sr, _, er, _) =>
        TextEditor.enter_normal_mode
          (applyN TextEditor.join_lines (er - sr) { ed with cursor_row := sr })
    else ed
  | _ => ed

/-- `handle_editor_keys` from `events/editor.rs`: mode routing. -/
def handle_editor_keys (w : World) (ed : TextEditor) (k : Key) : TextEditor :=
  match ed.mode with
  | VimMode.Normal => handle_normal_mode_keys ed k
  | VimMode.Insert => handle_insert_mode_keys ed k
  | VimMode.Command => handle_command_mode_keys w ed k
  | VimMode.Visual => handle_visual_mode_keys ed k
  | VimMode.VisualLine => handle_visual_mode_keys ed k

/-- `handle_nano_keys` from `events/editor.rs` (`ctrl` is whether the CONTROL
modifier is held). -/
def handle_nano_keys (w : World) (ed : TextEditor) (k : Key) (ctrl : Bool) :
    TextEditor :=
  if ed.nano_search_mode then
    match k with
    | Key.esc =>
      { ed with
        nano_search_mode := false
        command_buffer := []
        status_message := "Search cancelled" }
    | Key.enter =>
      TextEditor.search_next
        { ed with
          search_pattern := ed.command_buffer
          nano_search_mode := false
          command_buffer := [] }
    | Key.char c =>
      let cb := ed.command_buffer ++ [c]
      { ed with
        command_buffer := cb
        status_message := "Search: " ++ String.mk cb }
    | Key.backspace =>
      let cb := ed.command_buffer.dropLast
      { ed with
        command_buffer := cb
        status_message := "Search: " ++ String.mk cb }
    | _ => ed
  else if ctrl then
    match k with
    | Key.char c =>
      if c = 'x' ∨ c = 'X' then
        if ed.modified then
          { ed with
            status_message :=
              "Modified! Save first (^O) or use ESC to exit without saving" }
        else exitEditor ed false
      else if c = 'o' ∨ c = 'O' then
        let r := save_file w ed
        if r.1 then { r.2 with status_message := "File saved" }
        else { r.2 with status_message := "Error saving file" }
      else if c = 'k' ∨ c = 'K' then
        { ed.save_undo.yank_line.delete_line with status_message := "Line cut" }
      else if c = 'u' ∨ c = 'U' then
        { ed.paste_after with status_message := "Pasted" }
      else if c = 'w' ∨ c = 'W' then
        { ed with
          nano_search_mode := true
          command_buffer := []
          status_message := "Search: " }
      else if c = 'g' ∨ c = 'G' then
        { ed with
          status_message := "^X:Exit ^O:Save ^K:Cut ^U:Paste ^W:Search ^\\:Replace ^T:Vim" }
      else if c = '\\' then
        { ed with
          status_message := "Replace: Use :s/old/new/g in Vim mode (^T to switch)" }
      else if c = 'a' ∨ c = 'A' then ed.move_to_line_start
      else if c = 'e' ∨ c = 'E' then
        { ed with cursor_col := ed.get_current_line.length }
      else if c = 'y' ∨ c = 'Y' then ed.move_page_up
      else if c = 'v' ∨ c = 'V' then ed.move_page_down
      else if c = '_' then
        { ed with
          status_message :=
            "Go to line: (not implemented in nano mode, use :n in Vim mode)" }
      else if c = 'c' ∨ c = 'C' then
        { ed with
          status_message := "Line " ++ toString (ed.cursor_row + 1) ++ ", Col " ++
            toString (ed.cursor_col + 1) ++ ", " ++ toString ed.lines.length ++
            " lines total" }
      else if c = 'z' ∨ c = 'Z' then ed.undo
      else ed
    | _ => ed
  else
    match k with
    | Key.esc =>
      if ed.modified then
        { ed with
          status_message := "Modified! Press ESC again to discard, ^O to save" }
      else exitEditor ed false
    | Key.char c => ed.save_undo.insert_char c
    | Key.enter => ed.save_undo.insert_newline
    | Key.backspace => ed.save_undo.backspace
    | Key.delete => ed.save_undo.delete_char
    | Key.tab => applyN (fun e => TextEditor.insert_char e ' ') 4 ed.save_undo
    | Key.left => ed.move_cursor_left
    | Key.right => ed.move_cursor_right
    | Key.up => ed.move_cursor_up
    | Key.down => ed.move_cursor_down
    | Key.home => ed.move_to_line_start
    | Key.endKey => { ed with cursor_col := ed.get_current_line.length }
    | Key.pageUp => ed.move_page_up
    | Key.pageDown => ed.move_page_down

/-- One key event of an editing session, as routed by `handle_viewer_keys`
(events/viewer.rs) while `viewer_editing` is set: Ctrl(or Super)+T/C/V are
intercepted first, then the Vim-style Ctrl combinations, then the
style-specific handler. -/
def editorStep (w : World) (ed : TextEditor) (k : Key) (ctrl : Bool) :
    TextEditor :=
  if ctrl then
    match k with
    | Key.char c =>
      if c = 't' ∨ c = 'T' then ed.toggle_editor_style
      else if c = 'c' ∨ c = 'C' then
        let copied := ed.get_clipboard_text
        if copied ≠ [] then
          match w.copyErr with
          | none =>
            { ed with
              status_message := "Copied " ++ toString (utf8Len copied) ++
                " chars to clipboard" }
          | some e => { ed with status_message := "Copy failed: " ++ e }
        else
          let all_text := joinNL ed.lines
          match w.copyErr with
          | none =>
            { ed with
              status_message := "Copied all (" ++ toString (utf8Len all_text) ++
                " chars)" }
          | some e => { ed with status_message := "Copy failed: " ++ e }
      else if c = 'v' ∨ c = 'V' then
        match w.pasteRes with
        | Except.ok t =>
          if t ≠ [] then
            { ed.paste_text t with
              status_message := "Pasted " ++ toString (utf8Len t) ++ " chars" }
          else ed
        | Except.error e => { ed with status_message := "Paste failed: " ++ e }
      else
        match ed.editor_style with
        | EditorStyle.Nano => handle_nano_keys w ed k true
        | EditorStyle.Vim =>
          if c = 'r' ∨ c = 'R' then ed.redo
          else if c = 'd' ∨ c = 'D' then ed.move_half_page_down
          else if c = 'u' ∨ c = 'U' then ed.move_half_page_up
          else if c = 'f' ∨ c = 'F' then ed.move_page_down
          else if c = 'b' ∨ c = 'B' then ed.move_page_up
          else if c = 'o' ∨ c = 'O' then ed.move_to_first_line
          else handle_editor_keys w ed k
    | _ =>
      match ed.editor_style with
      | EditorStyle.Nano => handle_nano_keys w ed k true
      | EditorStyle.Vim => handle_editor_keys w ed k
  else
    match ed.editor_style with
    | EditorStyle.Nano => handle_nano_keys w ed k false
    | EditorStyle.Vim => handle_editor_keys w ed k

/-- A key event together with its modifier flag and the external-world
results consumed while handling it. -/
structure Ev where
  key : Key
  ctrl : Bool
  world : World

/-- A convenience constructor: a plain (unmodified) key with a quiescent
external world. -/
def Ev.plain (k : Key) : Ev := ⟨k, false, World.quiet⟩

/-- Run a sequence of key events from a state. -/
def runEditor : TextEditor → List Ev → TextEditor
  | ed, [] => ed
  | ed, e :: rest => runEditor (editorStep e.world ed e.key e.ctrl) rest

/-- Every snapshot on an undo/redo stack has a non-empty line list. -/
def StackOK (st : List (List (List Char) × Nat × Nat)) : Prop :=
  ∀ e ∈ st, e.1 ≠ []

/-- The buffer is never empty, and neither is any stacked snapshot (the
latter is what keeps `undo`/`redo` from restoring an empty buffer). -/
def LinesOK (ed : TextEditor) : Prop :=
  ed.lines ≠ [] ∧ StackOK ed.undo_stack ∧ StackOK ed.redo_stack

theorem linesOK_intro {ed : TextEditor} (h1 : ed.lines ≠ [])
    (h2 : StackOK ed.undo_stack) (h3 : StackOK ed.redo_stack) : LinesOK ed :=
  ⟨h1, h2, h3⟩

theorem stackOK_nil : StackOK [] := fun e he => absurd he (List.not_mem_nil e)

theorem stackOK_cons {s st} (h1 : s.1 ≠ []) (h2 : StackOK st) :
    StackOK (s :: st) := by
  intro e he
  rcases List.mem_cons.mp he with h | h
  · subst h; exact h1
  · exact h2 e h

theorem stackOK_dropLast {st} (h : StackOK st) : StackOK st.dropLast :=
  fun e he => h e (List.dropLast_subset st he)

theorem set_ne_nil {l : List (List Char)} (h : l ≠ []) (i : Nat)
    (x : List Char) : l.set i x ≠ [] := by
  intro hc
  exact h (List.eq_nil_of_length_eq_zero (by
    have := congrArg List.length hc
    simpa using this))

theorem insertIdx_ne_nil {l : List (List Char)} (h : l ≠ []) (i : Nat)
    (x : List Char) : l.insertIdx i x ≠ [] := by
  cases l with
  | nil => exact absurd rfl h
  | cons a t =>
    cases i with
    | zero => simp [List.insertIdx_zero]
    | succ n => simp [List.insertIdx_succ_cons]

theorem eraseIdx_ne_nil {l : List (List Char)} (h : 1 < l.length) (i : Nat) :
    l.eraseIdx i ≠ [] := by
  intro hc
  have hlen := congrArg List.length hc
  rw [List.length_eraseIdx] at hlen
  simp at hlen
  split at hlen <;> omega

theorem nonempty_fix_ne_nil (l : List (List Char)) :
    (if l = [] then ([[]] : List (List Char)) else l) ≠ [] := by
  split
  · simp
  · assumption

/-- `save_undo` pushes the current (non-empty) lines and clears redo. -/
theorem linesOK_save_undo {ed : TextEditor} (h : LinesOK ed) :
    LinesOK ed.save_undo := by
  refine linesOK_intro h.1 ?_ stackOK_nil
  show StackOK (if _ then _ else _)
  split
  · exact stackOK_dropLast (stackOK_cons h.1 h.2.1)
  · exact stackOK_cons h.1 h.2.1

theorem linesOK_clamp_cursor_col {ed : TextEditor} (h : LinesOK ed) :
    LinesOK ed.clamp_cursor_col := h

theorem linesOK_undo {ed : TextEditor} (h : LinesOK ed) : LinesOK ed.undo := by
  unfold TextEditor.undo
  cases hst : ed.undo_stack with
  | nil => exact linesOK_intro h.1 stackOK_nil h.2.2
  | cons s rest =>
    obtain ⟨lines, row, col⟩ := s
    apply linesOK_clamp_cursor_col
    refine linesOK_intro ?_ ?_ (stackOK_cons h.1 h.2.2)
    · exact h.2.1 (lines, row, col) (by rw [hst]; exact List.mem_cons_self _ _)
    · intro e he
      exact h.2.1 e (by rw [hst]; exact List.mem_cons_of_mem _ he)

theorem linesOK_redo {ed : TextEditor} (h : LinesOK ed) : LinesOK ed.redo := by
  unfold TextEditor.redo
  cases hst : ed.redo_stack with
  | nil => exact linesOK_intro h.1 h.2.1 stackOK_nil
  | cons s rest =>
    obtain ⟨lines, row, col⟩ := s
    apply linesOK_clamp_cursor_col
    refine linesOK_intro ?_ (stackOK_cons h.1 h.2.1) ?_
    · exact h.2.2 (lines, row, col) (by rw [hst]; exact List.mem_cons_self _ _)
    · intro e he
      exact h.2.2 e (by rw [hst]; exact List.mem_cons_of_mem _ he)

theorem linesOK_applyN {f : TextEditor → TextEditor}
    (hf : ∀ e, LinesOK e → LinesOK (f e)) :
    ∀ n {e}, LinesOK e → LinesOK (applyN f n e)
  | 0, _, h => h
  | n + 1, _, h => linesOK_applyN hf n (hf _ h)

theorem linesOK_move_cursor_left {ed : TextEditor} (h : LinesOK ed) :
    LinesOK ed.move_cursor_left := by
  unfold TextEditor.move_cursor_left
  repeat' (first | split | (dsimp only; split))
  all_goals exact h

theorem linesOK_move_cursor_right {ed : TextEditor} (h : LinesOK ed) :
    LinesOK ed.move_cursor_right := by
  unfold TextEditor.move_cursor_right
  repeat' (first | split | (dsimp only; split))
  all_goals exact h

theorem linesOK_move_cursor_up {ed : TextEditor} (h : LinesOK ed) :
    LinesOK ed.move_cursor_up := by
  unfold TextEditor.move_cursor_up
  repeat' (first | split | (dsimp only; split))
  all_goals first
  | exact h
  | exact linesOK_clamp_cursor_col h

theorem linesOK_move_cursor_down {ed : TextEditor} (h : LinesOK ed) :
    LinesOK ed.move_cursor_down := by
  unfold TextEditor.move_cursor_down
  repeat' (first | split | (dsimp only; split))
  all_goals first
  | exact h
  | exact linesOK_clamp_cursor_col h

theorem linesOK_move_to_line_start {ed : TextEditor} (h : LinesOK ed) :
    LinesOK ed.move_to_line_start := h

theorem linesOK_move_to_line_end {ed : TextEditor} (h : LinesOK ed) :
    LinesOK ed.move_to_line_end := h

theorem linesOK_move_to_first_line {ed : TextEditor} (h : LinesOK ed) :
    LinesOK ed.move_to_first_line := h

theorem linesOK_move_to_last_line {ed : TextEditor} (h : LinesOK ed) :
    LinesOK ed.move_to_last_line := h

theorem linesOK_move_to_line {ed : TextEditor} (h : LinesOK ed) (n : Nat) :
    LinesOK (ed.move_to_line n) := by
  unfold TextEditor.move_to_line
  repeat' (first | split | (dsimp only; split))
  all_goals exact h

theorem linesOK_move_to_first_nonblank {ed : TextEditor} (h : LinesOK ed) :
    LinesOK ed.move_to_first_nonblank := h

theorem linesOK_move_word_forward {ed : TextEditor} (h : LinesOK ed) :
    LinesOK ed.move_word_forward := by
  unfold TextEditor.move_word_forward
  repeat' (first | split | (dsimp only; split))
  all_goals first
  | exact h
  | exact linesOK_move_to_first_nonblank h

theorem linesOK_move_word_backward {ed : TextEditor} (h : LinesOK ed) :
    LinesOK ed.move_word_backward := by
  unfold TextEditor.move_word_backward
  repeat' (first | split | (dsimp only; split))
  all_goals exact h

set_option maxHeartbeats 1000000 in
theorem linesOK_move_word_end {ed : TextEditor} (h : LinesOK ed) :
    LinesOK ed.move_word_end := by
  unfold TextEditor.move_word_end
  repeat' (first | split | (dsimp only; split))
  all_goals exact h

theorem linesOK_move_half_page_down {ed : TextEditor} (h : LinesOK ed) :
    LinesOK ed.move_half_page_down := linesOK_clamp_cursor_col h

theorem linesOK_move_half_page_up {ed : TextEditor} (h : LinesOK ed) :
    LinesOK ed.move_half_page_up := linesOK_clamp_cursor_col h

theorem linesOK_move_page_down {ed : TextEditor} (h : LinesOK ed) :
    LinesOK ed.move_page_down := linesOK_clamp_cursor_col h

theorem linesOK_move_page_up {ed : TextEditor} (h : LinesOK ed) :
    LinesOK ed.move_page_up := linesOK_clamp_cursor_col h

theorem linesOK_jumpTo {ed : TextEditor} (h : LinesOK ed)
    (res : Option (Nat × Nat)) : LinesOK (jumpTo ed res) := by
  unfold jumpTo
  rcases res with _ | ⟨r, c⟩ <;> exact h

theorem linesOK_move_to_matching_bracket {ed : TextEditor} (h : LinesOK ed) :
    LinesOK ed.move_to_matching_bracket := by
  unfold TextEditor.move_to_matching_bracket
  dsimp only
  split
  · exact h
  · split
    · exact h
    · exact linesOK_jumpTo h _

theorem eraseIdx_pos_ne_nil {l : List (List Char)} (h : l ≠ []) {i : Nat}
    (hi : 0 < i) : l.eraseIdx i ≠ [] := by
  cases l with
  | nil => exact absurd rfl h
  | cons a t =>
    cases i with
    | zero => omega
    | succ n => simp [List.eraseIdx]

theorem map_ne_nil {α β : Type} {l : List α} (h : l ≠ []) (f : α → β) :
    l.map f ≠ [] := by
  cases l with
  | nil => exact absurd rfl h
  | cons a t => simp

theorem append3_ne_nil {A C : List (List Char)} {B : List (List Char)}
    (hB : B ≠ []) : A ++ B ++ C ≠ [] := by
  simp [hB]

theorem linesOK_enter_insert_mode {ed : TextEditor} (h : LinesOK ed) :
    LinesOK ed.enter_insert_mode := h

theorem linesOK_enter_normal_mode {ed : TextEditor} (h : LinesOK ed) :
    LinesOK ed.enter_normal_mode := linesOK_clamp_cursor_col h

theorem linesOK_enter_command_mode {ed : TextEditor} (h : LinesOK ed) :
    LinesOK ed.enter_command_mode := h

theorem linesOK_enter_visual_mode {ed : TextEditor} (h : LinesOK ed) :
    LinesOK ed.enter_visual_mode := h

theorem linesOK_enter_visual_line_mode {ed : TextEditor} (h : LinesOK ed) :
    LinesOK ed.enter_visual_line_mode := h

theorem linesOK_toggle_editor_style {ed : TextEditor} (h : LinesOK ed) :
    LinesOK ed.toggle_editor_style := by
  unfold TextEditor.toggle_editor_style
  repeat' (first | split | (dsimp only; split))
  all_goals exact h

theorem linesOK_delete_char {ed : TextEditor} (h : LinesOK ed) :
    LinesOK ed.delete_char := by
  have hs := linesOK_save_undo h
  unfold TextEditor.delete_char
  repeat' (first | split | (dsimp only; split))
  · exact linesOK_clamp_cursor_col
      (linesOK_intro (set_ne_nil hs.1 _ _) hs.2.1 hs.2.2)
  · exact hs

theorem linesOK_delete_char_before {ed : TextEditor} (h : LinesOK ed) :
    LinesOK ed.delete_char_before := by
  have hs := linesOK_save_undo h
  unfold TextEditor.delete_char_before
  repeat' (first | split | (dsimp only; split))
  all_goals first
  | exact h
  | exact linesOK_intro (set_ne_nil hs.1 _ _) hs.2.1 hs.2.2

theorem linesOK_delete_line {ed : TextEditor} (h : LinesOK ed) :
    LinesOK ed.delete_line := by
  have hs := linesOK_save_undo h
  unfold TextEditor.delete_line
  repeat' (first | split | (dsimp only; split))
  all_goals first
  | exact linesOK_intro (eraseIdx_ne_nil (by assumption) _) hs.2.1 hs.2.2
  | exact linesOK_intro (set_ne_nil hs.1 _ _) hs.2.1 hs.2.2

theorem linesOK_yank_line {ed : TextEditor} (h : LinesOK ed) :
    LinesOK ed.yank_line := h

theorem linesOK_yank_lines {ed : TextEditor} (h : LinesOK ed) (count : Nat) :
    LinesOK (ed.yank_lines count) := h

theorem linesOK_yank_to_end {ed : TextEditor} (h : LinesOK ed) :
    LinesOK ed.yank_to_end := h

theorem linesOK_delete_to_end {ed : TextEditor} (h : LinesOK ed) :
    LinesOK ed.delete_to_end := by
  have hs := linesOK_save_undo h
  unfold TextEditor.delete_to_end
  exact linesOK_clamp_cursor_col
    (linesOK_intro (set_ne_nil hs.1 _ _) hs.2.1 hs.2.2)

theorem linesOK_delete_lines {ed : TextEditor} (h : LinesOK ed) (count : Nat) :
    LinesOK (ed.delete_lines count) := by
  have hs := linesOK_save_undo h
  unfold TextEditor.delete_lines
  exact linesOK_intro (nonempty_fix_ne_nil _) hs.2.1 hs.2.2

theorem linesOK_paste_after {ed : TextEditor} (h : LinesOK ed) :
    LinesOK ed.paste_after := by
  have hs := linesOK_save_undo h
  unfold TextEditor.paste_after
  repeat' (first | split | (dsimp only; split))
  all_goals first
  | exact h
  | exact linesOK_intro (append3_ne_nil (by assumption)) hs.2.1 hs.2.2
  | exact linesOK_intro (set_ne_nil hs.1 _ _) hs.2.1 hs.2.2

theorem linesOK_paste_before {ed : TextEditor} (h : LinesOK ed) :
    LinesOK ed.paste_before := by
  have hs := linesOK_save_undo h
  unfold TextEditor.paste_before
  repeat' (first | split | (dsimp only; split))
  all_goals first
  | exact h
  | exact linesOK_intro (append3_ne_nil (by assumption)) hs.2.1 hs.2.2
  | exact linesOK_intro (set_ne_nil hs.1 _ _) hs.2.1 hs.2.2

theorem linesOK_paste_text {ed : TextEditor} (h : LinesOK ed) (t : List Char) :
    LinesOK (ed.paste_text t) := by
  have hs := linesOK_save_undo h
  unfold TextEditor.paste_text
  repeat' (first | split | (dsimp only; split))
  all_goals first
  | exact h
  | exact linesOK_enter_insert_mode
      (linesOK_intro (set_ne_nil hs.1 _ _) hs.2.1 hs.2.2)
  | exact linesOK_intro (set_ne_nil hs.1 _ _) hs.2.1 hs.2.2
  | exact linesOK_enter_insert_mode
      (linesOK_intro (by simp) hs.2.1 hs.2.2)
  | exact linesOK_intro (by simp) hs.2.1 hs.2.2

theorem linesOK_replace_char {ed : TextEditor} (h : LinesOK ed) (c : Char) :
    LinesOK (ed.replace_char c) := by
  have hs := linesOK_save_undo h
  unfold TextEditor.replace_char
  repeat' (first | split | (dsimp only; split))
  all_goals first
  | exact hs
  | exact linesOK_intro (set_ne_nil hs.1 _ _) hs.2.1 hs.2.2

theorem linesOK_substitute_char {ed : TextEditor} (h : LinesOK ed) :
    LinesOK ed.substitute_char :=
  linesOK_enter_insert_mode (linesOK_delete_char (linesOK_save_undo h))

theorem linesOK_substitute_line {ed : TextEditor} (h : LinesOK ed) :
    LinesOK ed.substitute_line := by
  have hs := linesOK_save_undo h
  unfold TextEditor.substitute_line
  exact linesOK_enter_insert_mode
    (linesOK_intro (set_ne_nil hs.1 _ _) hs.2.1 hs.2.2)

theorem linesOK_change_to_end {ed : TextEditor} (h : LinesOK ed) :
    LinesOK ed.change_to_end := by
  have hs := linesOK_save_undo h
  unfold TextEditor.change_to_end
  exact linesOK_enter_insert_mode
    (linesOK_intro (set_ne_nil hs.1 _ _) hs.2.1 hs.2.2)

theorem linesOK_join_lines {ed : TextEditor} (h : LinesOK ed) :
    LinesOK ed.join_lines := by
  have hs := linesOK_save_undo h
  unfold TextEditor.join_lines
  repeat' (first | split | (dsimp only; split))
  all_goals first
  | exact h
  | exact linesOK_intro
      (set_ne_nil (eraseIdx_pos_ne_nil hs.1 (by omega)) _ _) hs.2.1 hs.2.2

theorem linesOK_indent_line {ed : TextEditor} (h : LinesOK ed) :
    LinesOK ed.indent_line := by
  have hs := linesOK_save_undo h
  unfold TextEditor.indent_line
  exact linesOK_intro (set_ne_nil hs.1 _ _) hs.2.1 hs.2.2

theorem linesOK_outdent_line {ed : TextEditor} (h : LinesOK ed) :
    LinesOK ed.outdent_line := by
  have hs := linesOK_save_undo h
  unfold TextEditor.outdent_line
  repeat' (first | split | (dsimp only; split))
  all_goals first
  | exact hs
  | exact linesOK_intro (set_ne_nil hs.1 _ _) hs.2.1 hs.2.2

theorem linesOK_delete_word {ed : TextEditor} (h : LinesOK ed) :
    LinesOK ed.delete_word := by
  have hs := linesOK_move_word_forward (linesOK_save_undo h)
  unfold TextEditor.delete_word
  repeat' (first | split | (dsimp only; split))
  all_goals first
  | exact hs
  | exact linesOK_intro (set_ne_nil hs.1 _ _) hs.2.1 hs.2.2

theorem linesOK_toggle_case {ed : TextEditor} (h : LinesOK ed) :
    LinesOK ed.toggle_case := by
  have hs := linesOK_save_undo h
  unfold TextEditor.toggle_case
  repeat' (first | split | (dsimp only; split))
  all_goals first
  | exact hs
  | exact linesOK_intro (set_ne_nil hs.1 _ _) hs.2.1 hs.2.2

theorem linesOK_start_search_forward {ed : TextEditor} (h : LinesOK ed) :
    LinesOK ed.start_search_forward := h

theorem linesOK_start_search_backward {ed : TextEditor} (h : LinesOK ed) :
    LinesOK ed.start_search_backward := h

theorem linesOK_search_next {ed : TextEditor} (h : LinesOK ed) :
    LinesOK ed.search_next := by
  unfold TextEditor.search_next
  repeat' (first | split | (dsimp only; split))
  all_goals exact h

theorem linesOK_search_prev {ed : TextEditor} (h : LinesOK ed) :
    LinesOK ed.search_prev := by
  unfold TextEditor.search_prev
  repeat' (first | split | (dsimp only; split))
  all_goals exact h

theorem linesOK_execute_search {ed : TextEditor} (h : LinesOK ed) :
    LinesOK ed.execute_search := by
  unfold TextEditor.execute_search
  repeat' (first | split | (dsimp only; split))
  all_goals first
  | exact linesOK_enter_normal_mode h
  | exact linesOK_enter_normal_mode (linesOK_search_next h)
  | exact linesOK_enter_normal_mode (linesOK_search_prev h)

theorem linesOK_search_word_under_cursor {ed : TextEditor} (h : LinesOK ed) :
    LinesOK ed.search_word_under_cursor := by
  unfold TextEditor.search_word_under_cursor
  repeat' (first | split | (dsimp only; split))
  all_goals first
  | exact h
  | exact linesOK_search_next h

theorem linesOK_insert_char {ed : TextEditor} (h : LinesOK ed) (c : Char) :
    LinesOK (ed.insert_char c) := by
  unfold TextEditor.insert_char
  exact linesOK_intro (set_ne_nil h.1 _ _) h.2.1 h.2.2

theorem linesOK_insert_newline {ed : TextEditor} (h : LinesOK ed) :
    LinesOK ed.insert_newline := by
  unfold TextEditor.insert_newline
  exact linesOK_intro (insertIdx_ne_nil (set_ne_nil h.1 _ _) _ _) h.2.1 h.2.2

theorem linesOK_backspace {ed : TextEditor} (h : LinesOK ed) :
    LinesOK ed.backspace := by
  unfold TextEditor.backspace
  repeat' (first | split | (dsimp only; split))
  all_goals first
  | exact h
  | exact linesOK_intro (set_ne_nil h.1 _ _) h.2.1 h.2.2
  | exact linesOK_intro
      (set_ne_nil (eraseIdx_pos_ne_nil h.1 (by assumption)) _ _) h.2.1 h.2.2

theorem linesOK_append_command_char {ed : TextEditor} (h : LinesOK ed)
    (c : Char) : LinesOK (ed.append_command_char c) := h

theorem linesOK_backspace_command {ed : TextEditor} (h : LinesOK ed) :
    LinesOK ed.backspace_command := h

theorem removeAfterLoop_ne_nil {lines : List (List Char)} (h : lines ≠ [])
    (sr : Nat) : ∀ n, removeAfterLoop sr n lines ≠ []
  | 0 => h
  | n + 1 => by
    unfold removeAfterLoop
    split
    · exact removeAfterLoop_ne_nil (eraseIdx_pos_ne_nil h (by omega)) sr n
    · exact removeAfterLoop_ne_nil h sr n

theorem linesOK_delete_visual_selection {ed : TextEditor} (h : LinesOK ed) :
    LinesOK ed.delete_visual_selection := by
  have hs := linesOK_save_undo h
  unfold TextEditor.delete_visual_selection
  repeat' (first | split | (dsimp only; split))
  all_goals apply linesOK_enter_normal_mode
  all_goals refine linesOK_intro ?_ hs.2.1 hs.2.2
  all_goals first
  | assumption
  | exact hs.1
  | exact set_ne_nil hs.1 _ _
  | exact removeAfterLoop_ne_nil (set_ne_nil hs.1 _ _) _ _
  | simp

theorem linesOK_yank_visual_selection {ed : TextEditor} (h : LinesOK ed) :
    LinesOK ed.yank_visual_selection := by
  unfold TextEditor.yank_visual_selection
  repeat' (first | split | (dsimp only; split))
  all_goals exact linesOK_enter_normal_mode h

theorem linesOK_exitEditor {ed : TextEditor} (h : LinesOK ed) (b : Bool) :
    LinesOK (exitEditor ed b) := h

theorem linesOK_save_file {w : World} {ed : TextEditor} (h : LinesOK ed) :
    LinesOK (save_file w ed).2 := by
  unfold save_file
  split <;> exact h

theorem linesOK_execute_substitute_core {ed : TextEditor} (h : LinesOK ed)
    (command : List Char) : LinesOK (execute_substitute_core ed command) := by
  have hs := linesOK_save_undo h
  unfold execute_substitute_core
  repeat' (first | split | (dsimp only; split))
  all_goals first
  | exact h
  | exact linesOK_intro (map_ne_nil (map_ne_nil hs.1 _) _) hs.2.1 hs.2.2
  | exact linesOK_intro (set_ne_nil hs.1 _ _) hs.2.1 hs.2.2

theorem linesOK_execute_substitute {ed : TextEditor} (h : LinesOK ed)
    (command : List Char) : LinesOK (execute_substitute ed command) :=
  linesOK_enter_normal_mode (linesOK_execute_substitute_core h command)

theorem linesOK_execute_command {w : World} {ed : TextEditor}
    (h : LinesOK ed) : LinesOK (execute_command w ed) := by
  unfold execute_command
  dsimp only
  cases hp : parseUsize ed.command_buffer with
  | some n =>
    exact linesOK_enter_normal_mode (linesOK_move_to_line h _)
  | none =>
    show LinesOK (if _ then _ else _)
    by_cases h1 : (leadingMatch (cs "%s/") ed.command_buffer ||
        leadingMatch (cs "s/") ed.command_buffer) = true
    · rw [if_pos h1]
      exact linesOK_execute_substitute h _
    · rw [if_neg h1]
      by_cases h2 : ed.command_buffer = cs "q"
      · rw [if_pos h2]
        split
        · exact linesOK_enter_normal_mode h
        · exact linesOK_exitEditor h _
      · rw [if_neg h2]
        by_cases h3 : ed.command_buffer = cs "q!"
        · rw [if_pos h3]
          exact linesOK_exitEditor h _
        · rw [if_neg h3]
          by_cases h4 : ed.command_buffer = cs "w"
          · rw [if_pos h4]
            split
            · exact linesOK_enter_normal_mode (linesOK_save_file h)
            · exact linesOK_enter_normal_mode (linesOK_save_file h)
          · rw [if_neg h4]
            by_cases h5 : ed.command_buffer = cs "wq" ∨ ed.command_buffer = cs "x" ∨
                ed.command_buffer = cs "wq!" ∨ ed.command_buffer = cs "x!"
            · rw [if_pos h5]
              split
              · exact linesOK_exitEditor (linesOK_save_file h) _
              · exact linesOK_enter_normal_mode (linesOK_save_file h)
            · rw [if_neg h5]
              by_cases h6 : ed.command_buffer = cs "e!"
              · rw [if_pos h6]
                apply linesOK_enter_normal_mode
                rcases w.reload with _ | _ | content
                · exact h
                · exact h
                · exact linesOK_intro (nonempty_fix_ne_nil _) stackOK_nil stackOK_nil
              · rw [if_neg h6]
                by_cases h7 : ed.command_buffer = cs "set nu" ∨
                    ed.command_buffer = cs "set number"
                · rw [if_pos h7]
                  exact linesOK_enter_normal_mode h
                · rw [if_neg h7]
                  by_cases h8 : ed.command_buffer = cs "noh" ∨
                      ed.command_buffer = cs "nohlsearch"
                  · rw [if_pos h8]
                    exact linesOK_enter_normal_mode
                      (linesOK_intro h.1 h.2.1 h.2.2)
                  · rw [if_neg h8]
                    by_cases h9 : ed.command_buffer = cs "$"
                    · rw [if_pos h9]
                      exact linesOK_enter_normal_mode (linesOK_move_to_last_line h)
                    · rw [if_neg h9]
                      by_cases h10 : ed.command_buffer = cs "0"
                      · rw [if_pos h10]
                        exact linesOK_enter_normal_mode (linesOK_move_to_first_line h)
                      · rw [if_neg h10]
                        exact linesOK_enter_normal_mode h

theorem linesOK_pendingDispatch {ed ed2 : TextEditor} {k : Key} {count : Nat}
    (h : LinesOK ed) (hd : pendingDispatch ed k count = some ed2) :
    LinesOK ed2 := by
  unfold pendingDispatch at hd
  dsimp only at hd
  by_cases c1 : ed.pending_op = PendingOperator.Delete ∧ k = Key.char 'd'
  · rw [if_pos c1] at hd
    injection hd with hd
    subst hd
    exact linesOK_delete_lines h count
  · rw [if_neg c1] at hd
    by_cases c2 : ed.pending_op = PendingOperator.Yank ∧ k = Key.char 'y'
    · rw [if_pos c2] at hd
      injection hd with hd
      subst hd
      exact linesOK_yank_lines h count
    · rw [if_neg c2] at hd
      by_cases c3 : ed.pending_op = PendingOperator.Change ∧ k = Key.char 'c'
      · rw [if_pos c3] at hd
        injection hd with hd
        subst hd
        exact linesOK_substitute_line h
      · rw [if_neg c3] at hd
        by_cases c4 : ed.pending_op = PendingOperator.Indent ∧ k = Key.char '>'
        · rw [if_pos c4] at hd
          injection hd with hd
          subst hd
          exact linesOK_applyN (fun _ hh => linesOK_indent_line hh) count h
        · rw [if_neg c4] at hd
          by_cases c5 : ed.pending_op = PendingOperator.Outdent ∧ k = Key.char '<'
          · rw [if_pos c5] at hd
            injection hd with hd
            subst hd
            exact linesOK_applyN (fun _ hh => linesOK_outdent_line hh) count h
          · rw [if_neg c5] at hd
            by_cases c6 : ed.pending_op = PendingOperator.Delete ∧ k = Key.char '$'
            · rw [if_pos c6] at hd
              injection hd with hd
              subst hd
              exact linesOK_delete_to_end h
            · rw [if_neg c6] at hd
              by_cases c7 : ed.pending_op = PendingOperator.Yank ∧ k = Key.char '$'
              · rw [if_pos c7] at hd
                injection hd with hd
                subst hd
                exact linesOK_yank_to_end h
              · rw [if_neg c7] at hd
                by_cases c8 : ed.pending_op = PendingOperator.Change ∧ k = Key.char '$'
                · rw [if_pos c8] at hd
                  injection hd with hd
                  subst hd
                  exact linesOK_change_to_end h
                · rw [if_neg c8] at hd
                  by_cases c9 : ed.pending_op = PendingOperator.Delete ∧ k = Key.char 'w'
                  · rw [if_pos c9] at hd
                    injection hd with hd
                    subst hd
                    exact linesOK_applyN (fun _ hh => linesOK_delete_word hh) count h
                  · rw [if_neg c9] at hd
                    by_cases c10 : ed.pending_op = PendingOperator.Delete ∧ k = Key.char 'G'
                    · rw [if_pos c10] at hd
                      injection hd with hd
                      subst hd
                      exact linesOK_intro (nonempty_fix_ne_nil _) h.2.1 h.2.2
                    · rw [if_neg c10] at hd
                      by_cases c11 : ed.pending_op = PendingOperator.Delete ∧ k = Key.char 'g'
                      · rw [if_pos c11] at hd
                        injection hd with hd
                        subst hd
                        exact linesOK_intro (nonempty_fix_ne_nil _) h.2.1 h.2.2
                      · rw [if_neg c11] at hd
                        exact absurd hd (by simp)

theorem linesOK_normalCommand {ed : TextEditor} {k : Key} {count : Nat}
    (h : LinesOK ed) : LinesOK (normalCommand ed k count) := by
  unfold normalCommand
  cases k with
  | left => exact linesOK_applyN (fun _ hh => linesOK_move_cursor_left hh) count h
  | down => exact linesOK_applyN (fun _ hh => linesOK_move_cursor_down hh) count h
  | up => exact linesOK_applyN (fun _ hh => linesOK_move_cursor_up hh) count h
  | right => exact linesOK_applyN (fun _ hh => linesOK_move_cursor_right hh) count h
  | endKey => exact h
  | home => exact h
  | esc => exact h
  | enter => exact h
  | backspace => exact h
  | delete => exact h
  | tab => exact h
  | pageUp => exact h
  | pageDown => exact h
  | char c =>
    dsimp only
    by_cases c1 : c = 'h'
    · rw [if_pos c1]
      exact linesOK_applyN (fun _ hh => linesOK_move_cursor_left hh) count h
    · rw [if_neg c1]
      by_cases c2 : c = 'j'
      · rw [if_pos c2]
        exact linesOK_applyN (fun _ hh => linesOK_move_cursor_down hh) count h
      · rw [if_neg c2]
        by_cases c3 : c = 'k'
        · rw [if_pos c3]
          exact linesOK_applyN (fun _ hh => linesOK_move_cursor_up hh) count h
        · rw [if_neg c3]
          by_cases c4 : c = 'l'
          · rw [if_pos c4]
            exact linesOK_applyN (fun _ hh => linesOK_move_cursor_right hh) count h
          · rw [if_neg c4]
            by_cases c5 : c = '0'
            · rw [if_pos c5]
              exact h
            · rw [if_neg c5]
              by_cases c6 : c = '^'
              · rw [if_pos c6]
                exact h
              · rw [if_neg c6]
                by_cases c7 : c = '$'
                · rw [if_pos c7]
                  exact h
                · rw [if_neg c7]
                  by_cases c8 : c = 'w'
                  · rw [if_pos c8]
                    exact linesOK_applyN (fun _ hh => linesOK_move_word_forward hh) count h
                  · rw [if_neg c8]
                    by_cases c9 : c = 'b'
                    · rw [if_pos c9]
                      exact linesOK_applyN (fun _ hh => linesOK_move_word_backward hh) count h
                    · rw [if_neg c9]
                      by_cases c10 : c = 'e'
                      · rw [if_pos c10]
                        exact linesOK_applyN (fun _ hh => linesOK_move_word_end hh) count h
                      · rw [if_neg c10]
                        by_cases c11 : c = 'g'
                        · rw [if_pos c11]
                          split
                          · exact linesOK_move_to_line h count
                          · exact h
                        · rw [if_neg c11]
                          by_cases c12 : c = 'G'
                          · rw [if_pos c12]
                            split
                            · exact linesOK_move_to_line h count
                            · exact h
                          · rw [if_neg c12]
                            by_cases c13 : c = '%'
                            · rw [if_pos c13]
                              exact linesOK_move_to_matching_bracket h
                            · rw [if_neg c13]
                              by_cases c14 : c = 'x'
                              · rw [if_pos c14]
                                exact linesOK_applyN (fun _ hh => linesOK_delete_char hh) count h
                              · rw [if_neg c14]
                                by_cases c15 : c = 'X'
                                · rw [if_pos c15]
                                  exact linesOK_applyN (fun _ hh => linesOK_delete_char_before hh) count h
                                · rw [if_neg c15]
                                  by_cases c16 : c = 'd'
                                  · rw [if_pos c16]
                                    exact h
                                  · rw [if_neg c16]
                                    by_cases c17 : c = 'D'
                                    · rw [if_pos c17]
                                      exact linesOK_delete_to_end h
                                    · rw [if_neg c17]
                                      by_cases c18 : c = 'y'
                                      · rw [if_pos c18]
                                        exact h
                                      · rw [if_neg c18]
                                        by_cases c19 : c = 'Y'
                                        · rw [if_pos c19]
                                          exact h
                                        · rw [if_neg c19]
                                          by_cases c20 : c = 'c'
                                          · rw [if_pos c20]
                                            exact h
                                          · rw [if_neg c20]
                                            by_cases c21 : c = 'C'
                                            · rw [if_pos c21]
                                              exact linesOK_change_to_end h
                                            · rw [if_neg c21]
                                              by_cases c22 : c = 'p'
                                              · rw [if_pos c22]
                                                exact linesOK_paste_after h
                                              · rw [if_neg c22]
                                                by_cases c23 : c = 'P'
                                                · rw [if_pos c23]
                                                  exact linesOK_paste_before h
                                                · rw [if_neg c23]
                                                  by_cases c24 : c = 'r'
                                                  · rw [if_pos c24]
                                                    exact h
                                                  · rw [if_neg c24]
                                                    by_cases c25 : c = 's'
                                                    · rw [if_pos c25]
                                                      exact linesOK_substitute_char h
                                                    · rw [if_neg c25]
                                                      by_cases c26 : c = 'S'
                                                      · rw [if_pos c26]
                                                        exact linesOK_substitute_line h
                                                      · rw [if_neg c26]
                                                        by_cases c27 : c = 'u'
                                                        · rw [if_pos c27]
                                                          exact linesOK_undo h
                                                        · rw [if_neg c27]
                                                          by_cases c28 : c = 'J'
                                                          · rw [if_pos c28]
                                                            exact linesOK_applyN (fun _ hh => linesOK_join_lines hh) count h
                                                          · rw [if_neg c28]
                                                            by_cases c29 : c = '>'
                                                            · rw [if_pos c29]
                                                              exact h
                                                            · rw [if_neg c29]
                                                              by_cases c30 : c = '<'
                                                              · rw [if_pos c30]
                                                                exact h
                                                              · rw [if_neg c30]
                                                                by_cases c31 : c = '~'
                                                                · rw [if_pos c31]
                                                                  exact linesOK_applyN (fun _ hh => linesOK_toggle_case hh) count h
                                                                · rw [if_neg c31]
                                                                  by_cases c32 : c = '/'
                                                                  · rw [if_pos c32]
                                                                    exact h
                                                                  · rw [if_neg c32]
                                                                    by_cases c33 : c = '?'
                                                                    · rw [if_pos c33]
                                                                      exact h
                                                                    · rw [if_neg c33]
                                                                      by_cases c34 : c = 'n'
                                                                      · rw [if_pos c34]
                                                                        exact linesOK_applyN (fun _ hh => linesOK_search_next hh) count h
                                                                      · rw [if_neg c34]
                                                                        by_cases c35 : c = 'N'
                                                                        · rw [if_pos c35]
                                                                          exact linesOK_applyN (fun _ hh => linesOK_search_prev hh) count h
                                                                        · rw [if_neg c35]
                                                                          by_cases c36 : c = '*'
                                                                          · rw [if_pos c36]
                                                                            exact linesOK_search_word_under_cursor h
                                                                          · rw [if_neg c36]
                                                                            by_cases c37 : c = 'v'
                                                                            · rw [if_pos c37]
                                                                              exact h
                                                                            · rw [if_neg c37]
                                                                              by_cases c38 : c = 'V'
                                                                              · rw [if_pos c38]
                                                                                exact h
                                                                              · rw [if_neg c38]
                                                                                by_cases c39 : c = 'i'
                                                                                · rw [if_pos c39]
                                                                                  exact h
                                                                                · rw [if_neg c39]
                                                                                  by_cases c40 : c = 'I'
                                                                                  · rw [if_pos c40]
                                                                                    exact h
                                                                                  · rw [if_neg c40]
                                                                                    by_cases c41 : c = 'a'
                                                                                    · rw [if_pos c41]
                                                                                      exact linesOK_enter_insert_mode (linesOK_move_cursor_right h)
                                                                                    · rw [if_neg c41]
                                                                                      by_cases c42 : c = 'A'
                                                                                      · rw [if_pos c42]
                                                                                        exact h
                                                                                      · rw [if_neg c42]
                                                                                        by_cases c43 : c = 'o'
                                                                                        · rw [if_pos c43]
                                                                                          exact linesOK_enter_insert_mode (linesOK_insert_newline (linesOK_move_to_line_end (linesOK_save_undo h)))
                                                                                        · rw [if_neg c43]
                                                                                          by_cases c44 : c = 'O'
                                                                                          · rw [if_pos c44]
                                                                                            exact linesOK_enter_insert_mode (linesOK_intro (insertIdx_ne_nil (linesOK_save_undo h).1 _ _) (linesOK_save_undo h).2.1 (linesOK_save_undo h).2.2)
                                                                                          · rw [if_neg c44]
                                                                                            by_cases c45 : c = ':'
                                                                                            · rw [if_pos c45]
                                                                                              exact h
                                                                                            · rw [if_neg c45]
                                                                                              exact h

theorem linesOK_handle_normal_mode_keys {ed : TextEditor} {k : Key}
    (h : LinesOK ed) : LinesOK (handle_normal_mode_keys ed k) := by
  unfold handle_normal_mode_keys
  cases isCountDigit ed k with
  | some c => exact h
  | none =>
    dsimp only
    split
    · cases hd : pendingDispatch ed.get_count.2 k ed.get_count.1 with
      | some ed2 =>
        exact show LinesOK ed2 from
          linesOK_pendingDispatch (show LinesOK ed.get_count.2 from h) hd
      | none => exact linesOK_normalCommand h
    · exact linesOK_normalCommand h

theorem linesOK_handle_insert_mode_keys {ed : TextEditor} {k : Key}
    (h : LinesOK ed) : LinesOK (handle_insert_mode_keys ed k) := by
  unfold handle_insert_mode_keys
  cases k with
  | esc => exact linesOK_enter_normal_mode h
  | char c => exact linesOK_insert_char h c
  | enter => exact linesOK_insert_newline h
  | backspace => exact linesOK_backspace h
  | delete => exact linesOK_delete_char h
  | tab => exact linesOK_applyN (fun _ hh => linesOK_insert_char hh ' ') 4 h
  | left => exact linesOK_move_cursor_left h
  | right => exact linesOK_move_cursor_right h
  | up => exact linesOK_move_cursor_up h
  | down => exact linesOK_move_cursor_down h
  | home => exact h
  | endKey => exact h
  | pageUp => exact h
  | pageDown => exact h

theorem linesOK_commandModeMain {w : World} {ed : TextEditor} {k : Key}
    (h : LinesOK ed) : LinesOK (commandModeMain w ed k) := by
  unfold commandModeMain
  cases k with
  | esc => exact linesOK_enter_normal_mode h
  | char c => exact linesOK_append_command_char h c
  | backspace =>
    dsimp only
    split
    · exact linesOK_enter_normal_mode (linesOK_backspace_command h)
    · exact linesOK_backspace_command h
  | enter =>
    dsimp only
    split
    · exact linesOK_execute_search h
    · exact linesOK_execute_command h
  | left => exact h
  | right => exact h
  | up => exact h
  | down => exact h
  | home => exact h
  | endKey => exact h
  | pageUp => exact h
  | pageDown => exact h
  | delete => exact h
  | tab => exact h

theorem linesOK_handle_command_mode_keys {w : World} {ed : TextEditor}
    {k : Key} (h : LinesOK ed) : LinesOK (handle_command_mode_keys w ed k) := by
  unfold handle_command_mode_keys
  split
  · cases k with
    | char c =>
      exact linesOK_enter_normal_mode
        (linesOK_replace_char
          (show LinesOK { ed with command_buffer := [] } from h) c)
    | esc => exact linesOK_enter_normal_mode h
    | _ => exact linesOK_commandModeMain h
  · exact linesOK_commandModeMain h

theorem mapRows_ne_nil {lines : List (List Char)} (h : lines ≠ [])
    (f : Nat → List Char → List Char) (sr er : Nat) :
    mapRows f sr er lines ≠ [] := by
  unfold mapRows
  simpa [List.mapIdx_eq_nil_iff] using h

theorem linesOK_handle_visual_mode_keys {ed : TextEditor} {k : Key}
    (h : LinesOK ed) : LinesOK (handle_visual_mode_keys ed k) := by
  have hs := linesOK_save_undo h
  unfold handle_visual_mode_keys
  cases k with
  | esc => exact linesOK_enter_normal_mode h
  | left => exact linesOK_move_cursor_left h
  | down => exact linesOK_move_cursor_down h
  | up => exact linesOK_move_cursor_up h
  | right => exact linesOK_move_cursor_right h
  | home => exact h
  | endKey => exact h
  | enter => exact h
  | backspace => exact h
  | delete => exact h
  | tab => exact h
  | pageUp => exact h
  | pageDown => exact h
  | char c =>
    dsimp only
    by_cases c1 : c = 'v' ∨ c = 'V'
    · rw [if_pos c1]
      exact linesOK_enter_normal_mode h
    · rw [if_neg c1]
      by_cases c2 : c = 'h'
      · rw [if_pos c2]
        exact linesOK_move_cursor_left h
      · rw [if_neg c2]
        by_cases c3 : c = 'j'
        · rw [if_pos c3]
          exact linesOK_move_cursor_down h
        · rw [if_neg c3]
          by_cases c4 : c = 'k'
          · rw [if_pos c4]
            exact linesOK_move_cursor_up h
          · rw [if_neg c4]
            by_cases c5 : c = 'l'
            · rw [if_pos c5]
              exact linesOK_move_cursor_right h
            · rw [if_neg c5]
              by_cases c6 : c = 'w'
              · rw [if_pos c6]
                exact linesOK_move_word_forward h
              · rw [if_neg c6]
                by_cases c7 : c = 'b'
                · rw [if_pos c7]
                  exact linesOK_move_word_backward h
                · rw [if_neg c7]
                  by_cases c8 : c = 'e'
                  · rw [if_pos c8]
                    exact linesOK_move_word_end h
                  · rw [if_neg c8]
                    by_cases c9 : c = '0'
                    · rw [if_pos c9]
                      exact h
                    · rw [if_neg c9]
                      by_cases c10 : c = '$'
                      · rw [if_pos c10]
                        exact h
                      · rw [if_neg c10]
                        by_cases c11 : c = '^'
                        · rw [if_pos c11]
                          exact h
                        · rw [if_neg c11]
                          by_cases c12 : c = 'G'
                          · rw [if_pos c12]
                            exact h
                          · rw [if_neg c12]
                            by_cases c13 : c = 'g'
                            · rw [if_pos c13]
                              exact h
                            · rw [if_neg c13]
                              by_cases c14 : c = 'd' ∨ c = 'x'
                              · rw [if_pos c14]
                                exact linesOK_delete_visual_selection h
                              · rw [if_neg c14]
                                by_cases c15 : c = 'y'
                                · rw [if_pos c15]
                                  exact linesOK_yank_visual_selection h
                                · rw [if_neg c15]
                                  by_cases c16 : c = 'c' ∨ c = 's'
                                  · rw [if_pos c16]
                                    exact linesOK_enter_insert_mode (linesOK_delete_visual_selection h)
                                  · rw [if_neg c16]
                                    by_cases c17 : c = '>'
                                    · rw [if_pos c17]
                                      exact linesOK_enter_normal_mode
                                        (linesOK_intro (mapRows_ne_nil hs.1 _ _ _) hs.2.1 hs.2.2)
                                    · rw [if_neg c17]
                                      by_cases c18 : c = '<'
                                      · rw [if_pos c18]
                                        exact linesOK_enter_normal_mode
                                          (linesOK_intro (mapRows_ne_nil hs.1 _ _ _) hs.2.1 hs.2.2)
                                      · rw [if_neg c18]
                                        by_cases c19 : c = '~' ∨ c = 'u' ∨ c = 'U'
                                        · rw [if_pos c19]
                                          exact linesOK_enter_normal_mode
                                            (linesOK_intro (mapRows_ne_nil hs.1 _ _ _) hs.2.1 hs.2.2)
                                        · rw [if_neg c19]
                                          by_cases c20 : c = 'J'
                                          · rw [if_pos c20]
                                            exact linesOK_enter_normal_mode
                                              (linesOK_applyN (fun _ hh => linesOK_join_lines hh) _
                                                (show LinesOK { ed with cursor_row := ed.get_visual_selection.1 }
                                                  from h))
                                          · rw [if_neg c20]
                                            exact h

theorem linesOK_handle_nano_keys {w : World} {ed : TextEditor} {k : Key}
    {ctrl : Bool} (h : LinesOK ed) :
    LinesOK (handle_nano_keys w ed k ctrl) := by
  unfold handle_nano_keys
  by_cases hns : ed.nano_search_mode = true
  · rw [if_pos hns]
    cases k with
    | esc => exact h
    | enter => exact linesOK_search_next h
    | char c => exact h
    | backspace => exact h
    | delete => exact h
    | tab => exact h
    | left => exact h
    | right => exact h
    | up => exact h
    | down => exact h
    | home => exact h
    | endKey => exact h
    | pageUp => exact h
    | pageDown => exact h
  · rw [if_neg hns]
    by_cases hc : ctrl = true
    · rw [if_pos hc]
      cases k with
      | esc => exact h
      | enter => exact h
      | backspace => exact h
      | delete => exact h
      | tab => exact h
      | left => exact h
      | right => exact h
      | up => exact h
      | down => exact h
      | home => exact h
      | endKey => exact h
      | pageUp => exact h
      | pageDown => exact h
      | char c =>
        dsimp only
        by_cases c1 : c = 'x' ∨ c = 'X'
        · rw [if_pos c1]
          split
          · exact h
          · exact linesOK_exitEditor h _
        · rw [if_neg c1]
          by_cases c2 : c = 'o' ∨ c = 'O'
          · rw [if_pos c2]
            split
            · exact linesOK_save_file h
            · exact linesOK_save_file h
          · rw [if_neg c2]
            by_cases c3 : c = 'k' ∨ c = 'K'
            · rw [if_pos c3]
              exact linesOK_delete_line (linesOK_yank_line (linesOK_save_undo h))
            · rw [if_neg c3]
              by_cases c4 : c = 'u' ∨ c = 'U'
              · rw [if_pos c4]
                exact linesOK_paste_after h
              · rw [if_neg c4]
                by_cases c5 : c = 'w' ∨ c = 'W'
                · rw [if_pos c5]
                  exact h
                · rw [if_neg c5]
                  by_cases c6 : c = 'g' ∨ c = 'G'
                  · rw [if_pos c6]
                    exact h
                  · rw [if_neg c6]
                    by_cases c7 : c = '\\'
                    · rw [if_pos c7]
                      exact h
                    · rw [if_neg c7]
                      by_cases c8 : c = 'a' ∨ c = 'A'
                      · rw [if_pos c8]
                        exact h
                      · rw [if_neg c8]
                        by_cases c9 : c = 'e' ∨ c = 'E'
                        · rw [if_pos c9]
                          exact h
                        · rw [if_neg c9]
                          by_cases c10 : c = 'y' ∨ c = 'Y'
                          · rw [if_pos c10]
                            exact linesOK_move_page_up h
                          · rw [if_neg c10]
                            by_cases c11 : c = 'v' ∨ c = 'V'
                            · rw [if_pos c11]
                              exact linesOK_move_page_down h
                            · rw [if_neg c11]
                              by_cases c12 : c = '_'
                              · rw [if_pos c12]
                                exact h
                              · rw [if_neg c12]
                                by_cases c13 : c = 'c' ∨ c = 'C'
                                · rw [if_pos c13]
                                  exact h
                                · rw [if_neg c13]
                                  by_cases c14 : c = 'z' ∨ c = 'Z'
                                  · rw [if_pos c14]
                                    exact linesOK_undo h
                                  · rw [if_neg c14]
                                    exact h
    · rw [if_neg hc]
      cases k with
      | esc =>
        dsimp only
        split
        · exact h
        · exact linesOK_exitEditor h _
      | char c => exact linesOK_insert_char (linesOK_save_undo h) c
      | enter => exact linesOK_insert_newline (linesOK_save_undo h)
      | backspace => exact linesOK_backspace (linesOK_save_undo h)
      | delete => exact linesOK_delete_char (linesOK_save_undo h)
      | tab =>
        exact linesOK_applyN (fun _ hh => linesOK_insert_char hh ' ') 4
          (linesOK_save_undo h)
      | left => exact linesOK_move_cursor_left h
      | right => exact linesOK_move_cursor_right h
      | up => exact linesOK_move_cursor_up h
      | down => exact linesOK_move_cursor_down h
      | home => exact h
      | endKey => exact h
      | pageUp => exact linesOK_move_page_up h
      | pageDown => exact linesOK_move_page_down h

theorem linesOK_handle_editor_keys {w : World} {ed : TextEditor} {k : Key}
    (h : LinesOK ed) : LinesOK (handle_editor_keys w ed k) := by
  unfold handle_editor_keys
  cases hm : ed.mode with
  | Normal => exact linesOK_handle_normal_mode_keys h
  | Insert => exact linesOK_handle_insert_mode_keys h
  | Command => exact linesOK_handle_command_mode_keys h
  | Visual => exact linesOK_handle_visual_mode_keys h
  | VisualLine => exact linesOK_handle_visual_mode_keys h

theorem linesOK_editorStep {w : World} {ed : TextEditor} {k : Key}
    {ctrl : Bool} (h : LinesOK ed) : LinesOK (editorStep w ed k ctrl) := by
  unfold editorStep
  by_cases hc : ctrl = true
  · rw [if_pos hc]
    cases k with
    | char c =>
      dsimp only
      by_cases c1 : c = 't' ∨ c = 'T'
      · rw [if_pos c1]
        exact linesOK_toggle_editor_style h
      · rw [if_neg c1]
        by_cases c2 : c = 'c' ∨ c = 'C'
        · rw [if_pos c2]
          split
          · split <;> exact h
          · split <;> exact h
        · rw [if_neg c2]
          by_cases c3 : c = 'v' ∨ c = 'V'
          · rw [if_pos c3]
            cases w.pasteRes with
            | ok t =>
              dsimp only
              split
              · exact linesOK_paste_text h t
              · exact h
            | error e => exact h
          · rw [if_neg c3]
            cases ed.editor_style with
            | Nano => exact linesOK_handle_nano_keys h
            | Vim =>
              dsimp only
              by_cases v1 : c = 'r' ∨ c = 'R'
              · rw [if_pos v1]
                exact linesOK_redo h
              · rw [if_neg v1]
                by_cases v2 : c = 'd' ∨ c = 'D'
                · rw [if_pos v2]
                  exact linesOK_move_half_page_down h
                · rw [if_neg v2]
                  by_cases v3 : c = 'u' ∨ c = 'U'
                  · rw [if_pos v3]
                    exact linesOK_move_half_page_up h
                  · rw [if_neg v3]
                    by_cases v4 : c = 'f' ∨ c = 'F'
                    · rw [if_pos v4]
                      exact linesOK_move_page_down h
                    · rw [if_neg v4]
                      by_cases v5 : c = 'b' ∨ c = 'B'
                      · rw [if_pos v5]
                        exact linesOK_move_page_up h
                      · rw [if_neg v5]
                        by_cases v6 : c = 'o' ∨ c = 'O'
                        · rw [if_pos v6]
                          exact h
                        · rw [if_neg v6]
                          exact linesOK_handle_editor_keys h
    | esc => cases ed.editor_style with
      | Nano => exact linesOK_handle_nano_keys h
      | Vim => exact linesOK_handle_editor_keys h
    | enter => cases ed.editor_style with
      | Nano => exact linesOK_handle_nano_keys h
      | Vim => exact linesOK_handle_editor_keys h
    | backspace => cases ed.editor_style with
      | Nano => exact linesOK_handle_nano_keys h
      | Vim => exact linesOK_handle_editor_keys h
    | delete => cases ed.editor_style with
      | Nano => exact linesOK_handle_nano_keys h
      | Vim => exact linesOK_handle_editor_keys h
    | tab => cases ed.editor_style with
      | Nano => exact linesOK_handle_nano_keys h
      | Vim => exact linesOK_handle_editor_keys h
    | left => cases ed.editor_style with
      | Nano => exact linesOK_handle_nano_keys h
      | Vim => exact linesOK_handle_editor_keys h
    | right => cases ed.editor_style with
      | Nano => exact linesOK_handle_nano_keys h
      | Vim => exact linesOK_handle_editor_keys h
    | up => cases ed.editor_style with
      | Nano => exact linesOK_handle_nano_keys h
      | Vim => exact linesOK_handle_editor_keys h
    | down => cases ed.editor_style with
      | Nano => exact linesOK_handle_nano_keys h
      | Vim => exact linesOK_handle_editor_keys h
    | home => cases ed.editor_style with
      | Nano => exact linesOK_handle_nano_keys h
      | Vim => exact linesOK_handle_editor_keys h
    | endKey => cases ed.editor_style with
      | Nano => exact linesOK_handle_nano_keys h
      | Vim => exact linesOK_handle_editor_keys h
    | pageUp => cases ed.editor_style with
      | Nano => exact linesOK_handle_nano_keys h
      | Vim => exact linesOK_handle_editor_keys h
    | pageDown => cases ed.editor_style with
      | Nano => exact linesOK_handle_nano_keys h
      | Vim => exact linesOK_handle_editor_keys h
  · rw [if_neg hc]
    cases ed.editor_style with
    | Nano => exact linesOK_handle_nano_keys h
    | Vim => exact linesOK_handle_editor_keys h

theorem linesOK_runEditor {ed : TextEditor} (h : LinesOK ed) :
    ∀ evs : List Ev, LinesOK (runEditor ed evs)
  | [] => h
  | _ :: rest => linesOK_runEditor (linesOK_editorStep h) rest

theorem linesOK_new (content : List Char) : LinesOK (TextEditor.new content) := by
  unfold TextEditor.new
  exact linesOK_intro (nonempty_fix_ne_nil _) stackOK_nil stackOK_nil

@[simp] theorem save_undo_lines (ed : TextEditor) :
    ed.save_undo.lines = ed.lines := rfl

@[simp] theorem save_undo_cursor_row (ed : TextEditor) :
    ed.save_undo.cursor_row = ed.cursor_row := rfl

@[simp] theorem save_undo_cursor_col (ed : TextEditor) :
    ed.save_undo.cursor_col = ed.cursor_col := rfl

@[simp] theorem save_undo_mode (ed : TextEditor) :
    ed.save_undo.mode = ed.mode := rfl

@[simp] theorem save_undo_visual_start_row (ed : TextEditor) :
    ed.save_undo.visual_start_row = ed.visual_start_row := rfl

@[simp] theorem save_undo_visual_start_col (ed : TextEditor) :
    ed.save_undo.visual_start_col = ed.visual_start_col := rfl

@[simp] theorem enter_normal_mode_lines (ed : TextEditor) :
    ed.enter_normal_mode.lines = ed.lines := rfl

@[simp] theorem clamp_cursor_col_lines (ed : TextEditor) :
    ed.clamp_cursor_col.lines = ed.lines := rfl

/-- `delete_line` on a one-line buffer clears the line instead of removing
it. -/
theorem delete_line_single {ed : TextEditor} (h1 : ed.lines.length = 1) :
    ed.delete_line.lines = [[]] := by
  unfold TextEditor.delete_line
  dsimp only
  rw [if_neg (by simp [h1])]
  show ed.lines.set 0 [] = [[]]
  cases hl : ed.lines with
  | nil => rw [hl] at h1; simp at h1
  | cons a t =>
    cases t with
    | nil => simp
    | cons b t2 => rw [hl] at h1; simp at h1

/-- `delete_lines` with the cursor on the first row and a count reaching the
end of the buffer drains everything and re-inserts a single empty line. -/
theorem delete_lines_all {ed : TextEditor} {n : Nat} (hrow : ed.cursor_row = 0)
    (hn : ed.lines.length ≤ n) : (ed.delete_lines n).lines = [[]] := by
  unfold TextEditor.delete_lines
  dsimp only
  rw [save_undo_lines, save_undo_cursor_row, hrow]
  simp [Nat.min_eq_right hn, List.drop_eq_nil_iff]

/-- The `dG` arm of the pending-operator dispatch: with the cursor on the
first row it drains every line and re-inserts a single empty line. -/
theorem pendingDispatch_dG_all {ed : TextEditor} {count : Nat}
    (hp : ed.pending_op = PendingOperator.Delete) (hrow : ed.cursor_row = 0) :
    ((pendingDispatch ed (Key.char 'G') count).getD ed).lines = [[]] := by
  unfold pendingDispatch
  rw [if_neg (show ¬(ed.pending_op = PendingOperator.Delete ∧ Key.char 'G' = Key.char 'd') by simp)]
  rw [if_neg (show ¬(ed.pending_op = PendingOperator.Yank ∧ Key.char 'G' = Key.char 'y') by simp)]
  rw [if_neg (show ¬(ed.pending_op = PendingOperator.Change ∧ Key.char 'G' = Key.char 'c') by simp)]
  rw [if_neg (show ¬(ed.pending_op = PendingOperator.Indent ∧ Key.char 'G' = Key.char '>') by simp)]
  rw [if_neg (show ¬(ed.pending_op = PendingOperator.Outdent ∧ Key.char 'G' = Key.char '<') by simp)]
  rw [if_neg (show ¬(ed.pending_op = PendingOperator.Delete ∧ Key.char 'G' = Key.char '$') by simp)]
  rw [if_neg (show ¬(ed.pending_op = PendingOperator.Yank ∧ Key.char 'G' = Key.char '$') by simp)]
  rw [if_neg (show ¬(ed.pending_op = PendingOperator.Change ∧ Key.char 'G' = Key.char '$') by simp)]
  rw [if_neg (show ¬(ed.pending_op = PendingOperator.Delete ∧ Key.char 'G' = Key.char 'w') by simp)]
  rw [if_pos (show ed.pending_op = PendingOperator.Delete ∧
      Key.char 'G' = Key.char 'G' from ⟨hp, rfl⟩)]
  dsimp only [Option.getD]
  show (if ed.lines.take ed.cursor_row = [] then [[]]
      else ed.lines.take ed.cursor_row) = [[]]
  rw [hrow]
  simp

/-- The first component of the normalised visual selection is 0 when the
cursor is on the first row. -/
theorem get_visual_selection_fst {ed : TextEditor} (hrow : ed.cursor_row = 0) :
    ed.get_visual_selection.1 = 0 := by
  unfold TextEditor.get_visual_selection
  dsimp only
  split <;> split <;> dsimp only <;> omega

/-- The end row of the normalised visual selection reaches the last line when
the cursor sits on row 0 and the anchor covers the rest. -/
theorem get_visual_selection_er {ed : TextEditor} (hrow : ed.cursor_row = 0)
    (hvs : ed.lines.length ≤ ed.visual_start_row + 1) :
    ed.lines.length ≤ ed.get_visual_selection.2.2.1 + 1 := by
  unfold TextEditor.get_visual_selection
  dsimp only
  split <;> split <;> dsimp only <;> omega

/-- VisualLine delete with a selection covering the whole buffer leaves a
single empty line. -/
theorem delete_visual_line_all {ed : TextEditor}
    (hm : ed.mode = VimMode.VisualLine) (hrow : ed.cursor_row = 0)
    (hvs : ed.lines.length ≤ ed.visual_start_row + 1) :
    ed.delete_visual_selection.lines = [[]] := by
  have hfst : ed.save_undo.get_visual_selection.1 = 0 :=
    get_visual_selection_fst hrow
  have her : ed.lines.length ≤ ed.save_undo.get_visual_selection.2.2.1 + 1 :=
    get_visual_selection_er hrow hvs
  unfold TextEditor.delete_visual_selection
  dsimp only
  rcases hsel : ed.save_undo.get_visual_selection with ⟨sr, sc, er, ec⟩
  rw [hsel] at hfst her
  dsimp only at hfst her
  subst hfst
  rw [enter_normal_mode_lines]
  dsimp only
  rw [if_pos (show ed.save_undo.mode = VimMode.VisualLine from hm)]
  dsimp only
  rw [if_pos (show List.take 0 ed.save_undo.lines ++
      List.drop (er + 1) ed.save_undo.lines = [] by
    simp [List.drop_eq_nil_iff]
    omega)]

/-- C1: For every sequence of editing actions applied to a session, the
buffer's line count is at least 1 at every point (every prefix of a key
sequence is itself a sequence, so the universally quantified statement
covers every intermediate state); and the delete operations that remove the
remaining content — `delete_line` on the sole line, `delete_lines` reaching
the end, the `dG` delete-to-end-of-buffer arm at row 0, and a VisualLine
delete covering the whole buffer — leave exactly one empty line. -/
theorem C1_line_count_invariant :
    (∀ (content : List Char) (evs : List Ev),
      1 ≤ (runEditor (TextEditor.new content) evs).lines.length)
    ∧ (∀ ed : TextEditor, ed.lines.length = 1 → ed.delete_line.lines = [[]])
    ∧ (∀ (ed : TextEditor) (n : Nat), ed.cursor_row = 0 →
        ed.lines.length ≤ n → (ed.delete_lines n).lines = [[]])
    ∧ (∀ (ed : TextEditor) (count : Nat),
        ed.pending_op = PendingOperator.Delete → ed.cursor_row = 0 →
        ((pendingDispatch ed (Key.char 'G') count).getD ed).lines = [[]])
    ∧ (∀ ed : TextEditor, ed.mode = VimMode.VisualLine → ed.cursor_row = 0 →
        ed.lines.length ≤ ed.visual_start_row + 1 →
        ed.delete_visual_selection.lines = [[]]) := by
  refine ⟨?_, ?_, ?_, ?_, ?_⟩
  · intro content evs
    exact List.length_pos.mpr (linesOK_runEditor (linesOK_new content) evs).1
  · intro ed h1
    exact delete_line_single h1
  · intro ed n hrow hn
    exact delete_lines_all hrow hn
  · intro ed count hp hrow
    exact pendingDispatch_dG_all hp hrow
  · intro ed hm hrow hvs
    exact delete_visual_line_all hm hrow hvs

/-- Witness for C1 at concrete inputs, discharging each hypothesis. -/
theorem C1_line_count_invariant_witness :
    1 ≤ (runEditor (TextEditor.new (cs "one\ntwo"))
      [Ev.plain (Key.char 'x')]).lines.length
    ∧ (TextEditor.new (cs "ab")).delete_line.lines = [[]]
    ∧ ((TextEditor.new (cs "one\ntwo")).delete_lines 5).lines = [[]]
    ∧ ((pendingDispatch
        { TextEditor.new (cs "one\ntwo") with
          pending_op := PendingOperator.Delete } (Key.char 'G') 1).getD
        { TextEditor.new (cs "one\ntwo") with
          pending_op := PendingOperator.Delete }).lines = [[]]
    ∧ ({ TextEditor.new (cs "one\ntwo") with
        mode := VimMode.VisualLine,
        visual_start_row := 1 }).delete_visual_selection.lines = [[]] :=
  ⟨C1_line_count_invariant.1 (cs "one\ntwo") [Ev.plain (Key.char 'x')],
   C1_line_count_invariant.2.1 _ (by decide),
   C1_line_count_invariant.2.2.1 _ 5 (by decide) (by decide),
   C1_line_count_invariant.2.2.2.1 _ 1 (by decide) (by decide),
   C1_line_count_invariant.2.2.2.2 _ (by decide) (by decide) (by decide)⟩

/-- The mode-dependent cursor-column bound from `clamp_cursor_col` (§3 of the
data model): Insert mode allows sitting past the last character. -/
def colBound (ed : TextEditor) : Nat :=
  if ed.mode = VimMode.Insert then ed.get_current_line.length
  else ed.get_current_line.length - 1

/-- Well-formedness of a cursor state: non-empty buffer, row in range, column
within the mode-dependent bound. -/
def WF (ed : TextEditor) : Prop :=
  ed.lines ≠ [] ∧ ed.cursor_row < ed.lines.length ∧ ed.cursor_col ≤ colBound ed

/-- `save_undo` leaves the pre-operation snapshot on top of the undo stack
(the eviction of the oldest entry never touches the top). -/
theorem save_undo_stack_shape (ed : TextEditor) :
    ∃ rest, ed.save_undo.undo_stack =
      (ed.lines, ed.cursor_row, ed.cursor_col) :: rest := by
  unfold TextEditor.save_undo
  dsimp only
  split
  · cases hstk : ed.undo_stack with
    | nil =>
      rename_i hlen
      rw [hstk] at hlen
      simp at hlen
    | cons b t =>
      rw [List.dropLast_cons₂]
      exact ⟨_, rfl⟩
  · exact ⟨ed.undo_stack, rfl⟩

/-- `undo` on a state whose top undo entry is a well-formed snapshot restores
that snapshot exactly: the `min` and clamping are no-ops. -/
theorem undo_restores {ed' : TextEditor} {L : List (List Char)} {r c : Nat}
    {rest : List (List (List Char) × Nat × Nat)}
    (hst : ed'.undo_stack = (L, r, c) :: rest)
    (hr : r < L.length)
    (hc : c ≤ if ed'.mode = VimMode.Insert then (L.getD r []).length
      else (L.getD r []).length - 1) :
    ed'.undo.lines = L ∧ ed'.undo.cursor_row = r ∧ ed'.undo.cursor_col = c := by
  unfold TextEditor.undo
  rw [hst]
  have hmin : min r (L.length - 1) = r := by omega
  refine ⟨rfl, ?_, ?_⟩
  · show min r (L.length - 1) = r
    exact hmin
  · show min c _ = c
    unfold colBound TextEditor.get_current_line at *
    dsimp only
    rw [hmin]
    split
    · rename_i hmode
      rw [if_pos hmode] at hc
      omega
    · rename_i hmode
      rw [if_neg hmode] at hc
      omega

/-- The single mutating primitives quantified over in the undo round-trip
claim. -/
inductive MutPrim
  | deleteChar
  | deleteLines (n : Nat)
  | pasteAfter
  | replaceChar (c : Char)
  | deleteVisualSelection
deriving DecidableEq, Repr

/-- Application of a mutating primitive. -/
def applyMut : MutPrim → TextEditor → TextEditor
  | MutPrim.deleteChar, ed => ed.delete_char
  | MutPrim.deleteLines n, ed => ed.delete_lines n
  | MutPrim.pasteAfter, ed => ed.paste_after
  | MutPrim.replaceChar c, ed => ed.replace_char c
  | MutPrim.deleteVisualSelection, ed => ed.delete_visual_selection

/-- Side conditions under which each primitive actually runs its `save_undo`
path: `paste_after` returns early on an empty register, and the visual delete
is only ever invoked from a Visual mode. -/
def mutPre : MutPrim → TextEditor → Prop
  | MutPrim.pasteAfter, ed => ed.clipboard ≠ []
  | MutPrim.deleteVisualSelection, ed =>
    ed.mode = VimMode.Visual ∨ ed.mode = VimMode.VisualLine
  | _, _ => True

/-- The non-panicking domain of the Rust `TextEditor::delete_visual_selection`
(editor.rs 1130-1187), read off its indexing and slicing expressions: the
VisualLine arm drains `sr..=er` after `get_visual_selection` has indexed
`self.lines[er]`; the single-line arm indexes `self.lines[sr]` and slices
`chars[sc..=ec.min(chars.len().saturating_sub(1))]` (inclusive, so it panics
whenever the line is empty, and otherwise requires
`sc ≤ ec.min(len-1) + 1`) and `chars[..sc]`; the multi-line arm indexes
`self.lines[sr]` and `self.lines[er]`, slices `first_chars[sc..]` and
`last_chars[..=ec.min(last_chars.len().saturating_sub(1))]` (panicking on an
empty last line).  Outside this predicate the Rust function aborts and the
clamping model above diverges from it. -/
def delete_visual_selection_in_bounds (ed : TextEditor) : Prop :=
  match ed.get_visual_selection with
  | (sr, sc, er, ec) =>
    (ed.mode = VimMode.VisualLine → er < ed.lines.length)
    ∧ (ed.mode ≠ VimMode.VisualLine → sr = er →
        sr < ed.lines.length ∧ 0 < (ed.lines.getD sr []).length ∧
        sc ≤ min ec ((ed.lines.getD sr []).length - 1) + 1)
    ∧ (ed.mode ≠ VimMode.VisualLine → sr ≠ er →
        sr < ed.lines.length ∧ er < ed.lines.length ∧
        sc ≤ (ed.lines.getD sr []).length ∧
        0 < (ed.lines.getD er []).length)

theorem delete_char_undo_stack (ed : TextEditor) :
    ed.delete_char.undo_stack = ed.save_undo.undo_stack := by
  unfold TextEditor.delete_char
  repeat' (first | split | (dsimp only; split))
  all_goals rfl

theorem delete_char_mode (ed : TextEditor) : ed.delete_char.mode = ed.mode := by
  unfold TextEditor.delete_char
  repeat' (first | split | (dsimp only; split))
  all_goals rfl

theorem delete_lines_undo_stack (ed : TextEditor) (n : Nat) :
    (ed.delete_lines n).undo_stack = ed.save_undo.undo_stack := rfl

theorem delete_lines_mode (ed : TextEditor) (n : Nat) :
    (ed.delete_lines n).mode = ed.mode := rfl

theorem paste_after_undo_stack (ed : TextEditor) (h : ed.clipboard ≠ []) :
    ed.paste_after.undo_stack = ed.save_undo.undo_stack := by
  unfold TextEditor.paste_after
  rw [if_neg h]
  repeat' (first | split | (dsimp only; split))
  all_goals rfl

theorem paste_after_mode (ed : TextEditor) (h : ed.clipboard ≠ []) :
    ed.paste_after.mode = ed.mode := by
  unfold TextEditor.paste_after
  rw [if_neg h]
  repeat' (first | split | (dsimp only; split))
  all_goals rfl

theorem replace_char_undo_stack (ed : TextEditor) (c : Char) :
    (ed.replace_char c).undo_stack = ed.save_undo.undo_stack := by
  unfold TextEditor.replace_char
  repeat' (first | split | (dsimp only; split))
  all_goals rfl

theorem replace_char_mode (ed : TextEditor) (c : Char) :
    (ed.replace_char c).mode = ed.mode := by
  unfold TextEditor.replace_char
  repeat' (first | split | (dsimp only; split))
  all_goals rfl

theorem dvs_undo_stack (ed : TextEditor) :
    ed.delete_visual_selection.undo_stack = ed.save_undo.undo_stack := by
  unfold TextEditor.delete_visual_selection
  repeat' (first | split | (dsimp only; split))
  all_goals rfl

theorem dvs_mode (ed : TextEditor) :
    ed.delete_visual_selection.mode = VimMode.Normal := by
  unfold TextEditor.delete_visual_selection
  repeat' (first | split | (dsimp only; split))
  all_goals rfl

/-- C2: calling `undo()` immediately after any single mutating primitive that
snapshots through `save_undo` (delete_char, delete_lines, paste_after with a
non-empty register, replace_char, delete_visual_selection from a Visual mode)
restores the buffer lines and the cursor exactly, for every well-formed
state.  For `delete_visual_selection` the statement additionally assumes
`delete_visual_selection_in_bounds`, i.e. that the Rust function actually
completes: outside that domain (e.g. a character-wise selection on an empty
line, reachable by `v` then `d` on an empty buffer) the Rust panics at its
inclusive slice and no undo can happen, so no round trip is asserted
there. -/
theorem C2_undo_round_trip (ed : TextEditor) (p : MutPrim) (hwf : WF ed)
    (hp : mutPre p ed)
    (hsafe : p = MutPrim.deleteVisualSelection →
      delete_visual_selection_in_bounds ed) :
    (applyMut p ed).undo.lines = ed.lines ∧
    (applyMut p ed).undo.cursor_row = ed.cursor_row ∧
    (applyMut p ed).undo.cursor_col = ed.cursor_col := by
  obtain ⟨rest, hshape⟩ := save_undo_stack_shape ed
  have hbound : ed.cursor_col ≤
      if ed.mode = VimMode.Insert then (ed.lines.getD ed.cursor_row []).length
      else (ed.lines.getD ed.cursor_row []).length - 1 := hwf.2.2
  cases p with
  | deleteChar =>
    apply undo_restores
    · rw [show (applyMut MutPrim.deleteChar ed).undo_stack =
        ed.save_undo.undo_stack from delete_char_undo_stack ed]
      exact hshape
    · exact hwf.2.1
    · rw [show (applyMut MutPrim.deleteChar ed).mode = ed.mode from
        delete_char_mode ed]
      exact hbound
  | deleteLines n =>
    apply undo_restores
    · rw [show (applyMut (MutPrim.deleteLines n) ed).undo_stack =
        ed.save_undo.undo_stack from delete_lines_undo_stack ed n]
      exact hshape
    · exact hwf.2.1
    · rw [show (applyMut (MutPrim.deleteLines n) ed).mode = ed.mode from
        delete_lines_mode ed n]
      exact hbound
  | pasteAfter =>
    apply undo_restores
    · rw [show (applyMut MutPrim.pasteAfter ed).undo_stack =
        ed.save_undo.undo_stack from paste_after_undo_stack ed hp]
      exact hshape
    · exact hwf.2.1
    · rw [show (applyMut MutPrim.pasteAfter ed).mode = ed.mode from
        paste_after_mode ed hp]
      exact hbound
  | replaceChar c =>
    apply undo_restores
    · rw [show (applyMut (MutPrim.replaceChar c) ed).undo_stack =
        ed.save_undo.undo_stack from replace_char_undo_stack ed c]
      exact hshape
    · exact hwf.2.1
    · rw [show (applyMut (MutPrim.replaceChar c) ed).mode = ed.mode from
        replace_char_mode ed c]
      exact hbound
  | deleteVisualSelection =>
    apply undo_restores
    · rw [show (applyMut MutPrim.deleteVisualSelection ed).undo_stack =
        ed.save_undo.undo_stack from dvs_undo_stack ed]
      exact hshape
    · exact hwf.2.1
    · rw [show (applyMut MutPrim.deleteVisualSelection ed).mode =
        VimMode.Normal from dvs_mode ed]
      rw [if_neg (by simp)]
      rcases hp with hv | hv <;> rw [hv] at hbound <;> simpa using hbound

/-- Witness for C2: `delete_lines 1` then `undo` on a concrete two-line
buffer restores it, and `delete_visual_selection` then `undo` on the buffer
"ab" with a character-wise selection from (0,0) to (0,1) — a state inside
the Rust function's non-panicking domain — restores it too. -/
theorem C2_undo_round_trip_witness :
    ((applyMut (MutPrim.deleteLines 1)
        (TextEditor.new (cs "one\ntwo"))).undo.lines =
      (TextEditor.new (cs "one\ntwo")).lines
    ∧ (applyMut (MutPrim.deleteLines 1)
        (TextEditor.new (cs "one\ntwo"))).undo.cursor_row =
      (TextEditor.new (cs "one\ntwo")).cursor_row
    ∧ (applyMut (MutPrim.deleteLines 1)
        (TextEditor.new (cs "one\ntwo"))).undo.cursor_col =
      (TextEditor.new (cs "one\ntwo")).cursor_col)
    ∧ ((applyMut MutPrim.deleteVisualSelection
        { TextEditor.new (cs "ab") with
          mode := VimMode.Visual, cursor_col := 1 }).undo.lines =
      ({ TextEditor.new (cs "ab") with
          mode := VimMode.Visual, cursor_col := 1 } : TextEditor).lines
    ∧ (applyMut MutPrim.deleteVisualSelection
        { TextEditor.new (cs "ab") with
          mode := VimMode.Visual, cursor_col := 1 }).undo.cursor_row =
      ({ TextEditor.new (cs "ab") with
          mode := VimMode.Visual, cursor_col := 1 } : TextEditor).cursor_row
    ∧ (applyMut MutPrim.deleteVisualSelection
        { TextEditor.new (cs "ab") with
          mode := VimMode.Visual, cursor_col := 1 }).undo.cursor_col =
      ({ TextEditor.new (cs "ab") with
          mode := VimMode.Visual, cursor_col := 1 } : TextEditor).cursor_col) :=
  ⟨C2_undo_round_trip (TextEditor.new (cs "one\ntwo")) (MutPrim.deleteLines 1)
    ⟨by decide, by decide, by decide⟩ trivial (fun h => nomatch h),
   C2_undo_round_trip
    { TextEditor.new (cs "ab") with mode := VimMode.Visual, cursor_col := 1 }
    MutPrim.deleteVisualSelection
    ⟨by decide, by decide, by decide⟩ (Or.inl rfl)
    (fun _ =>
      And.intro (fun h => nomatch h)
        (And.intro
          (fun _ _ =>
            And.intro (by decide) (And.intro (by decide) (by decide)))
          (fun _ hne => absurd rfl hne)))⟩

/-- C3: REFUTED by the code. The claimed invariant `cursor_col ≤ colBound`
fails on a reachable state: on the one-line buffer "a", pressing `x` (delete
the character, leaving an empty line) and then `p` (character-wise paste of
the register "a") yields a Normal-mode state whose current line has length 1
but whose cursor column is 1, exceeding the non-Insert bound
`max(len-1,0) = 0`, because `paste_after` sets
`cursor_col = cursor_col + 1 + text.len - 1` without clamping. -/
theorem C3_cursor_col_bound_violated :
    (runEditor (TextEditor.new (cs "a"))
        [Ev.plain (Key.char 'x'), Ev.plain (Key.char 'p')]).mode =
      VimMode.Normal
    ∧ (runEditor (TextEditor.new (cs "a"))
        [Ev.plain (Key.char 'x'), Ev.plain (Key.char 'p')]).get_current_line.length
      = 1
    ∧ (runEditor (TextEditor.new (cs "a"))
        [Ev.plain (Key.char 'x'), Ev.plain (Key.char 'p')]).cursor_col = 1
    ∧ ¬ ((runEditor (TextEditor.new (cs "a"))
        [Ev.plain (Key.char 'x'), Ev.plain (Key.char 'p')]).cursor_col ≤
      colBound (runEditor (TextEditor.new (cs "a"))
        [Ev.plain (Key.char 'x'), Ev.plain (Key.char 'p')])) := by
  refine ⟨rfl, rfl, rfl, ?_⟩
  decide

/-- C4 counterexample: on buffer "abc\ndef", entering Visual mode with the
anchor at (0,1) and moving the cursor to (1,1), deleting the selection does
NOT produce the single line "ae" claimed by the spec: the deletion is
inclusive of the end column, so the character at (1,1) is removed too. -/
theorem C4_visual_delete_counterexample :
    (runEditor (TextEditor.new (cs "abc\ndef"))
        [Ev.plain (Key.char 'l'), Ev.plain (Key.char 'v'),
         Ev.plain (Key.char 'j'), Ev.plain (Key.char 'd')]).lines ≠
      [cs "ae"] := by
  decide

/-- C4 (amended): on buffer "abc\ndef" with Visual anchor (0,1) and cursor
moved to (1,1), deleting the selection yields the single line "af" — the
fragment of line 0 strictly before column 1 joined with the fragment of
line 1 strictly after column 1 (the end column being deleted inclusively) —
and returns to Normal mode with the cursor at (0,1). -/
theorem C4_visual_delete_amended :
    (runEditor (TextEditor.new (cs "abc\ndef"))
        [Ev.plain (Key.char 'l'), Ev.plain (Key.char 'v'),
         Ev.plain (Key.char 'j'), Ev.plain (Key.char 'd')]).lines =
      [cs "af"]
    ∧ (runEditor (TextEditor.new (cs "abc\ndef"))
        [Ev.plain (Key.char 'l'), Ev.plain (Key.char 'v'),
         Ev.plain (Key.char 'j'), Ev.plain (Key.char 'd')]).mode =
      VimMode.Normal
    ∧ (runEditor (TextEditor.new (cs "abc\ndef"))
        [Ev.plain (Key.char 'l'), Ev.plain (Key.char 'v'),
         Ev.plain (Key.char 'j'), Ev.plain (Key.char 'd')]).cursor_row = 0
    ∧ (runEditor (TextEditor.new (cs "abc\ndef"))
        [Ev.plain (Key.char 'l'), Ev.plain (Key.char 'v'),
         Ev.plain (Key.char 'j'), Ev.plain (Key.char 'd')]).cursor_col = 1 := by
  refine ⟨rfl, rfl, rfl, rfl⟩

/-- C5 counterexample: with operator `d` pending on buffer "ab", the key `x`
is not one of the Delete operator's completion keys (`pendingDispatch`
rejects it), yet the keystroke is NOT side-effect free: the buffer is
mutated (the character under the cursor is deleted), because the catch-all
arm of the pending-operator match clears the operator but lacks a `return`,
so the key falls through and is re-executed as a normal command. -/
theorem C5_pending_noop_counterexample :
    pendingDispatch
        ((runEditor (TextEditor.new (cs "ab"))
            [Ev.plain (Key.char 'd')]).get_count).2
        (Key.char 'x')
        ((runEditor (TextEditor.new (cs "ab"))
            [Ev.plain (Key.char 'd')]).get_count).1 = none
    ∧ (runEditor (TextEditor.new (cs "ab"))
        [Ev.plain (Key.char 'd')]).pending_op = PendingOperator.Delete
    ∧ (runEditor (TextEditor.new (cs "ab"))
        [Ev.plain (Key.char 'd'), Ev.plain (Key.char 'x')]).lines ≠
      (TextEditor.new (cs "ab")).lines := by
  refine ⟨rfl, rfl, ?_⟩
  decide

/-- C5 (amended): with an operator pending, a keystroke that is neither a
count digit nor one of the operator's completion keys clears the pending
operator and the count buffer and is then re-interpreted as a fresh
Normal-mode command on that cleared state (rather than being discarded
without side effects, as the spec claims). -/
theorem C5_pending_fallthrough_amended (ed : TextEditor) (k : Key)
    (hd : isCountDigit ed k = none)
    (hp : ed.pending_op ≠ PendingOperator.None)
    (hc : pendingDispatch (ed.get_count).2 k (ed.get_count).1 = none) :
    handle_normal_mode_keys ed k =
      handle_normal_mode_keys
        { ed with pending_op := PendingOperator.None, count_buffer := [] } k := by
  have hd2 : isCountDigit
      { ed with pending_op := PendingOperator.None, count_buffer := [] } k = none := by
    unfold isCountDigit at hd ⊢
    cases k <;> try rfl
    rename_i c
    dsimp only at hd ⊢
    by_cases hdig : c.isDigit = true
    · rw [if_pos hdig] at hd ⊢
      by_cases h0 : c = '0'
      · rw [if_neg]
        intro hor
        rcases hor with h | h
        · exact h h0
        · exact h rfl
      · rw [if_pos (Or.inl h0)] at hd
        exact Option.noConfusion hd
    · rw [if_neg hdig]
  unfold handle_normal_mode_keys
  rw [hd, hd2]
  dsimp only
  rw [if_pos hp, hc]
  rw [if_neg (fun h => h rfl)]
  rfl

/-- Witness for C5 (amended): pending Delete on buffer "ab", key `x`. -/
theorem C5_pending_fallthrough_amended_witness :
    isCountDigit
        { TextEditor.new (cs "ab") with pending_op := PendingOperator.Delete }
        (Key.char 'x') = none
    ∧ ({ TextEditor.new (cs "ab") with
          pending_op := PendingOperator.Delete } : TextEditor).pending_op ≠
        PendingOperator.None
    ∧ pendingDispatch
        (({ TextEditor.new (cs "ab") with
            pending_op := PendingOperator.Delete } : TextEditor).get_count).2
        (Key.char 'x')
        (({ TextEditor.new (cs "ab") with
            pending_op := PendingOperator.Delete } : TextEditor).get_count).1 =
        none
    ∧ handle_normal_mode_keys
        { TextEditor.new (cs "ab") with pending_op := PendingOperator.Delete }
        (Key.char 'x') =
      handle_normal_mode_keys
        { { TextEditor.new (cs "ab") with
            pending_op := PendingOperator.Delete } with
          pending_op := PendingOperator.None, count_buffer := [] }
        (Key.char 'x') :=
  ⟨by decide, by decide, by decide,
    C5_pending_fallthrough_amended
      { TextEditor.new (cs "ab") with pending_op := PendingOperator.Delete }
      (Key.char 'x') (by decide) (by decide) (by decide)⟩

/-- C6 counterexample: typing `i` then `z` on buffer "ab" mutates the buffer
through `insert_char` and sets the modified flag, yet the undo stack is
still empty afterwards — `insert_char` (and the Insert-mode key handler)
never push an UndoEntry, refuting "every mutating primitive pushes an
UndoEntry first". -/
theorem C6_insert_undo_counterexample :
    (runEditor (TextEditor.new (cs "ab"))
        [Ev.plain (Key.char 'i'), Ev.plain (Key.char 'z')]).lines ≠
      (TextEditor.new (cs "ab")).lines
    ∧ (runEditor (TextEditor.new (cs "ab"))
        [Ev.plain (Key.char 'i'), Ev.plain (Key.char 'z')]).modified = true
    ∧ (runEditor (TextEditor.new (cs "ab"))
        [Ev.plain (Key.char 'i'), Ev.plain (Key.char 'z')]).undo_stack = [] := by
  refine ⟨?_, rfl, rfl⟩
  decide

/-- C6 (amended): the primitives routed through `save_undo` (delete_char,
delete_lines, paste_after on a non-empty register, replace_char,
delete_visual_selection) do push a snapshot of the pre-operation lines and
cursor as the new top of the undo stack; but the Insert-mode primitives
`insert_char`, `insert_newline` and `backspace` — which is exactly what the
Insert-mode key handler calls for character, Enter and Backspace keys —
mutate the buffer and set the modified flag WITHOUT pushing any undo entry:
the undo stack is unchanged. -/
theorem C6_undo_push_amended (ed : TextEditor) (c : Char) (p : MutPrim)
    (hp : mutPre p ed) :
    (applyMut p ed).undo_stack.head? =
      some (ed.lines, ed.cursor_row, ed.cursor_col)
    ∧ (ed.insert_char c).undo_stack = ed.undo_stack
    ∧ (ed.insert_char c).modified = true
    ∧ ed.insert_newline.undo_stack = ed.undo_stack
    ∧ ed.insert_newline.modified = true
    ∧ ed.backspace.undo_stack = ed.undo_stack
    ∧ handle_insert_mode_keys ed (Key.char c) = ed.insert_char c
    ∧ handle_insert_mode_keys ed Key.enter = ed.insert_newline
    ∧ handle_insert_mode_keys ed Key.backspace = ed.backspace := by
  obtain ⟨rest, hshape⟩ := save_undo_stack_shape ed
  refine ⟨?_, rfl, rfl, rfl, rfl, ?_, rfl, rfl, rfl⟩
  · cases p with
    | deleteChar => rw [show (applyMut MutPrim.deleteChar ed).undo_stack =
        ed.save_undo.undo_stack from delete_char_undo_stack ed, hshape]; rfl
    | deleteLines n => rw [show (applyMut (MutPrim.deleteLines n) ed).undo_stack =
        ed.save_undo.undo_stack from delete_lines_undo_stack ed n, hshape]; rfl
    | pasteAfter => rw [show (applyMut MutPrim.pasteAfter ed).undo_stack =
        ed.save_undo.undo_stack from paste_after_undo_stack ed hp, hshape]; rfl
    | replaceChar ch => rw [show (applyMut (MutPrim.replaceChar ch) ed).undo_stack =
        ed.save_undo.undo_stack from replace_char_undo_stack ed ch, hshape]; rfl
    | deleteVisualSelection => rw [show
        (applyMut MutPrim.deleteVisualSelection ed).undo_stack =
        ed.save_undo.undo_stack from dvs_undo_stack ed, hshape]; rfl
  · unfold TextEditor.backspace
    repeat' (first | split | (dsimp only; split))
    all_goals rfl

/-- Witness for C6 (amended): buffer "ab", character `z`, primitive
`delete_lines 1`. -/
theorem C6_undo_push_amended_witness :
    ((applyMut (MutPrim.deleteLines 1)
        (TextEditor.new (cs "ab"))).undo_stack.head? =
      some ((TextEditor.new (cs "ab")).lines,
        (TextEditor.new (cs "ab")).cursor_row,
        (TextEditor.new (cs "ab")).cursor_col)
    ∧ ((TextEditor.new (cs "ab")).insert_char 'z').undo_stack =
      (TextEditor.new (cs "ab")).undo_stack
    ∧ ((TextEditor.new (cs "ab")).insert_char 'z').modified = true
    ∧ (TextEditor.new (cs "ab")).insert_newline.undo_stack =
      (TextEditor.new (cs "ab")).undo_stack
    ∧ (TextEditor.new (cs "ab")).insert_newline.modified = true
    ∧ (TextEditor.new (cs "ab")).backspace.undo_stack =
      (TextEditor.new (cs "ab")).undo_stack
    ∧ handle_insert_mode_keys (TextEditor.new (cs "ab")) (Key.char 'z') =
      (TextEditor.new (cs "ab")).insert_char 'z'
    ∧ handle_insert_mode_keys (TextEditor.new (cs "ab")) Key.enter =
      (TextEditor.new (cs "ab")).insert_newline
    ∧ handle_insert_mode_keys (TextEditor.new (cs "ab")) Key.backspace =
      (TextEditor.new (cs "ab")).backspace) :=
  C6_undo_push_amended (TextEditor.new (cs "ab")) 'z'
    (MutPrim.deleteLines 1) trivial

theorem splitFirst_append (a b : List Char) (h : '/' ∉ a) :
    splitFirst '/' (a ++ ('/' :: b)) = some (a, b) := by
  induction a with
  | nil => simp [splitFirst]
  | cons c r ih =>
    have hc : c ≠ '/' := fun hc => h (hc ▸ List.mem_cons_self c r)
    have hr : '/' ∉ r := fun hm => h (List.mem_cons_of_mem c hm)
    simp [splitFirst, hc, ih hr]

theorem splitFirst_none (a : List Char) (h : '/' ∉ a) :
    splitFirst '/' a = none := by
  induction a with
  | nil => rfl
  | cons c r ih =>
    have hc : c ≠ '/' := fun hc => h (hc ▸ List.mem_cons_self c r)
    have hr : '/' ∉ r := fun hm => h (List.mem_cons_of_mem c hm)
    simp [splitFirst, hc, ih hr]

theorem splitn3_three (pat rep fl : List Char) (hp : '/' ∉ pat)
    (hr : '/' ∉ rep) :
    splitn3 '/' (pat ++ ('/' :: (rep ++ ('/' :: fl)))) = [pat, rep, fl] := by
  unfold splitn3
  rw [splitFirst_append pat (rep ++ ('/' :: fl)) hp]
  dsimp only
  rw [splitFirst_append rep fl hr]

theorem splitn3_two (pat rep : List Char) (hp : '/' ∉ pat) (hr : '/' ∉ rep) :
    splitn3 '/' (pat ++ ('/' :: rep)) = [pat, rep] := by
  unfold splitn3
  rw [splitFirst_append pat rep hp]
  dsimp only
  rw [splitFirst_none rep hr]

theorem replaceAllGo_of_countGo_zero (p : Char) (ps rep : List Char) :
    ∀ n l, l.length ≤ n → countMatchesGo p ps l = 0 →
      replaceAllGo p ps rep l = l := by
  intro n
  induction n with
  | zero =>
    intro l hl _
    have : l = [] := List.length_eq_zero.mp (Nat.le_zero.mp hl)
    subst this
    unfold replaceAllGo
    rfl
  | succ m ih =>
    intro l hl hc
    cases l with
    | nil =>
      unfold replaceAllGo
      rfl
    | cons c rest =>
      unfold countMatchesGo at hc
      unfold replaceAllGo
      by_cases hm : leadingMatch (p :: ps) (c :: rest) = true
      · rw [if_pos hm] at hc
        exact absurd hc (by omega)
      · rw [if_neg hm] at hc
        rw [if_neg hm]
        have : rest.length ≤ m := by
          simp only [List.length_cons] at hl; omega
        rw [ih rest this hc]

theorem replaceAllStr_of_countMatches_zero (pat rep l : List Char)
    (h : countMatches pat l = 0) : replaceAllStr pat rep l = l := by
  cases pat with
  | nil => exact absurd h (by simp [countMatches])
  | cons p ps =>
    exact replaceAllGo_of_countGo_zero p ps rep l.length l le_rfl h

theorem c7_global_g (ed : TextEditor) (pat rep : List Char)
    (hp : '/' ∉ pat) (hr : '/' ∉ rep) :
    (execute_substitute_core ed
        (cs "%s/" ++ (pat ++ ('/' :: (rep ++ ('/' :: cs "g")))))).lines =
      ed.lines.map (replaceAllStr pat rep)
    ∧ (execute_substitute_core ed
        (cs "%s/" ++ (pat ++ ('/' :: (rep ++ ('/' :: cs "g")))))).status_message =
      (if (ed.lines.map (countMatches pat)).sum > 0 then
        toString (ed.lines.map (countMatches pat)).sum ++ " substitution(s) made"
      else "Pattern not found: " ++ String.mk pat) := by
  unfold execute_substitute_core
  have hglob : leadingMatch (cs "%s/")
      (cs "%s/" ++ (pat ++ ('/' :: (rep ++ ('/' :: cs "g"))))) = true := rfl
  have hdrop : (cs "%s/" ++ (pat ++ ('/' :: (rep ++ ('/' :: cs "g"))))).drop 3 =
      pat ++ ('/' :: (rep ++ ('/' :: cs "g"))) := rfl
  simp only [hglob, eq_self_iff_true, if_true, hdrop]
  rw [splitn3_three pat rep (cs "g") hp hr]
  have hnl : ¬ (([pat, rep, cs "g"] : List (List Char)).length < 2) := by simp
  rw [if_neg hnl]
  have hflag : (if ([pat, rep, cs "g"] : List (List Char)).length > 2
      then [pat, rep, cs "g"].getD 2 [] else []) = cs "g" := rfl
  have hg : (cs "g").contains 'g' = true := rfl
  simp only [hflag]
  simp only [hg, eq_self_iff_true, if_true, List.getD_cons_zero,
    List.getD_cons_succ, save_undo_lines, List.map_map, Function.comp_def]
  by_cases ht : (List.map (fun line => countMatches pat line) ed.lines).sum > 0
  · rw [if_pos ht, if_pos (show (ed.lines.map (countMatches pat)).sum > 0 from ht)]
    exact ⟨rfl, rfl⟩
  · rw [if_neg ht, if_neg (show ¬ (ed.lines.map (countMatches pat)).sum > 0 from ht)]
    exact ⟨rfl, rfl⟩

theorem c7_global_g_zero (ed : TextEditor) (pat rep : List Char)
    (hp : '/' ∉ pat) (hr : '/' ∉ rep)
    (h0 : (ed.lines.map (countMatches pat)).sum = 0) :
    (execute_substitute_core ed
        (cs "%s/" ++ (pat ++ ('/' :: (rep ++ ('/' :: cs "g")))))).lines =
      ed.lines := by
  rw [(c7_global_g ed pat rep hp hr).1]
  have hall : ∀ l ∈ ed.lines, replaceAllStr pat rep l = l := by
    intro l hl
    exact replaceAllStr_of_countMatches_zero pat rep l
      (List.sum_eq_zero_iff.mp h0 _ (List.mem_map_of_mem _ hl))
  rw [List.map_congr_left hall]
  simp

theorem c7_local (ed : TextEditor) (pat rep : List Char)
    (hp : '/' ∉ pat) (hr : '/' ∉ rep) :
    (execute_substitute_core ed (cs "s/" ++ (pat ++ ('/' :: rep)))).lines =
      ed.lines.set ed.cursor_row
        (if containsSub pat (ed.lines.getD ed.cursor_row []) = true
         then replaceFirst pat rep (ed.lines.getD ed.cursor_row [])
         else ed.lines.getD ed.cursor_row [])
    ∧ (execute_substitute_core ed
        (cs "s/" ++ (pat ++ ('/' :: rep)))).status_message =
      (if containsSub pat (ed.lines.getD ed.cursor_row []) = true
       then "1 substitution(s) made"
       else "Pattern not found: " ++ String.mk pat) := by
  unfold execute_substitute_core
  have hglob : leadingMatch (cs "%s/") (cs "s/" ++ (pat ++ ('/' :: rep))) =
      false := rfl
  have hdrop : (cs "s/" ++ (pat ++ ('/' :: rep))).drop 2 =
      pat ++ ('/' :: rep) := rfl
  simp only [hglob, Bool.false_eq_true, if_false, hdrop]
  rw [splitn3_two pat rep hp hr]
  have hnl : ¬ (([pat, rep] : List (List Char)).length < 2) := by simp
  rw [if_neg hnl]
  have hflag : (if ([pat, rep] : List (List Char)).length > 2
      then [pat, rep].getD 2 [] else []) = [] := rfl
  simp only [hflag]
  have hgc : (([] : List Char).contains 'g') = false := rfl
  simp only [hgc, Bool.false_eq_true, if_false, List.getD_cons_zero,
    List.getD_cons_succ, save_undo_lines, save_undo_cursor_row]
  by_cases hc : containsSub pat (ed.lines.getD ed.cursor_row []) = true
  · simp only [hc, eq_self_iff_true, if_true]
    rw [if_pos (show (1:Nat) > 0 from by omega)]
    exact ⟨rfl, rfl⟩
  · simp only [hc, Bool.false_eq_true, if_false]
    rw [if_neg (show ¬ ((0:Nat) > 0) from by omega)]
    exact ⟨rfl, rfl⟩

theorem getD_set_ne (l : List (List Char)) (i j : Nat) (v : List Char)
    (h : j ≠ i) : (l.set i v).getD j [] = l.getD j [] := by
  simp only [List.getD, List.get?_eq_getElem?]
  rw [List.getElem?_set_ne (fun he => h he.symm)]

theorem set_getD_self (l : List (List Char)) (n : Nat) :
    l.set n (l.getD n []) = l := by
  induction l generalizing n with
  | nil => rfl
  | cons c r ih =>
    cases n with
    | zero => simp
    | succ m =>
      simp only [List.set_cons_succ, List.getD_cons_succ]
      exact congrArg (c :: ·) (ih m)

theorem enter_normal_mode_status (ed : TextEditor) :
    ed.enter_normal_mode.status_message = "-- NORMAL --" := rfl

theorem execute_substitute_lines (ed : TextEditor) (c : List Char) :
    (execute_substitute ed c).lines = (execute_substitute_core ed c).lines := rfl

theorem execute_substitute_status (ed : TextEditor) (c : List Char) :
    (execute_substitute ed c).status_message = "-- NORMAL --" := rfl

theorem c7_global_nog (ed : TextEditor) (pat rep : List Char)
    (hp : '/' ∉ pat) (hr : '/' ∉ rep) :
    (execute_substitute_core ed (cs "%s/" ++ (pat ++ ('/' :: rep)))).lines =
      ed.lines.map (fun l =>
        if containsSub pat l = true then replaceFirst pat rep l else l)
    ∧ (execute_substitute_core ed
        (cs "%s/" ++ (pat ++ ('/' :: rep)))).status_message =
      (if (ed.lines.map (fun l =>
            if containsSub pat l = true then 1 else 0)).sum > 0 then
        toString (ed.lines.map (fun l =>
            if containsSub pat l = true then 1 else 0)).sum ++
          " substitution(s) made"
      else "Pattern not found: " ++ String.mk pat) := by
  unfold execute_substitute_core
  have hglob : leadingMatch (cs "%s/") (cs "%s/" ++ (pat ++ ('/' :: rep))) =
      true := rfl
  have hdrop : (cs "%s/" ++ (pat ++ ('/' :: rep))).drop 3 =
      pat ++ ('/' :: rep) := rfl
  simp only [hglob, eq_self_iff_true, if_true, hdrop]
  rw [splitn3_two pat rep hp hr]
  have hnl : ¬ (([pat, rep] : List (List Char)).length < 2) := by simp
  rw [if_neg hnl]
  have hflag : (if ([pat, rep] : List (List Char)).length > 2
      then [pat, rep].getD 2 [] else []) = [] := rfl
  simp only [hflag]
  have hgc : (([] : List Char).contains 'g') = false := rfl
  simp only [hgc, Bool.false_eq_true, if_false, List.getD_cons_zero,
    List.getD_cons_succ, save_undo_lines, List.map_map, Function.comp_def]
  simp only [apply_ite Prod.fst, apply_ite Prod.snd]
  by_cases ht : (List.map (fun line =>
      if containsSub pat line = true then 1 else 0) ed.lines).sum > 0
  · rw [if_pos ht, if_pos (show (ed.lines.map (fun l =>
      if containsSub pat l = true then 1 else 0)).sum > 0 from ht)]
    exact ⟨rfl, rfl⟩
  · rw [if_neg ht, if_neg (show ¬ ((ed.lines.map (fun l =>
      if containsSub pat l = true then 1 else 0)).sum > 0) from ht)]
    exact ⟨rfl, rfl⟩

theorem c7_local_g (ed : TextEditor) (pat rep : List Char)
    (hp : '/' ∉ pat) (hr : '/' ∉ rep) :
    (execute_substitute_core ed
        (cs "s/" ++ (pat ++ ('/' :: (rep ++ ('/' :: cs "g")))))).lines =
      ed.lines.set ed.cursor_row
        (replaceAllStr pat rep (ed.lines.getD ed.cursor_row []))
    ∧ (execute_substitute_core ed
        (cs "s/" ++ (pat ++ ('/' :: (rep ++ ('/' :: cs "g")))))).status_message =
      (if countMatches pat (ed.lines.getD ed.cursor_row []) > 0 then
        toString (countMatches pat (ed.lines.getD ed.cursor_row [])) ++
          " substitution(s) made"
      else "Pattern not found: " ++ String.mk pat) := by
  unfold execute_substitute_core
  have hglob : leadingMatch (cs "%s/")
      (cs "s/" ++ (pat ++ ('/' :: (rep ++ ('/' :: cs "g"))))) = false := rfl
  have hdrop : (cs "s/" ++ (pat ++ ('/' :: (rep ++ ('/' :: cs "g"))))).drop 2 =
      pat ++ ('/' :: (rep ++ ('/' :: cs "g"))) := rfl
  simp only [hglob, Bool.false_eq_true, if_false, hdrop]
  rw [splitn3_three pat rep (cs "g") hp hr]
  have hnl : ¬ (([pat, rep, cs "g"] : List (List Char)).length < 2) := by simp
  rw [if_neg hnl]
  have hflag : (if ([pat, rep, cs "g"] : List (List Char)).length > 2
      then [pat, rep, cs "g"].getD 2 [] else []) = cs "g" := rfl
  simp only [hflag]
  have hg : (cs "g").contains 'g' = true := rfl
  simp only [hg, eq_self_iff_true, if_true, List.getD_cons_zero,
    List.getD_cons_succ, save_undo_lines, save_undo_cursor_row]
  by_cases ht : countMatches pat (ed.lines.getD ed.cursor_row []) > 0
  · rw [if_pos ht, if_pos ht]
    exact ⟨rfl, rfl⟩
  · rw [if_neg ht, if_neg ht]
    exact ⟨rfl, rfl⟩

theorem c7_global_nog_zero (ed : TextEditor) (pat rep : List Char)
    (hp : '/' ∉ pat) (hr : '/' ∉ rep)
    (h0 : (ed.lines.map (fun l =>
        if containsSub pat l = true then 1 else 0)).sum = 0) :
    (execute_substitute_core ed (cs "%s/" ++ (pat ++ ('/' :: rep)))).lines =
      ed.lines := by
  rw [(c7_global_nog ed pat rep hp hr).1]
  have hall : ∀ l ∈ ed.lines, containsSub pat l = false := by
    intro l hl
    have hz := List.sum_eq_zero_iff.mp h0 _ (List.mem_map_of_mem _ hl)
    by_cases hc : containsSub pat l = true
    · rw [if_pos hc] at hz
      exact absurd hz one_ne_zero
    · simpa using hc
  have hid : ∀ l ∈ ed.lines,
      (if containsSub pat l = true then replaceFirst pat rep l else l) = l := by
    intro l hl
    rw [hall l hl]
    simp
  rw [List.map_congr_left hid]
  simp

theorem c7_local_g_zero (ed : TextEditor) (pat rep : List Char)
    (hp : '/' ∉ pat) (hr : '/' ∉ rep)
    (h0 : countMatches pat (ed.lines.getD ed.cursor_row []) = 0) :
    (execute_substitute_core ed
        (cs "s/" ++ (pat ++ ('/' :: (rep ++ ('/' :: cs "g")))))).lines =
      ed.lines := by
  rw [(c7_local_g ed pat rep hp hr).1,
    replaceAllStr_of_countMatches_zero pat rep _ h0,
    set_getD_self]

theorem c7_local_nog_zero (ed : TextEditor) (pat rep : List Char)
    (hp : '/' ∉ pat) (hr : '/' ∉ rep)
    (hc : containsSub pat (ed.lines.getD ed.cursor_row []) = false) :
    (execute_substitute_core ed (cs "s/" ++ (pat ++ ('/' :: rep)))).lines =
      ed.lines := by
  rw [(c7_local ed pat rep hp hr).1,
    if_neg (fun h => by rw [hc] at h; exact Bool.noConfusion h),
    set_getD_self]

theorem c7_example :
    (execute_substitute_core (TextEditor.new (cs "foo foo\nbar"))
        (cs "%s/foo/baz/g")).lines = [cs "baz baz", cs "bar"]
    ∧ (execute_substitute_core (TextEditor.new (cs "foo foo\nbar"))
        (cs "%s/foo/baz/g")).status_message = "2 substitution(s) made" := by
  have hcmd : cs "%s/foo/baz/g" =
      cs "%s/" ++ (cs "foo" ++ ('/' :: (cs "baz" ++ ('/' :: cs "g")))) := by
    decide
  have e1 := c7_global_g (TextEditor.new (cs "foo foo\nbar")) (cs "foo")
      (cs "baz") (by decide) (by decide)
  rw [← hcmd] at e1
  have hl : (TextEditor.new (cs "foo foo\nbar")).lines =
      [cs "foo foo", cs "bar"] := by decide
  constructor
  · rw [e1.1, hl]
    simp +decide [replaceAllStr, replaceAllGo, cs]
  · rw [e1.2, hl]
    simp +decide [countMatches, countMatchesGo, cs]

/-- C7 counterexample: on the claim's own example — buffer ["foo foo","bar"],
command `%s/foo/baz/g` — the buffer does become ["baz baz","bar"], but the
claimed report of the replacement count is never the program's post-command
status: `execute_substitute` computes "2 substitution(s) made" and then its
final `enter_normal_mode()` (events/editor.rs:880) immediately overwrites
the status with "-- NORMAL --". -/
theorem C7_substitute_status_counterexample :
    (execute_substitute (TextEditor.new (cs "foo foo\nbar"))
        (cs "%s/foo/baz/g")).lines = [cs "baz baz", cs "bar"]
    ∧ (execute_substitute (TextEditor.new (cs "foo foo\nbar"))
        (cs "%s/foo/baz/g")).status_message = "-- NORMAL --"
    ∧ (execute_substitute (TextEditor.new (cs "foo foo\nbar"))
        (cs "%s/foo/baz/g")).status_message ≠ "2 substitution(s) made" := by
  refine ⟨?_, rfl, ?_⟩
  · rw [execute_substitute_lines]
    exact c7_example.1
  · rw [execute_substitute_status]
    decide

/-- C7 (amended): scoping and counting of the substitute command, stated for
all four prefix/flag combinations on the real `execute_substitute`.  Buffer
effect: with `%` every line is affected, without `%` only the cursor's line;
with flag `g` every occurrence of the literal pattern in an affected line is
replaced, without it only the first occurrence; zero replacements leave the
buffer unchanged; on buffer ["foo foo","bar"] the command `%s/foo/baz/g`
yields ["baz baz","bar"].  Status: the count ("N substitution(s) made") or
"Pattern not found: <pattern>" is computed exactly as claimed, but only on
`execute_substitute_core` — the state just before the function's final
`enter_normal_mode()` — because that last call overwrites it, so the
post-command status is always "-- NORMAL --" and the claimed report is never
observable after the command. -/
theorem C7_substitute_amended (ed : TextEditor) (pat rep : List Char)
    (hp : '/' ∉ pat) (hr : '/' ∉ rep) :
    (execute_substitute (TextEditor.new (cs "foo foo\nbar"))
        (cs "%s/foo/baz/g")).lines = [cs "baz baz", cs "bar"]
    ∧ (execute_substitute_core (TextEditor.new (cs "foo foo\nbar"))
        (cs "%s/foo/baz/g")).status_message = "2 substitution(s) made"
    ∧ (execute_substitute ed
        (cs "%s/" ++ (pat ++ ('/' :: (rep ++ ('/' :: cs "g")))))).lines =
      ed.lines.map (replaceAllStr pat rep)
    ∧ (execute_substitute_core ed
        (cs "%s/" ++ (pat ++ ('/' :: (rep ++ ('/' :: cs "g")))))).status_message =
      (if (ed.lines.map (countMatches pat)).sum > 0 then
        toString (ed.lines.map (countMatches pat)).sum ++ " substitution(s) made"
      else "Pattern not found: " ++ String.mk pat)
    ∧ ((ed.lines.map (countMatches pat)).sum = 0 →
      (execute_substitute ed
        (cs "%s/" ++ (pat ++ ('/' :: (rep ++ ('/' :: cs "g")))))).lines =
      ed.lines)
    ∧ (execute_substitute ed (cs "%s/" ++ (pat ++ ('/' :: rep)))).lines =
      ed.lines.map (fun l =>
        if containsSub pat l = true then replaceFirst pat rep l else l)
    ∧ (execute_substitute_core ed
        (cs "%s/" ++ (pat ++ ('/' :: rep)))).status_message =
      (if (ed.lines.map (fun l =>
            if containsSub pat l = true then 1 else 0)).sum > 0 then
        toString (ed.lines.map (fun l =>
            if containsSub pat l = true then 1 else 0)).sum ++
          " substitution(s) made"
      else "Pattern not found: " ++ String.mk pat)
    ∧ ((ed.lines.map (fun l =>
          if containsSub pat l = true then 1 else 0)).sum = 0 →
      (execute_substitute ed (cs "%s/" ++ (pat ++ ('/' :: rep)))).lines =
      ed.lines)
    ∧ (execute_substitute ed
        (cs "s/" ++ (pat ++ ('/' :: (rep ++ ('/' :: cs "g")))))).lines =
      ed.lines.set ed.cursor_row
        (replaceAllStr pat rep (ed.lines.getD ed.cursor_row []))
    ∧ (execute_substitute_core ed
        (cs "s/" ++ (pat ++ ('/' :: (rep ++ ('/' :: cs "g")))))).status_message =
      (if countMatches pat (ed.lines.getD ed.cursor_row []) > 0 then
        toString (countMatches pat (ed.lines.getD ed.cursor_row [])) ++
          " substitution(s) made"
      else "Pattern not found: " ++ String.mk pat)
    ∧ (countMatches pat (ed.lines.getD ed.cursor_row []) = 0 →
      (execute_substitute ed
        (cs "s/" ++ (pat ++ ('/' :: (rep ++ ('/' :: cs "g")))))).lines =
      ed.lines)
    ∧ (execute_substitute ed (cs "s/" ++ (pat ++ ('/' :: rep)))).lines =
      ed.lines.set ed.cursor_row
        (if containsSub pat (ed.lines.getD ed.cursor_row []) = true
         then replaceFirst pat rep (ed.lines.getD ed.cursor_row [])
         else ed.lines.getD ed.cursor_row [])
    ∧ (∀ i, i ≠ ed.cursor_row →
      (execute_substitute ed
        (cs "s/" ++ (pat ++ ('/' :: rep)))).lines.getD i [] =
      ed.lines.getD i [])
    ∧ (execute_substitute_core ed
        (cs "s/" ++ (pat ++ ('/' :: rep)))).status_message =
      (if containsSub pat (ed.lines.getD ed.cursor_row []) = true
       then "1 substitution(s) made"
       else "Pattern not found: " ++ String.mk pat)
    ∧ (containsSub pat (ed.lines.getD ed.cursor_row []) = false →
      (execute_substitute ed (cs "s/" ++ (pat ++ ('/' :: rep)))).lines =
      ed.lines)
    ∧ (execute_substitute ed
        (cs "%s/" ++ (pat ++ ('/' :: (rep ++ ('/' :: cs "g")))))).status_message =
      "-- NORMAL --"
    ∧ (execute_substitute ed
        (cs "%s/" ++ (pat ++ ('/' :: rep)))).status_message = "-- NORMAL --"
    ∧ (execute_substitute ed
        (cs "s/" ++ (pat ++ ('/' :: (rep ++ ('/' :: cs "g")))))).status_message =
      "-- NORMAL --"
    ∧ (execute_substitute ed
        (cs "s/" ++ (pat ++ ('/' :: rep)))).status_message = "-- NORMAL --" := by
  refine ⟨?_, c7_example.2, ?_, (c7_global_g ed pat rep hp hr).2, ?_, ?_,
    (c7_global_nog ed pat rep hp hr).2, ?_, ?_,
    (c7_local_g ed pat rep hp hr).2, ?_, ?_, ?_,
    (c7_local ed pat rep hp hr).2, ?_, rfl, rfl, rfl, rfl⟩
  · rw [execute_substitute_lines]
    exact c7_example.1
  · rw [execute_substitute_lines]
    exact (c7_global_g ed pat rep hp hr).1
  · intro h0
    rw [execute_substitute_lines]
    exact c7_global_g_zero ed pat rep hp hr h0
  · rw [execute_substitute_lines]
    exact (c7_global_nog ed pat rep hp hr).1
  · intro h0
    rw [execute_substitute_lines]
    exact c7_global_nog_zero ed pat rep hp hr h0
  · rw [execute_substitute_lines]
    exact (c7_local_g ed pat rep hp hr).1
  · intro h0
    rw [execute_substitute_lines]
    exact c7_local_g_zero ed pat rep hp hr h0
  · rw [execute_substitute_lines]
    exact (c7_local ed pat rep hp hr).1
  · intro i hi
    rw [execute_substitute_lines, (c7_local ed pat rep hp hr).1]
    exact getD_set_ne ed.lines ed.cursor_row i _ hi
  · intro hc
    rw [execute_substitute_lines]
    exact c7_local_nog_zero ed pat rep hp hr hc

/-- Witness for C7 (amended): buffer "ab", pattern "foo", replacement
"baz". -/
theorem C7_substitute_amended_witness :
    ('/' ∉ cs "foo") ∧ ('/' ∉ cs "baz") ∧
    (    (execute_substitute (TextEditor.new (cs "foo foo\nbar"))
        (cs "%s/foo/baz/g")).lines = [cs "baz baz", cs "bar"]
    ∧ (execute_substitute_core (TextEditor.new (cs "foo foo\nbar"))
        (cs "%s/foo/baz/g")).status_message = "2 substitution(s) made"
    ∧ (execute_substitute (TextEditor.new (cs "ab"))
        (cs "%s/" ++ ((cs "foo") ++ ('/' :: ((cs "baz") ++ ('/' :: cs "g")))))).lines =
      (TextEditor.new (cs "ab")).lines.map (replaceAllStr (cs "foo") (cs "baz"))
    ∧ (execute_substitute_core (TextEditor.new (cs "ab"))
        (cs "%s/" ++ ((cs "foo") ++ ('/' :: ((cs "baz") ++ ('/' :: cs "g")))))).status_message =
      (if ((TextEditor.new (cs "ab")).lines.map (countMatches (cs "foo"))).sum > 0 then
        toString ((TextEditor.new (cs "ab")).lines.map (countMatches (cs "foo"))).sum ++ " substitution(s) made"
      else "Pattern not found: " ++ String.mk (cs "foo"))
    ∧ (((TextEditor.new (cs "ab")).lines.map (countMatches (cs "foo"))).sum = 0 →
      (execute_substitute (TextEditor.new (cs "ab"))
        (cs "%s/" ++ ((cs "foo") ++ ('/' :: ((cs "baz") ++ ('/' :: cs "g")))))).lines =
      (TextEditor.new (cs "ab")).lines)
    ∧ (execute_substitute (TextEditor.new (cs "ab")) (cs "%s/" ++ ((cs "foo") ++ ('/' :: (cs "baz"))))).lines =
      (TextEditor.new (cs "ab")).lines.map (fun l =>
        if containsSub (cs "foo") l = true then replaceFirst (cs "foo") (cs "baz") l else l)
    ∧ (execute_substitute_core (TextEditor.new (cs "ab"))
        (cs "%s/" ++ ((cs "foo") ++ ('/' :: (cs "baz"))))).status_message =
      (if ((TextEditor.new (cs "ab")).lines.map (fun l =>
            if containsSub (cs "foo") l = true then 1 else 0)).sum > 0 then
        toString ((TextEditor.new (cs "ab")).lines.map (fun l =>
            if containsSub (cs "foo") l = true then 1 else 0)).sum ++
          " substitution(s) made"
      else "Pattern not found: " ++ String.mk (cs "foo"))
    ∧ (((TextEditor.new (cs "ab")).lines.map (fun l =>
          if containsSub (cs "foo") l = true then 1 else 0)).sum = 0 →
      (execute_substitute (TextEditor.new (cs "ab")) (cs "%s/" ++ ((cs "foo") ++ ('/' :: (cs "baz"))))).lines =
      (TextEditor.new (cs "ab")).lines)
    ∧ (execute_substitute (TextEditor.new (cs "ab"))
        (cs "s/" ++ ((cs "foo") ++ ('/' :: ((cs "baz") ++ ('/' :: cs "g")))))).lines =
      (TextEditor.new (cs "ab")).lines.set (TextEditor.new (cs "ab")).cursor_row
        (replaceAllStr (cs "foo") (cs "baz") ((TextEditor.new (cs "ab")).lines.getD (TextEditor.new (cs "ab")).cursor_row []))
    ∧ (execute_substitute_core (TextEditor.new (cs "ab"))
        (cs "s/" ++ ((cs "foo") ++ ('/' :: ((cs "baz") ++ ('/' :: cs "g")))))).status_message =
      (if countMatches (cs "foo") ((TextEditor.new (cs "ab")).lines.getD (TextEditor.new (cs "ab")).cursor_row []) > 0 then
        toString (countMatches (cs "foo") ((TextEditor.new (cs "ab")).lines.getD (TextEditor.new (cs "ab")).cursor_row [])) ++
          " substitution(s) made"
      else "Pattern not found: " ++ String.mk (cs "foo"))
    ∧ (countMatches (cs "foo") ((TextEditor.new (cs "ab")).lines.getD (TextEditor.new (cs "ab")).cursor_row []) = 0 →
      (execute_substitute (TextEditor.new (cs "ab"))
        (cs "s/" ++ ((cs "foo") ++ ('/' :: ((cs "baz") ++ ('/' :: cs "g")))))).lines =
      (TextEditor.new (cs "ab")).lines)
    ∧ (execute_substitute (TextEditor.new (cs "ab")) (cs "s/" ++ ((cs "foo") ++ ('/' :: (cs "baz"))))).lines =
      (TextEditor.new (cs "ab")).lines.set (TextEditor.new (cs "ab")).cursor_row
        (if containsSub (cs "foo") ((TextEditor.new (cs "ab")).lines.getD (TextEditor.new (cs "ab")).cursor_row []) = true
         then replaceFirst (cs "foo") (cs "baz") ((TextEditor.new (cs "ab")).lines.getD (TextEditor.new (cs "ab")).cursor_row [])
         else (TextEditor.new (cs "ab")).lines.getD (TextEditor.new (cs "ab")).cursor_row [])
    ∧ (∀ i, i ≠ (TextEditor.new (cs "ab")).cursor_row →
      (execute_substitute (TextEditor.new (cs "ab"))
        (cs "s/" ++ ((cs "foo") ++ ('/' :: (cs "baz"))))).lines.getD i [] =
      (TextEditor.new (cs "ab")).lines.getD i [])
    ∧ (execute_substitute_core (TextEditor.new (cs "ab"))
        (cs "s/" ++ ((cs "foo") ++ ('/' :: (cs "baz"))))).status_message =
      (if containsSub (cs "foo") ((TextEditor.new (cs "ab")).lines.getD (TextEditor.new (cs "ab")).cursor_row []) = true
       then "1 substitution(s) made"
       else "Pattern not found: " ++ String.mk (cs "foo"))
    ∧ (containsSub (cs "foo") ((TextEditor.new (cs "ab")).lines.getD (TextEditor.new (cs "ab")).cursor_row []) = false →
      (execute_substitute (TextEditor.new (cs "ab")) (cs "s/" ++ ((cs "foo") ++ ('/' :: (cs "baz"))))).lines =
      (TextEditor.new (cs "ab")).lines)
    ∧ (execute_substitute (TextEditor.new (cs "ab"))
        (cs "%s/" ++ ((cs "foo") ++ ('/' :: ((cs "baz") ++ ('/' :: cs "g")))))).status_message =
      "-- NORMAL --"
    ∧ (execute_substitute (TextEditor.new (cs "ab"))
        (cs "%s/" ++ ((cs "foo") ++ ('/' :: (cs "baz"))))).status_message = "-- NORMAL --"
    ∧ (execute_substitute (TextEditor.new (cs "ab"))
        (cs "s/" ++ ((cs "foo") ++ ('/' :: ((cs "baz") ++ ('/' :: cs "g")))))).status_message =
      "-- NORMAL --"
    ∧ (execute_substitute (TextEditor.new (cs "ab"))
        (cs "s/" ++ ((cs "foo") ++ ('/' :: (cs "baz"))))).status_message = "-- NORMAL --") :=
  ⟨by decide, by decide,
    C7_substitute_amended (TextEditor.new (cs "ab")) (cs "foo") (cs "baz")
      (by decide) (by decide)⟩

theorem leadingMatch_take (pat l : List Char) (e : Nat)
    (h : leadingMatch pat (l.take e) = true) : leadingMatch pat l = true := by
  induction pat generalizing l e with
  | nil => rfl
  | cons p ps ih =>
    cases l with
    | nil => simpa using h
    | cons c rest =>
      cases e with
      | zero => simp [leadingMatch] at h
      | succ m =>
        simp only [List.take_succ_cons, leadingMatch, Bool.and_eq_true,
          decide_eq_true_eq] at h ⊢
        exact ⟨h.1, ih rest m h.2⟩

theorem findSub_drop_none (pat l : List Char) (s : Nat)
    (h : findSub pat l = none) : findSub pat (l.drop s) = none := by
  induction l generalizing s with
  | nil => simpa using h
  | cons c rest ih =>
    unfold findSub at h
    by_cases hm : leadingMatch pat (c :: rest) = true
    · rw [if_pos hm] at h; exact Option.noConfusion h
    · rw [if_neg hm] at h
      have hrest : findSub pat rest = none := by
        cases hr : findSub pat rest
        · rfl
        · rw [hr] at h; exact Option.noConfusion h
      cases s with
      | zero =>
        rw [List.drop_zero]
        unfold findSub
        rw [if_neg hm, hrest]
        rfl
      | succ m =>
        simpa using ih m hrest

theorem findSub_take_none (pat l : List Char) (e : Nat)
    (h : findSub pat l = none) : findSub pat (l.take e) = none := by
  induction l generalizing e with
  | nil => simpa using h
  | cons c rest ih =>
    unfold findSub at h
    by_cases hm : leadingMatch pat (c :: rest) = true
    · rw [if_pos hm] at h; exact Option.noConfusion h
    · rw [if_neg hm] at h
      have hrest : findSub pat rest = none := by
        cases hr : findSub pat rest
        · rfl
        · rw [hr] at h; exact Option.noConfusion h
      have hpat : pat ≠ [] := by
        intro hp
        subst hp
        exact hm rfl
      cases e with
      | zero =>
        simp [findSub, hpat]
      | succ m =>
        have hm2 : leadingMatch pat ((c :: rest).take (m + 1)) ≠ true := by
          intro hmt
          exact hm (leadingMatch_take pat (c :: rest) (m + 1) hmt)
        simp only [List.take_succ_cons] at hm2 ⊢
        unfold findSub
        rw [if_neg hm2, ih m hrest]
        rfl

theorem rfindSub_none (pat l : List Char) (h : findSub pat l = none) :
    rfindSub pat l = none := by
  induction l with
  | nil => simpa [findSub, rfindSub] using h
  | cons c rest ih =>
    unfold findSub at h
    by_cases hm : leadingMatch pat (c :: rest) = true
    · rw [if_pos hm] at h; exact Option.noConfusion h
    · rw [if_neg hm] at h
      have hrest : findSub pat rest = none := by
        cases hr : findSub pat rest
        · rfl
        · rw [hr] at h; exact Option.noConfusion h
      unfold rfindSub
      rw [ih hrest, if_neg hm]

theorem getD_mem_or (l : List (List Char)) (n : Nat) :
    l.getD n [] ∈ l ∨ l.getD n [] = [] := by
  by_cases h : n < l.length
  · left
    rw [List.getD_eq_getElem l [] h]
    exact l.getElem_mem h
  · right
    exact List.getD_eq_default l [] (by omega)

theorem findSub_getD_none (lines : List (List Char)) (pat : List Char)
    (hpat : pat ≠ [])
    (hall : ∀ line ∈ lines, containsSub pat line = false) (row : Nat) :
    findSub pat (lines.getD row []) = none := by
  rcases getD_mem_or lines row with hm | he
  · have := hall _ hm
    unfold containsSub at this
    cases hf : findSub pat (lines.getD row [])
    · rfl
    · rw [hf] at this; simp at this
  · rw [he]
    simp [findSub, hpat]

theorem findSome?_none_of {α : Type} (f : α → Option (Nat × Nat)) (l : List α)
    (h : ∀ a, f a = none) : l.findSome? f = none := by
  induction l with
  | nil => rfl
  | cons a r ih => simp [List.findSome?_cons, h a, ih]

theorem searchRowFwd_none (lines : List (List Char)) (pat : List Char)
    (hpat : pat ≠ [])
    (hall : ∀ line ∈ lines, containsSub pat line = false)
    (sr sc row : Nat) : searchRowFwd lines pat sr sc row = none := by
  unfold searchRowFwd
  dsimp only
  rw [findSub_drop_none pat _ _ (findSub_getD_none lines pat hpat hall row)]

theorem searchRowFwdWrap_none (lines : List (List Char)) (pat : List Char)
    (hpat : pat ≠ [])
    (hall : ∀ line ∈ lines, containsSub pat line = false)
    (sr cc row : Nat) : searchRowFwdWrap lines pat sr cc row = none := by
  unfold searchRowFwdWrap
  dsimp only
  rw [findSub_take_none pat _ _ (findSub_getD_none lines pat hpat hall row)]

theorem searchRowBack_none (lines : List (List Char)) (pat : List Char)
    (hpat : pat ≠ [])
    (hall : ∀ line ∈ lines, containsSub pat line = false)
    (sr sc row : Nat) : searchRowBack lines pat sr sc row = none := by
  unfold searchRowBack
  dsimp only
  rw [rfindSub_none pat _
    (findSub_take_none pat _ _ (findSub_getD_none lines pat hpat hall row))]

theorem searchRowBackWrap_none (lines : List (List Char)) (pat : List Char)
    (hpat : pat ≠ [])
    (hall : ∀ line ∈ lines, containsSub pat line = false)
    (sr sc row : Nat) : searchRowBackWrap lines pat sr sc row = none := by
  unfold searchRowBackWrap
  dsimp only
  rw [rfindSub_none pat _
    (findSub_drop_none pat _ _ (findSub_getD_none lines pat hpat hall row))]
  repeat' split
  all_goals first | rfl | simp_all

theorem search_next_lines (ed : TextEditor) : ed.search_next.lines = ed.lines := by
  unfold TextEditor.search_next
  repeat' (first | split | (dsimp only; split))
  all_goals rfl

theorem search_prev_lines (ed : TextEditor) : ed.search_prev.lines = ed.lines := by
  unfold TextEditor.search_prev
  repeat' (first | split | (dsimp only; split))
  all_goals rfl

theorem search_next_notfound (ed : TextEditor) (hpat : ed.search_pattern ≠ [])
    (hall : ∀ line ∈ ed.lines, containsSub ed.search_pattern line = false) :
    ed.search_next =
      { ed with status_message :=
          "Pattern not found: " ++ String.mk ed.search_pattern } := by
  unfold TextEditor.search_next
  rw [if_neg hpat]
  dsimp only
  rw [findSome?_none_of _ _
    (searchRowFwd_none ed.lines ed.search_pattern hpat hall ed.cursor_row
      (ed.cursor_col + 1))]
  dsimp only
  rw [findSome?_none_of _ _
    (searchRowFwdWrap_none ed.lines ed.search_pattern hpat hall ed.cursor_row
      ed.cursor_col)]

theorem search_prev_notfound (ed : TextEditor) (hpat : ed.search_pattern ≠ [])
    (hall : ∀ line ∈ ed.lines, containsSub ed.search_pattern line = false) :
    ed.search_prev =
      { ed with status_message :=
          "Pattern not found: " ++ String.mk ed.search_pattern } := by
  unfold TextEditor.search_prev
  rw [if_neg hpat]
  dsimp only
  rw [findSome?_none_of _ _
    (searchRowBack_none ed.lines ed.search_pattern hpat hall ed.cursor_row
      ed.cursor_col)]
  dsimp only
  rw [findSome?_none_of _ _
    (searchRowBackWrap_none ed.lines ed.search_pattern hpat hall ed.cursor_row
      ed.cursor_col)]

/-- C8: a search that cannot succeed never moves the cursor and never touches
the buffer.  `search_next`/`search_prev` always leave the lines unchanged;
with no recorded pattern they only set the status "No search pattern"; with a
non-empty pattern that occurs in no line of the buffer (so neither the
forward region nor the wrapped region can contain a match) they only set the
status "Pattern not found: <pattern>" — the whole state is otherwise
untouched. -/
theorem C8_search_miss (ed : TextEditor) :
    ed.search_next.lines = ed.lines
    ∧ ed.search_prev.lines = ed.lines
    ∧ (ed.search_pattern = [] →
        ed.search_next = { ed with status_message := "No search pattern" }
        ∧ ed.search_prev = { ed with status_message := "No search pattern" })
    ∧ (ed.search_pattern ≠ [] →
       (∀ line ∈ ed.lines, containsSub ed.search_pattern line = false) →
        ed.search_next =
          { ed with status_message :=
              "Pattern not found: " ++ String.mk ed.search_pattern }
        ∧ ed.search_prev =
          { ed with status_message :=
              "Pattern not found: " ++ String.mk ed.search_pattern }) := by
  refine ⟨search_next_lines ed, search_prev_lines ed, ?_, ?_⟩
  · intro h
    constructor
    · unfold TextEditor.search_next
      rw [if_pos h]
    · unfold TextEditor.search_prev
      rw [if_pos h]
  · intro hpat hall
    exact ⟨search_next_notfound ed hpat hall, search_prev_notfound ed hpat hall⟩

/-- Witness for C8: the fresh buffer "ab" (empty pattern), and the same
buffer with recorded pattern "zz" which occurs nowhere. -/
theorem C8_search_miss_witness :
    ((TextEditor.new (cs "ab")).search_pattern = []
    ∧ (TextEditor.new (cs "ab")).search_next =
        { TextEditor.new (cs "ab") with status_message := "No search pattern" }
    ∧ (TextEditor.new (cs "ab")).search_prev =
        { TextEditor.new (cs "ab") with status_message := "No search pattern" })
    ∧ (({ TextEditor.new (cs "ab") with
          search_pattern := cs "zz" } : TextEditor).search_next =
        { { TextEditor.new (cs "ab") with search_pattern := cs "zz" } with
          status_message := "Pattern not found: " ++ String.mk (cs "zz") }
    ∧ ({ TextEditor.new (cs "ab") with
          search_pattern := cs "zz" } : TextEditor).search_prev =
        { { TextEditor.new (cs "ab") with search_pattern := cs "zz" } with
          status_message := "Pattern not found: " ++ String.mk (cs "zz") }) :=
  ⟨⟨by decide,
    (C8_search_miss (TextEditor.new (cs "ab"))).2.2.1 (by decide)⟩,
    (C8_search_miss
      { TextEditor.new (cs "ab") with search_pattern := cs "zz" }).2.2.2
      (by decide) (by decide)⟩

theorem rustLinesGo_no_nl (s : List Char) :
    ∀ cur, '\n' ∉ s →
      rustLinesGo cur s = if cur ++ s = [] then [] else [cur ++ s] := by
  induction s with
  | nil => intro cur _; simp [rustLinesGo]
  | cons c rest ih =>
    intro cur h
    have hc : c ≠ '\n' := fun he => h (he ▸ List.mem_cons_self c rest)
    have hr : '\n' ∉ rest := fun hm => h (List.mem_cons_of_mem c hm)
    unfold rustLinesGo
    rw [if_neg hc, ih (cur ++ [c]) hr]
    simp

/-- C9 counterexample: `new` on the line-break-free input "abc" yields the
single line "abc", not a single empty line as the spec claims for every
line-break-free input. -/
theorem C9_new_counterexample :
    ('\n' ∉ cs "abc") ∧ (TextEditor.new (cs "abc")).lines ≠ [[]] := by
  decide

/-- C9 (amended): for every input that is empty or contains no line break,
`new` produces the single line equal to the input itself (so the buffer is a
single EMPTY line only for empty input), with the cursor at (0,0) and the
mode Normal. -/
theorem C9_new_amended (s : List Char) (h : '\n' ∉ s) :
    (TextEditor.new s).lines = [s]
    ∧ (TextEditor.new s).cursor_row = 0
    ∧ (TextEditor.new s).cursor_col = 0
    ∧ (TextEditor.new s).mode = VimMode.Normal := by
  refine ⟨?_, rfl, rfl, rfl⟩
  show (let lines := rustLines s
        let lines := if lines = [] then [[]] else lines
        lines) = [s]
  dsimp only
  unfold rustLines
  rw [rustLinesGo_no_nl s [] h]
  simp only [List.nil_append]
  by_cases hs : s = []
  · subst hs
    simp
  · rw [if_neg hs, if_neg (by simp)]

/-- Witness for C9 (amended): the input "abc". -/
theorem C9_new_amended_witness :
    ('\n' ∉ cs "abc")
    ∧ (TextEditor.new (cs "abc")).lines = [cs "abc"]
    ∧ (TextEditor.new (cs "abc")).cursor_row = 0
    ∧ (TextEditor.new (cs "abc")).cursor_col = 0
    ∧ (TextEditor.new (cs "abc")).mode = VimMode.Normal :=
  ⟨by decide, C9_new_amended (cs "abc") (by decide)⟩

theorem stripCR_no_cr (l : List Char) (h : '\r' ∉ l) : stripCR l = l := by
  unfold stripCR
  rw [if_neg]
  intro hl
  exact h (List.mem_of_mem_getLast? hl)

theorem rustLinesGo_ne_nil2 (s : List Char) :
    ∀ cur, cur ≠ [] ∨ s ≠ [] → rustLinesGo cur s ≠ [] := by
  induction s with
  | nil =>
    intro cur hc
    rcases hc with hc | hc
    · simp [rustLinesGo, hc]
    · exact absurd rfl hc
  | cons c rest ih =>
    intro cur _
    unfold rustLinesGo
    by_cases hc : c = '\n'
    · rw [if_pos hc]; simp
    · rw [if_neg hc]
      exact ih (cur ++ [c]) (Or.inl (by simp))

theorem joinNL_cons_ne (l : List Char) (t : List (List Char)) (ht : t ≠ []) :
    joinNL (l :: t) = l ++ '\n' :: joinNL t := by
  cases t with
  | nil => exact absurd rfl ht
  | cons x xs => rfl

theorem joinNL_rustLinesGo (s : List Char) :
    ∀ cur, '\r' ∉ cur → '\r' ∉ s → s.getLast? ≠ some '\n' →
      joinNL (rustLinesGo cur s) = cur ++ s := by
  induction s with
  | nil =>
    intro cur _ _ _
    unfold rustLinesGo
    by_cases hc : cur = []
    · rw [if_pos hc, hc]; rfl
    · rw [if_neg hc]
      simp [joinNL]
  | cons c rest ih =>
    intro cur hcur hs hlast
    have hcr : c ≠ '\r' := fun he => hs (he ▸ List.mem_cons_self c rest)
    have hrest : '\r' ∉ rest := fun hm => hs (List.mem_cons_of_mem c hm)
    unfold rustLinesGo
    by_cases hc : c = '\n'
    · rw [if_pos hc]
      have hrne : rest ≠ [] := by
        intro he
        subst he hc
        exact hlast rfl
      have hlast2 : rest.getLast? ≠ some '\n' := by
        cases rest with
        | nil => simp
        | cons x xs =>
          rw [List.getLast?_cons_cons] at hlast
          exact hlast
      rw [joinNL_cons_ne _ _ (rustLinesGo_ne_nil2 rest [] (Or.inr hrne))]
      rw [stripCR_no_cr cur hcur, ih [] (by simp) hrest hlast2]
      rw [hc]
      rfl
    · rw [if_neg hc]
      have hlast2 : rest.getLast? ≠ some '\n' := by
        cases rest with
        | nil => simp
        | cons x xs =>
          rw [List.getLast?_cons_cons] at hlast
          exact hlast
      have hcur2 : '\r' ∉ cur ++ [c] := by
        intro hm
        rcases List.mem_append.mp hm with hm | hm
        · exact hcur hm
        · exact hcr (List.mem_singleton.mp hm).symm
      rw [ih (cur ++ [c]) hcur2 hrest hlast2]
      simp

/-- C10: constructing a session over a string with no carriage return and no
trailing line feed and exporting it immediately is the identity
(`get_content (new s) = s`); a trailing line feed is NOT preserved:
`new "a\n"` exports just "a". -/
theorem C10_content_round_trip (s : List Char) (hcr : '\r' ∉ s)
    (hnl : s.getLast? ≠ some '\n') :
    (TextEditor.new s).get_content = s
    ∧ (TextEditor.new (cs "a\n")).get_content = cs "a" := by
  constructor
  · show joinNL (TextEditor.new s).lines = s
    show joinNL (let lines := rustLines s
                 let lines := if lines = [] then [[]] else lines
                 lines) = s
    dsimp only
    unfold rustLines
    by_cases hs : s = []
    · subst hs
      rfl
    · rw [if_neg (rustLinesGo_ne_nil2 s [] (Or.inr hs))]
      exact joinNL_rustLinesGo s [] (by simp) hcr hnl
  · rfl

/-- Witness for C10: the input "abc". -/
theorem C10_content_round_trip_witness :
    ('\r' ∉ cs "abc") ∧ (cs "abc").getLast? ≠ some '\n'
    ∧ (TextEditor.new (cs "abc")).get_content = cs "abc"
    ∧ (TextEditor.new (cs "a\n")).get_content = cs "a" :=
  ⟨by decide, by decide,
    C10_content_round_trip (cs "abc") (by decide) (by decide)⟩
